import Mathlib

/-!
# Frame acquisition pipeline of the Raspberry Pi camera capture

A shallow embedding of `src/shared/capture/RPiCamera.cpp` (class `rpi::RPiCamera`) and of the
frame accessor of `src/shared/capture/capture_rpi.cpp` (class `CaptureRPi`).

The C++ object is a record of its member variables.  The MMAL library the code calls is not part
of the repository; the embedding keeps the part of its state the program can observe through the
handles it holds:

* a pointer member is an `Option`; the pointee (`MMAL_POOL_T`, `MMAL_PORT_T`, the frame queue) is
  stored inside it, so a dangling pointer still shows the last value of its pointee;
* `MMAL_PORT_T.held` is the list of buffer headers the hardware port owns at the moment;
* every MMAL call that reaches the hardware layer is appended to `RPiCamera.calls`, every line
  written to stderr to `RPiCamera.diag`;
* a status returned by MMAL is an input of the embedded function (`MmalAnswers` for `start`,
  the argument `sendStatus` for the steady-state recycling).

The two execution contexts are interleaved sequentially: a callback runs to completion.
-/

namespace rpi

set_option linter.unusedVariables false

/-! ## MMAL types -/

/-- Status code returned by MMAL calls (`MMAL_STATUS_T`); `0` is success. -/
abbrev MMAL_STATUS_T := Nat

abbrev MMAL_SUCCESS : MMAL_STATUS_T := 0
abbrev MMAL_ENOMEM : MMAL_STATUS_T := 1
abbrev MMAL_EINVAL : MMAL_STATUS_T := 3
abbrev MMAL_ENOSYS : MMAL_STATUS_T := 4

/-- Number of preview buffers, `#define VIDEO_OUTPUT_BUFFERS_NUM 3`. -/
abbrev VIDEO_OUTPUT_BUFFERS_NUM : Nat := 3

abbrev MMAL_CAMERA_PREVIEW_PORT : Nat := 0
abbrev MMAL_CAMERA_VIDEO_PORT : Nat := 1
abbrev MMAL_CAMERA_CAPTURE_PORT : Nat := 2

/-- A buffer header.  `pool` and `idx` identify the header (owning pool, slot in that pool);
`length` and `data` are the fields the preview callback reads (`data = 0` is the null pointer). -/
structure MMAL_BUFFER_HEADER_T where
  pool : Nat
  idx : Nat
  length : Nat
  data : Nat
deriving DecidableEq

/-- Identity of a buffer header, whatever the hardware last wrote into it. -/
def MMAL_BUFFER_HEADER_T.ident (b : MMAL_BUFFER_HEADER_T) : Nat × Nat := (b.pool, b.idx)

/-- An MMAL queue of buffer headers, oldest first. -/
abbrev MMAL_QUEUE_T := List MMAL_BUFFER_HEADER_T

/-- A buffer pool: `headers_num` headers and the queue of the ones that are free. -/
structure MMAL_POOL_T where
  handle : Nat
  headers_num : Nat
  queue : MMAL_QUEUE_T
deriving DecidableEq

/-- The preview output port, as far as the program reads or writes it. -/
structure MMAL_PORT_T where
  component : Nat
  is_enabled : Bool
  buffer_num : Nat
  buffer_size : Nat
  buffer_num_recommended : Nat
  buffer_size_recommended : Nat
  held : List MMAL_BUFFER_HEADER_T
deriving DecidableEq

/-- Pixel encodings (`MMAL_FOURCC_T`) the sources name, and any other four-character code. -/
inductive MMAL_FOURCC_T where
  | RGB24
  | UYVY
  | OPAQUE_ENC
  | other (code : Nat)
deriving DecidableEq

inductive MMAL_PARAM_EXPOSUREMODE_T where
  | OFF
  | other (v : Int)
deriving DecidableEq

inductive MMAL_PARAM_AWBMODE_T where
  | OFF
  | other (v : Int)
deriving DecidableEq

inductive MMAL_PARAMETER_ALGORITHM_CONTROL_ALGORITHMS_T where
  | VIDEO_DENOISE
  | other (v : Int)
deriving DecidableEq

inductive MMAL_PARAM_CAMERA_USE_CASE_T where
  | VIDEO_CAPTURE
  | other (v : Int)
deriving DecidableEq

inductive MMAL_PARAM_MIRROR_T where
  | NONE
  | VERTICAL
  | HORIZONTAL
  | BOTH
deriving DecidableEq

/-- The metering mode is only passed through. -/
abbrev MMAL_PARAM_EXPOSUREMETERINGMODE_T := Int

inductive CameraIso where
  | CAMERA_ISO_100
  | CAMERA_ISO_200
  | CAMERA_ISO_400
  | CAMERA_ISO_800
deriving DecidableEq

inductive CameraRotation where
  | CAMERA_ROTATE_0
  | CAMERA_ROTATE_90
  | CAMERA_ROTATE_180
  | CAMERA_ROTATE_270
deriving DecidableEq

inductive CameraMirror where
  | CAMERA_MIRROR_NONE
  | CAMERA_MIRROR_HORIZONTAL
  | CAMERA_MIRROR_VERTICAL
  | CAMERA_MIRROR_BOTH
deriving DecidableEq

structure Resolution where
  width : Int
  height : Int
deriving DecidableEq

/-- A port of a camera component: its control port or `output[i]`. -/
inductive PortRef where
  | control
  | output (i : Nat)
deriving DecidableEq

/-- Parameter identifiers used by the sources (`MMAL_PARAMETER_*`). -/
inductive MMAL_PARAMETER where
  | CAMERA_NUM
  | CAMERA_CONFIG
  | ZERO_COPY
  | SUPPORTED_ENCODINGS
  | SYSTEM_TIME
  | SATURATION
  | SHARPNESS
  | CONTRAST
  | BRIGHTNESS
  | ISO
  | EXP_METERING_MODE
  | EXPOSURE_COMP
  | EXPOSURE_MODE
  | AWB_MODE
  | CUSTOM_AWB_GAINS
  | ROTATION
  | MIRROR
  | SHUTTER_SPEED
  | ALGORITHM_CONTROL
  | CAMERA_USE_CASE
  | ZERO_SHUTTER_LAG
  | ANALOG_GAIN
  | DIGITAL_GAIN
deriving DecidableEq

/-- The value handed to `mmal_port_parameter_set` and its typed wrappers. -/
inductive ParamValue where
  | int32 (v : Int)
  | uint32 (v : Nat)
  | boolean (b : Bool)
  | rational (num den : Int)
  | camera_config (max_w max_h num_preview_video_frames : Nat)
  | metering (m : MMAL_PARAM_EXPOSUREMETERINGMODE_T)
  | exposure_mode (m : MMAL_PARAM_EXPOSUREMODE_T)
  | awb_mode (m : MMAL_PARAM_AWBMODE_T)
  | awb_gains (r_num r_den b_num b_den : Int)
  | mirror (m : MMAL_PARAM_MIRROR_T)
  | algorithm_control (algo : MMAL_PARAMETER_ALGORITHM_CONTROL_ALGORITHMS_T) (enabled : Nat)
  | use_case (u : MMAL_PARAM_CAMERA_USE_CASE_T)
  | zero_shutter_lag (mode concurrent_capture : Nat)
deriving DecidableEq

/-- The elementary stream format written before `mmal_port_format_commit`. -/
structure VideoFormat where
  encoding : MMAL_FOURCC_T
  /-- `es->video.width`, a `uint32_t` -/
  width : Nat
  /-- `es->video.height`, a `uint32_t` -/
  height : Nat
  /-- `es->video.crop.width`, an `int32_t`, as is `crop.height` -/
  crop_width : Int
  crop_height : Int
  frame_rate_num : Nat
deriving DecidableEq

/-- A call into the MMAL hardware layer, with the handles it is made on.  The software queue
primitives (`mmal_queue_*`) touch no hardware and are not recorded. -/
inductive MmalCall where
  | component_create
  | component_enable (c : Nat)
  | component_disable (c : Nat)
  | component_destroy (c : Nat)
  | port_parameter_set (c : Nat) (port : PortRef) (id : MMAL_PARAMETER) (value : ParamValue)
  | port_parameter_get (c : Nat) (port : PortRef) (id : MMAL_PARAMETER)
  | port_enable (c : Nat) (port : PortRef)
  | port_disable (c : Nat) (port : PortRef)
  | port_format_commit (c : Nat) (port : PortRef) (fmt : VideoFormat)
  | port_pool_create (c : Nat) (num size : Nat)
  | pool_destroy (pool : Nat)
  | port_send_buffer (c : Nat) (b : Option MMAL_BUFFER_HEADER_T)
  | buffer_header_release (b : MMAL_BUFFER_HEADER_T)
  | buffer_header_mem_lock (b : MMAL_BUFFER_HEADER_T)
  | buffer_header_mem_unlock (b : MMAL_BUFFER_HEADER_T)
deriving DecidableEq

/-- The lines the sources print to stderr. -/
inductive Diag where
  | zero_length_buffer
  | zero_buffer_handle
  | could_not_send_buffer (status : MMAL_STATUS_T)
  | could_not_get_buffer
  | failed_to_create_component
  | could_not_select_camera (status : MMAL_STATUS_T)
  | no_output_ports
  | unable_to_enable_control_port (status : MMAL_STATUS_T)
  | unable_to_set_camera_config (status : MMAL_STATUS_T)
  | still_format_not_set
  | video_format_not_set
  | zero_copy_failed
  | viewfinder_format_not_set
  | creating_buffer_pool (num size : Nat)
  | error_allocating_pool
  | failed_to_enable_preview_port
  | component_not_enabled
  | unable_to_get_required_buffer (i : Nat)
  | error_sending_buffer (status : MMAL_STATUS_T)
  | request_not_ok
deriving DecidableEq

/-! ## The camera object -/

/-- The members of `class RPiCamera` (first seven fields) and the observable MMAL state. -/
structure RPiCamera where
  camResolution_ : Resolution
  framerate_ : Nat
  encoding_ : MMAL_FOURCC_T
  pCameraComponent : Option Nat
  pPreviewPool : Option MMAL_POOL_T
  pPreviewPort : Option MMAL_PORT_T
  pFrameQueue : Option MMAL_QUEUE_T
  /-- handles of the components that exist -/
  live : List Nat
  /-- the next fresh handle -/
  fresh : Nat
  /-- Value of `is_enabled` of `output[MMAL_CAMERA_VIDEO_PORT]` of the component -/
  videoPortEnabled : Bool
  calls : List MmalCall
  diag : List Diag
deriving DecidableEq

/-- Constructor `RPiCamera::RPiCamera()`.  It leaves `encoding_` uninitialised: `encoding0` is
whatever the member holds. -/
def RPiCamera.construct (encoding0 : MMAL_FOURCC_T) : RPiCamera :=
  { camResolution_ := ⟨0, 0⟩
    framerate_ := 0
    encoding_ := encoding0
    pCameraComponent := none
    pPreviewPool := none
    pPreviewPort := none
    pFrameQueue := none
    live := []
    fresh := 1
    videoPortEnabled := false
    calls := []
    diag := [] }

/-- Record a call into MMAL. -/
def RPiCamera.call (s : RPiCamera) (c : MmalCall) : RPiCamera :=
  { s with calls := s.calls ++ [c] }

/-- Record a line on stderr (`fprintf(stderr, ...)`). -/
def RPiCamera.fprintf (s : RPiCamera) (d : Diag) : RPiCamera :=
  { s with diag := s.diag ++ [d] }

/-- The component `pCameraComponent` points at, read by code that has checked the pointer. -/
def RPiCamera.component (s : RPiCamera) : Nat := s.pCameraComponent.getD 0

/-! ## MMAL primitives -/

/-- MMAL: `mmal_queue_length`; a null queue has length 0. -/
def mmal_queue_length (q : Option MMAL_QUEUE_T) : Nat :=
  match q with
  | none => 0
  | some l => l.length

/-- MMAL: `mmal_queue_put` appends at the tail; on a null queue it does nothing. -/
def mmal_queue_put (q : Option MMAL_QUEUE_T) (b : MMAL_BUFFER_HEADER_T) : Option MMAL_QUEUE_T :=
  match q with
  | none => none
  | some l => some (l ++ [b])

/-- MMAL: `mmal_queue_get` takes the head, or returns null on an empty queue. -/
def mmal_queue_get (q : MMAL_QUEUE_T) : Option MMAL_BUFFER_HEADER_T × MMAL_QUEUE_T :=
  match q with
  | [] => (none, [])
  | b :: rest => (some b, rest)

/-- MMAL: `mmal_queue_timedwait` in the sequential interleaving: the head when there is one,
null when the timeout expires on an empty queue. -/
def mmal_queue_timedwait (q : MMAL_QUEUE_T) (timeoutMs : Nat) :
    Option MMAL_BUFFER_HEADER_T × MMAL_QUEUE_T :=
  mmal_queue_get q

/-- MMAL: `mmal_buffer_header_release` hands the header back to the free queue of the pool that
owns it.  Only the pool `pPreviewPool` points at is tracked. -/
def RPiCamera.mmal_buffer_header_release (s : RPiCamera) (b : MMAL_BUFFER_HEADER_T) : RPiCamera :=
  let s := s.call (.buffer_header_release b)
  match s.pPreviewPool with
  | some p =>
    if p.handle = b.pool then { s with pPreviewPool := some { p with queue := p.queue ++ [b] } }
    else s
  | none => s

/-- MMAL: `mmal_port_send_buffer(pPreviewPort, b)`; on success the port owns the buffer. -/
def RPiCamera.mmal_port_send_buffer (s : RPiCamera) (b : MMAL_BUFFER_HEADER_T)
    (status : MMAL_STATUS_T) : RPiCamera :=
  match s.pPreviewPort with
  | some port =>
    let s := s.call (.port_send_buffer port.component (some b))
    if status = MMAL_SUCCESS then
      { s with pPreviewPort := some { port with held := port.held ++ [b] } }
    else s
  | none => s

/-- MMAL: `mmal_component_destroy`; the component and its ports are gone, the hardware holds no
buffer of it any more. -/
def RPiCamera.mmal_component_destroy (s : RPiCamera) (c : Nat) : RPiCamera :=
  let s := s.call (.component_destroy c)
  { s with
    live := s.live.erase c
    pPreviewPort := s.pPreviewPort.map fun p =>
      if p.component = c then { p with is_enabled := false, held := [] } else p }

/-! ## Buffer recycling (producer callback and consumer release) -/

/-- Source function `RPiCamera::releaseFrame`: release `pBuf` (when not null) back to the pool,
then, if the pool exists and the preview port is enabled, take one free buffer and send it to
the port.
`sendStatus` is what `mmal_port_send_buffer` answers.  (A pool without a port does not occur:
the pool is created from the port.) -/
def RPiCamera.releaseFrame (s : RPiCamera) (pBuf : Option MMAL_BUFFER_HEADER_T)
    (sendStatus : MMAL_STATUS_T) : RPiCamera :=
  let s := match pBuf with
    | some b => s.mmal_buffer_header_release b
    | none => s
  match s.pPreviewPool, s.pPreviewPort with
  | some pool, some port =>
    if port.is_enabled then
      match mmal_queue_get pool.queue with
      | (some pNewBuf, rest) =>
        let s := { s with pPreviewPool := some { pool with queue := rest } }
        let s := s.mmal_port_send_buffer pNewBuf sendStatus
        if sendStatus ≠ MMAL_SUCCESS then s.fprintf (.could_not_send_buffer sendStatus) else s
      | (none, _) => s.fprintf .could_not_get_buffer
    else s
  | _, _ => s

/-- Source function `RPiCamera::_internalPreviewOutCb`: enqueue when the frame queue holds fewer
than 2 buffers, otherwise release directly. -/
def RPiCamera._internalPreviewOutCb (s : RPiCamera) (pBuf : MMAL_BUFFER_HEADER_T)
    (sendStatus : MMAL_STATUS_T) : RPiCamera :=
  if mmal_queue_length s.pFrameQueue < 2 then
    { s with pFrameQueue := mmal_queue_put s.pFrameQueue pBuf }
  else
    s.releaseFrame (some pBuf) sendStatus

/-- The static `previewOutputCallback`; `pCamera` is the `userdata` of the port. -/
def previewOutputCallback (pCamera : RPiCamera) (pBuf : MMAL_BUFFER_HEADER_T)
    (sendStatus : MMAL_STATUS_T) : RPiCamera :=
  if pBuf.length = 0 then
    pCamera.fprintf .zero_length_buffer
  else if pBuf.data = 0 then
    pCamera.fprintf .zero_buffer_handle
  else
    pCamera._internalPreviewOutCb pBuf sendStatus

/-- Source function `RPiCamera::waitForFrame`: null without a frame queue, else the timed wait
on it. -/
def RPiCamera.waitForFrame (s : RPiCamera) (timeoutMs : Nat) :
    Option MMAL_BUFFER_HEADER_T × RPiCamera :=
  match s.pFrameQueue with
  | none => (none, s)
  | some q =>
    let r := mmal_queue_timedwait q timeoutMs
    (r.1, { s with pFrameQueue := some r.2 })

/-- The hardware hands the `i`-th buffer it holds back through the preview callback, having
written `length` and `data` into its header.  Without such a buffer nothing happens. -/
def RPiCamera.hardwareReturns (s : RPiCamera) (i length data : Nat)
    (sendStatus : MMAL_STATUS_T) : RPiCamera :=
  match s.pPreviewPort with
  | some port =>
    match port.held[i]? with
    | some b =>
      previewOutputCallback { s with pPreviewPort := some { port with held := port.held.eraseIdx i } }
        { b with length := length, data := data } sendStatus
    | none => s
  | none => s

/-! ## Parameter setters -/

/-- Conversion of a C `int` to `uint32_t`. -/
def uint32_of (v : Int) : Nat := (v % 4294967296).toNat

/-- Conversion of an unsigned value to `int32_t`. -/
def int32_of (v : Int) : Int := (v + 2147483648) % 4294967296 - 2147483648

/-- A finite C `float`: the value `mant * 2 ^ exp`. -/
structure CFloat where
  mant : Int
  exp : Int
deriving DecidableEq

/-- The integer part of `x * 65536`, truncated toward zero as the C conversion does. -/
def CFloat.scale65536 (x : CFloat) : Int :=
  if 0 ≤ x.exp + 16 then x.mant * 2 ^ (x.exp + 16).toNat
  else Int.tdiv x.mant (2 ^ (-(x.exp + 16)).toNat)

/-- The fixed-point numerator `(unsigned int)(x * 65536)` stored in an `int32_t`. -/
def fixed16 (x : CFloat) : Int := int32_of (uint32_of x.scale65536)

def RPiCamera.setSaturation (s : RPiCamera) (saturation : Int) : RPiCamera :=
  if s.pCameraComponent = none ∨ saturation < -100 ∨ saturation > 100 then s
  else s.call (.port_parameter_set s.component .control .SATURATION (.rational saturation 100))

def RPiCamera.setSharpness (s : RPiCamera) (sharpness : Int) : RPiCamera :=
  if s.pCameraComponent = none ∨ sharpness < -100 ∨ sharpness > 100 then s
  else s.call (.port_parameter_set s.component .control .SHARPNESS (.rational sharpness 100))

def RPiCamera.setContrast (s : RPiCamera) (contrast : Int) : RPiCamera :=
  if s.pCameraComponent = none ∨ contrast < -100 ∨ contrast > 100 then s
  else s.call (.port_parameter_set s.component .control .CONTRAST (.rational contrast 100))

def RPiCamera.setBrightness (s : RPiCamera) (brightness : Int) : RPiCamera :=
  if s.pCameraComponent = none ∨ brightness < 0 ∨ brightness > 100 then s
  else s.call (.port_parameter_set s.component .control .BRIGHTNESS (.rational brightness 100))

def RPiCamera.setIso (s : RPiCamera) (iso : CameraIso) : RPiCamera :=
  if s.pCameraComponent = none then s
  else
    let val : Nat := match iso with
      | .CAMERA_ISO_200 => 200
      | .CAMERA_ISO_400 => 400
      | .CAMERA_ISO_800 => 800
      | _ => 100
    s.call (.port_parameter_set s.component .control .ISO (.uint32 val))

def RPiCamera.setMeteringMode (s : RPiCamera) (mode : MMAL_PARAM_EXPOSUREMETERINGMODE_T) :
    RPiCamera :=
  if s.pCameraComponent = none then s
  else s.call (.port_parameter_set s.component .control .EXP_METERING_MODE (.metering mode))

def RPiCamera.setExposureCompensation (s : RPiCamera) (expComp : Int) : RPiCamera :=
  if s.pCameraComponent = none then s
  else s.call (.port_parameter_set s.component .control .EXPOSURE_COMP (.int32 expComp))

def RPiCamera.setExposureMode (s : RPiCamera) (mode : MMAL_PARAM_EXPOSUREMODE_T) : RPiCamera :=
  if s.pCameraComponent = none then s
  else s.call (.port_parameter_set s.component .control .EXPOSURE_MODE (.exposure_mode mode))

def RPiCamera.setAwbMode (s : RPiCamera) (awb_mode : MMAL_PARAM_AWBMODE_T) : RPiCamera :=
  if s.pCameraComponent = none then s
  else s.call (.port_parameter_set s.component .control .AWB_MODE (.awb_mode awb_mode))

def RPiCamera.setAwbGains (s : RPiCamera) (r_gain b_gain : CFloat) : RPiCamera :=
  if s.pCameraComponent = none ∨ r_gain.mant < 0 ∨ b_gain.mant < 0 then s
  else s.call (.port_parameter_set s.component .control .CUSTOM_AWB_GAINS
    (.awb_gains (fixed16 r_gain) 65536 (fixed16 b_gain) 65536))

def RPiCamera.setRotation (s : RPiCamera) (rotation : CameraRotation) : RPiCamera :=
  if s.pCameraComponent = none then s
  else
    let val : Int := match rotation with
      | .CAMERA_ROTATE_90 => 90
      | .CAMERA_ROTATE_180 => 180
      | .CAMERA_ROTATE_270 => 270
      | _ => 0
    let s := s.call (.port_parameter_set s.component (.output 0) .ROTATION (.int32 val))
    let s := s.call (.port_parameter_set s.component (.output 1) .ROTATION (.int32 val))
    s.call (.port_parameter_set s.component (.output 2) .ROTATION (.int32 val))

def RPiCamera.setMirror (s : RPiCamera) (flip : CameraMirror) : RPiCamera :=
  if s.pCameraComponent = none then s
  else
    let value : MMAL_PARAM_MIRROR_T := match flip with
      | .CAMERA_MIRROR_HORIZONTAL => .HORIZONTAL
      | .CAMERA_MIRROR_VERTICAL => .VERTICAL
      | .CAMERA_MIRROR_BOTH => .BOTH
      | _ => .NONE
    let s := s.call (.port_parameter_set s.component (.output 0) .MIRROR (.mirror value))
    let s := s.call (.port_parameter_set s.component (.output 1) .MIRROR (.mirror value))
    s.call (.port_parameter_set s.component (.output 2) .MIRROR (.mirror value))

def RPiCamera.setShutterSpeed (s : RPiCamera) (speed_us : Int) : RPiCamera :=
  if s.pCameraComponent = none then s
  else s.call (.port_parameter_set s.component .control .SHUTTER_SPEED (.uint32 (uint32_of speed_us)))

def RPiCamera.setAlgorithmControl (s : RPiCamera)
    (algo : MMAL_PARAMETER_ALGORITHM_CONTROL_ALGORITHMS_T) (enable : Bool) : RPiCamera :=
  if s.pCameraComponent = none then s
  else s.call (.port_parameter_set s.component .control .ALGORITHM_CONTROL
    (.algorithm_control algo (if enable then 1 else 0)))

def RPiCamera.setUseCase (s : RPiCamera) (useCase : MMAL_PARAM_CAMERA_USE_CASE_T) : RPiCamera :=
  if s.pCameraComponent = none then s
  else s.call (.port_parameter_set s.component .control .CAMERA_USE_CASE (.use_case useCase))

def RPiCamera.setZeroShutterLag (s : RPiCamera) (enable : Bool) : RPiCamera :=
  if s.pCameraComponent = none then s
  else s.call (.port_parameter_set s.component .control .ZERO_SHUTTER_LAG
    (.zero_shutter_lag (if enable then 1 else 0) 0))

def RPiCamera.setAnalogGain (s : RPiCamera) (analog : CFloat) : RPiCamera :=
  if s.pCameraComponent = none then s
  else s.call (.port_parameter_set s.component .control .ANALOG_GAIN
    (.rational (fixed16 analog) 65536))

def RPiCamera.setDigitalGain (s : RPiCamera) (digital : CFloat) : RPiCamera :=
  if s.pCameraComponent = none then s
  else s.call (.port_parameter_set s.component .control .DIGITAL_GAIN
    (.rational (fixed16 digital) 65536))

/-- Source function `RPiCamera::setDefaultParameters`; `1.4f` is `11744051 * 2^-23` and `1.5f`
is `3 * 2^-1`. -/
def RPiCamera.setDefaultParameters (s : RPiCamera) : RPiCamera :=
  let s := s.setExposureMode .OFF
  let s := s.setAwbMode .OFF
  let s := s.setShutterSpeed 10000
  let s := s.setAwbGains ⟨11744051, -23⟩ ⟨3, -1⟩
  let s := s.setAnalogGain ⟨2, 0⟩
  let s := s.setDigitalGain ⟨2, 0⟩
  let s := s.setSharpness 0
  let s := s.setContrast 0
  let s := s.setBrightness 50
  let s := s.setSaturation 0
  let s := s.setAlgorithmControl .VIDEO_DENOISE true
  let s := s.setUseCase .VIDEO_CAPTURE
  s.setZeroShutterLag true

/-! ## Session set-up and tear-down -/

/-- What the MMAL layer answers during one run of `RPiCamera::start`. -/
structure MmalAnswers where
  /-- Whether `mmal_queue_create` returns a queue (not null) -/
  queue_create : Bool
  component_create : MMAL_STATUS_T
  camera_num : MMAL_STATUS_T
  /-- Value of `output_num` of the created component -/
  output_num : Nat
  control_enable : MMAL_STATUS_T
  camera_config : MMAL_STATUS_T
  still_commit : MMAL_STATUS_T
  video_commit : MMAL_STATUS_T
  zero_copy : MMAL_STATUS_T
  preview_commit : MMAL_STATUS_T
  /-- Initial `buffer_num` and `buffer_size` of the preview port as the component is created -/
  preview_buffer_num : Nat
  preview_buffer_size : Nat
  preview_buffer_num_recommended : Nat
  preview_buffer_size_recommended : Nat
  /-- Whether `mmal_port_pool_create` returns a pool (not null) -/
  pool_create : Bool
  preview_enable : MMAL_STATUS_T
  component_enable : MMAL_STATUS_T
  /-- status of the `i`-th `mmal_port_send_buffer` of the fill loop -/
  send_buffer : Nat → MMAL_STATUS_T

/-- Result of a member function that may throw `mmal_error`: the object state either way. -/
inductive Outcome where
  | done (s : RPiCamera)
  | thrown (errorCode : MMAL_STATUS_T) (s : RPiCamera)

/-- The object state after the call, thrown or not. -/
def Outcome.state : Outcome → RPiCamera
  | .done s => s
  | .thrown _ s => s

/-- The error code of the exception, if one left the call. -/
def Outcome.error : Outcome → Option MMAL_STATUS_T
  | .done _ => none
  | .thrown e _ => some e

/-- Sequencing of statements: an exception skips what follows. -/
def Outcome.andThen (o : Outcome) (f : RPiCamera → Outcome) : Outcome :=
  match o with
  | .done s => f s
  | .thrown e s => .thrown e s

/-- Macro `VCOS_ALIGN_UP(p, n)` for a power of two `n`: round up to a multiple of `n`, in
signed arithmetic (`ptrdiff_t`).  The code stores the result in `uint32_t` fields. -/
def VCOS_ALIGN_UP (p : Int) (n : Int) : Int := (p + (n - 1)) / n * n

/-- Source function `RPiCamera::setupCamera`.  A failing `mmal_component_create` leaves
`pCameraComponent` as it was. -/
def RPiCamera.setupCamera (s : RPiCamera) (env : MmalAnswers) : Outcome :=
  let s := s.call .component_create
  if env.component_create ≠ MMAL_SUCCESS then
    .thrown env.component_create (s.fprintf .failed_to_create_component)
  else
    let c := s.fresh
    let s := { s with pCameraComponent := some c, live := c :: s.live, fresh := s.fresh + 1,
                      videoPortEnabled := false }
    let s := s.call (.port_parameter_set c .control .CAMERA_NUM (.int32 0))
    if env.camera_num ≠ MMAL_SUCCESS then
      .thrown env.camera_num (s.fprintf (.could_not_select_camera env.camera_num))
    else if env.output_num = 0 then
      .thrown MMAL_ENOSYS (s.fprintf .no_output_ports)
    else
      let s := s.call (.port_enable c .control)
      if env.control_enable ≠ MMAL_SUCCESS then
        .thrown env.control_enable (s.fprintf (.unable_to_enable_control_port env.control_enable))
      else
        let s := s.call (.port_parameter_set c .control .CAMERA_CONFIG
          (.camera_config (uint32_of s.camResolution_.width) (uint32_of s.camResolution_.height)
            VIDEO_OUTPUT_BUFFERS_NUM))
        if env.camera_config ≠ MMAL_SUCCESS then
          .thrown env.camera_config (s.fprintf (.unable_to_set_camera_config env.camera_config))
        else .done s

/-- Source function `RPiCamera::setupStillPort`. -/
def RPiCamera.setupStillPort (s : RPiCamera) (env : MmalAnswers) : Outcome :=
  let s := s.call (.port_format_commit s.component (.output MMAL_CAMERA_CAPTURE_PORT)
    { encoding := .OPAQUE_ENC
      width := uint32_of (VCOS_ALIGN_UP s.camResolution_.width 32)
      height := uint32_of (VCOS_ALIGN_UP s.camResolution_.height 16)
      crop_width := s.camResolution_.width
      crop_height := s.camResolution_.height
      frame_rate_num := 0 })
  if env.still_commit ≠ MMAL_SUCCESS then
    .thrown env.still_commit (s.fprintf .still_format_not_set)
  else .done s

/-- Source function `RPiCamera::printPortEncodings` reads the supported encodings of a port and
prints them. -/
def RPiCamera.printPortEncodings (s : RPiCamera) (port : PortRef) : RPiCamera :=
  s.call (.port_parameter_get s.component port .SUPPORTED_ENCODINGS)

/-- Source function `RPiCamera::setupVideoPort`. -/
def RPiCamera.setupVideoPort (s : RPiCamera) (env : MmalAnswers) : Outcome :=
  let s := s.printPortEncodings (.output MMAL_CAMERA_VIDEO_PORT)
  let s := s.call (.port_format_commit s.component (.output MMAL_CAMERA_VIDEO_PORT)
    { encoding := s.encoding_
      width := uint32_of (VCOS_ALIGN_UP s.camResolution_.width 32)
      height := uint32_of (VCOS_ALIGN_UP s.camResolution_.height 16)
      crop_width := s.camResolution_.width
      crop_height := s.camResolution_.height
      frame_rate_num := s.framerate_ })
  if env.video_commit ≠ MMAL_SUCCESS then
    .thrown env.video_commit (s.fprintf .video_format_not_set)
  else .done s

/-- Source function `RPiCamera::setupPreviewPort`. -/
def RPiCamera.setupPreviewPort (s : RPiCamera) (env : MmalAnswers) : Outcome :=
  let c := s.component
  let port : MMAL_PORT_T :=
    { component := c
      is_enabled := false
      buffer_num := env.preview_buffer_num
      buffer_size := env.preview_buffer_size
      buffer_num_recommended := env.preview_buffer_num_recommended
      buffer_size_recommended := env.preview_buffer_size_recommended
      held := [] }
  let s := { s with pPreviewPort := some port }
  let s := s.printPortEncodings (.output MMAL_CAMERA_PREVIEW_PORT)
  let s := s.call (.port_parameter_set c (.output MMAL_CAMERA_PREVIEW_PORT) .ZERO_COPY
    (.boolean true))
  if env.zero_copy ≠ MMAL_SUCCESS then
    .thrown env.zero_copy (s.fprintf .zero_copy_failed)
  else
    let s := s.call (.port_format_commit c (.output MMAL_CAMERA_PREVIEW_PORT)
      { encoding := s.encoding_
        width := uint32_of (VCOS_ALIGN_UP s.camResolution_.width 32)
        height := uint32_of (VCOS_ALIGN_UP s.camResolution_.height 16)
        crop_width := s.camResolution_.width
        crop_height := s.camResolution_.height
        frame_rate_num := s.framerate_ })
    if env.preview_commit ≠ MMAL_SUCCESS then
      .thrown env.preview_commit (s.fprintf .viewfinder_format_not_set)
    else
      .done { s with pPreviewPort := some { port with
        buffer_num := VIDEO_OUTPUT_BUFFERS_NUM
        buffer_size := port.buffer_size_recommended } }

/-- MMAL: `mmal_port_pool_create(port, num, size)`: a pool of `num` headers, all free. -/
def mmal_port_pool_create (handle num : Nat) : MMAL_POOL_T :=
  { handle := handle
    headers_num := num
    queue := (List.range num).map fun i => { pool := handle, idx := i, length := 0, data := 0 } }

/-- The free queue of the pool `pPreviewPool` points at. -/
def RPiCamera.poolQueue (s : RPiCamera) : MMAL_QUEUE_T :=
  match s.pPreviewPool with
  | some pool => pool.queue
  | none => []

/-- The free queue of the pool `pPreviewPool` points at becomes `q`. -/
def RPiCamera.setPoolQueue (s : RPiCamera) (q : MMAL_QUEUE_T) : RPiCamera :=
  { s with pPreviewPool := s.pPreviewPool.map fun (pool : MMAL_POOL_T) => { pool with queue := q } }

/-- The loop `for(i = 0; i < pPreviewPort->buffer_num; i++)` of `RPiCamera::start`, with `n`
iterations left: take a buffer from the pool queue and send it to the preview port.  MMAL
refuses a null buffer with `MMAL_EINVAL`. -/
def RPiCamera.fillPreviewPort (env : MmalAnswers) : Nat → Nat → RPiCamera → Outcome
  | 0, _, s => .done s
  | n + 1, i, s =>
    match mmal_queue_get s.poolQueue with
    | (some pBuf, rest) =>
      let s := s.setPoolQueue rest
      let status := env.send_buffer i
      let s := s.mmal_port_send_buffer pBuf status
      if status ≠ MMAL_SUCCESS then
        .thrown status (s.fprintf (.error_sending_buffer status))
      else RPiCamera.fillPreviewPort env n (i + 1) s
    | (none, _) =>
      let s := s.fprintf (.unable_to_get_required_buffer i)
      let s := s.call (.port_send_buffer s.component none)
      .thrown MMAL_EINVAL (s.fprintf (.error_sending_buffer MMAL_EINVAL))

/-- The statements of the `try` block of `RPiCamera::start` after `setupPreviewPort` (which has
set `pPreviewPort`): create the pool, enable the preview port and the component, fill the port. -/
def RPiCamera.startPreview (s : RPiCamera) (env : MmalAnswers) : Outcome :=
  match s.pPreviewPort with
  | none => .done s
  | some port =>
    let s := s.fprintf (.creating_buffer_pool port.buffer_num port.buffer_size)
    let s := s.call (.port_pool_create port.component port.buffer_num port.buffer_size)
    if env.pool_create = false then
      .thrown MMAL_ENOMEM (({ s with pPreviewPool := none }).fprintf .error_allocating_pool)
    else
      let s := { s with pPreviewPool := some (mmal_port_pool_create s.fresh port.buffer_num),
                        fresh := s.fresh + 1 }
      let s := s.call (.port_enable port.component (.output MMAL_CAMERA_PREVIEW_PORT))
      if env.preview_enable ≠ MMAL_SUCCESS then
        .thrown env.preview_enable (s.fprintf .failed_to_enable_preview_port)
      else
        let s := { s with pPreviewPort := some { port with is_enabled := true } }
        let s := s.call (.component_enable s.component)
        if env.component_enable ≠ MMAL_SUCCESS then
          .thrown env.component_enable (s.fprintf .component_not_enabled)
        else RPiCamera.fillPreviewPort env port.buffer_num 0 s

/-- The `try` block of `RPiCamera::start`. -/
def RPiCamera.startTry (s : RPiCamera) (env : MmalAnswers) : Outcome :=
  (s.setupCamera env).andThen fun s =>
  (Outcome.done s.setDefaultParameters).andThen fun s =>
  (s.setupStillPort env).andThen fun s =>
  (s.setupVideoPort env).andThen fun s =>
  (s.setupPreviewPort env).andThen fun s =>
  s.startPreview env

/-- The statements of `RPiCamera::start` before the `try` block: store the arguments
(`framerate_` is a `uint16_t`) and create the frame queue if there is none. -/
def RPiCamera.startStore (s : RPiCamera) (width height framerate : Int)
    (encoding : MMAL_FOURCC_T) (env : MmalAnswers) : RPiCamera :=
  let s := { s with camResolution_ := ⟨width, height⟩
                    framerate_ := (framerate % 65536).toNat
                    encoding_ := encoding }
  if s.pFrameQueue = none then
    { s with pFrameQueue := if env.queue_create then some [] else none }
  else s

/-- The `catch(const mmal_error& err)` block of `RPiCamera::start`: destroy the component if
the pointer is not null, and rethrow. -/
def Outcome.startCatch (o : Outcome) : Outcome :=
  match o with
  | .done s => .done s
  | .thrown e s =>
    match s.pCameraComponent with
    | some c => .thrown e (s.mmal_component_destroy c)
    | none => .thrown e s

/-- Source function `RPiCamera::start`: store the arguments, create the frame queue if there is
none, run the set-up; on `mmal_error` destroy the component and rethrow. -/
def RPiCamera.start (s : RPiCamera) (width height framerate : Int) (encoding : MMAL_FOURCC_T)
    (env : MmalAnswers) : Outcome :=
  ((s.startStore width height framerate encoding env).startTry env).startCatch

/-- Source function `RPiCamera::stop`. -/
def RPiCamera.stop (s : RPiCamera) : RPiCamera :=
  let s : RPiCamera := match s.pPreviewPool with
    | some pool => { s.call (.pool_destroy pool.handle) with pPreviewPool := none }
    | none => s
  match s.pCameraComponent with
  | some c =>
    let s : RPiCamera := if s.videoPortEnabled then
        { s.call (.port_disable c (.output MMAL_CAMERA_VIDEO_PORT)) with videoPortEnabled := false }
      else s
    let s := s.call (.component_disable c)
    let s := s.mmal_component_destroy c
    { s with pCameraComponent := none }
  | none => s

/-- An MMAL layer on which every call succeeds; the preview port recommends `num` buffers of
`size` bytes. -/
def MmalAnswers.allSucceed (num size : Nat) : MmalAnswers :=
  { queue_create := true
    component_create := MMAL_SUCCESS
    camera_num := MMAL_SUCCESS
    output_num := 3
    control_enable := MMAL_SUCCESS
    camera_config := MMAL_SUCCESS
    still_commit := MMAL_SUCCESS
    video_commit := MMAL_SUCCESS
    zero_copy := MMAL_SUCCESS
    preview_commit := MMAL_SUCCESS
    preview_buffer_num := 1
    preview_buffer_size := 0
    preview_buffer_num_recommended := num
    preview_buffer_size_recommended := size
    pool_create := true
    preview_enable := MMAL_SUCCESS
    component_enable := MMAL_SUCCESS
    send_buffer := fun _ => MMAL_SUCCESS }

/-- The buffers the hardware port holds. -/
def RPiCamera.held (s : RPiCamera) : List MMAL_BUFFER_HEADER_T :=
  match s.pPreviewPort with
  | some port => port.held
  | none => []

/-- Value of `pPreviewPort->is_enabled`, false without a port. -/
def RPiCamera.portEnabled (s : RPiCamera) : Bool :=
  match s.pPreviewPort with
  | some port => port.is_enabled
  | none => false

/-- A session is Running: component created, pool allocated, preview port enabled. -/
def RPiCamera.Running (s : RPiCamera) : Prop :=
  s.pCameraComponent ≠ none ∧ s.pPreviewPool ≠ none ∧ s.portEnabled = true

instance (s : RPiCamera) : Decidable s.Running := by
  unfold RPiCamera.Running
  infer_instance

/-- The buffers handed to `mmal_buffer_header_release`, in call order. -/
def releasedBuffers (calls : List MmalCall) : List MMAL_BUFFER_HEADER_T :=
  calls.filterMap fun c =>
    match c with
    | .buffer_header_release b => some b
    | _ => none

/-! ## The frame accessor `CaptureRPi` -/

inductive ColorFormat where
  | COLOR_RGB8
  | COLOR_YUV422_UYVY
  | other (v : Nat)
deriving DecidableEq

inductive CaptureResolution where
  | RES_640X480
  | RES_1280X960
deriving DecidableEq

/-- The values of the `VarList` entries `CaptureRPi` reads. -/
structure CaptureSettings where
  v_max_fps : Int
  v_resolution : CaptureResolution
  v_colorout : ColorFormat
  v_expose_us : Int
  v_analog_gain : CFloat
  v_digital_gain : CFloat
  v_mirror_top_down : Bool
  v_mirror_left_right : Bool
  v_wb_red : CFloat
  v_wb_blue : CFloat
  v_sharpness : Int
  v_contrast : Int
  v_brightness : Int
  v_saturation : Int
deriving DecidableEq

/-- The members of `class CaptureRPi` the capture functions use. -/
structure CaptureRPi where
  settings : CaptureSettings
  is_capturing : Bool
  camera : RPiCamera
  pLastFrame : Option MMAL_BUFFER_HEADER_T
  width_ : Int
  height_ : Int
deriving DecidableEq

/-- Constructor `CaptureRPi::CaptureRPi`: it sets `is_capturing` and creates the settings with
their default values.  It leaves `pLastFrame`, `width_` and `height_` uninitialised:
`pLastFrame0`, `width0` and `height0` are whatever the members hold, as `encoding0` is for the
`encoding_` of the camera. -/
def CaptureRPi.construct (settings : CaptureSettings) (encoding0 : MMAL_FOURCC_T)
    (pLastFrame0 : Option MMAL_BUFFER_HEADER_T) (width0 height0 : Int) : CaptureRPi :=
  { settings := settings
    is_capturing := false
    camera := RPiCamera.construct encoding0
    pLastFrame := pLastFrame0
    width_ := width0
    height_ := height0 }

/-- The `RawImage` returned by `getFrame`, without its time stamp. -/
structure RawImage where
  colorFormat : ColorFormat
  width : Int
  height : Int
  data : Nat
deriving DecidableEq

/-- Source function `CaptureRPi::writeParameterValues(dcam_parameters)`. -/
def CaptureRPi.writeAllParameterValues (c : CaptureRPi) : CaptureRPi :=
  let cam := c.camera.setShutterSpeed c.settings.v_expose_us
  let cam := cam.setAnalogGain c.settings.v_analog_gain
  let cam := cam.setDigitalGain c.settings.v_digital_gain
  let mir : CameraMirror :=
    if c.settings.v_mirror_top_down && c.settings.v_mirror_left_right then .CAMERA_MIRROR_BOTH
    else if c.settings.v_mirror_top_down then .CAMERA_MIRROR_VERTICAL
    else if c.settings.v_mirror_left_right then .CAMERA_MIRROR_HORIZONTAL
    else .CAMERA_MIRROR_NONE
  let cam := cam.setMirror mir
  let cam := cam.setAwbGains c.settings.v_wb_red c.settings.v_wb_blue
  let cam := cam.setSharpness c.settings.v_sharpness
  let cam := cam.setContrast c.settings.v_contrast
  let cam := cam.setBrightness c.settings.v_brightness
  let cam := cam.setSaturation c.settings.v_saturation
  { c with camera := cam }

/-- Source function `CaptureRPi::stopCapture`. -/
def CaptureRPi.stopCapture (c : CaptureRPi) : Bool × CaptureRPi :=
  if c.is_capturing then
    (true, { c with camera := c.camera.stop, pLastFrame := none, is_capturing := false })
  else (true, c)

/-- Source function `CaptureRPi::startCapture`. -/
def CaptureRPi.startCapture (c : CaptureRPi) (env : MmalAnswers) : Bool × CaptureRPi :=
  let encoding : MMAL_FOURCC_T :=
    if c.settings.v_colorout = .COLOR_RGB8 then .RGB24 else .UYVY
  let maxFps := c.settings.v_max_fps
  let c : CaptureRPi :=
    if c.settings.v_resolution = .RES_1280X960 then { c with width_ := 1280, height_ := 960 }
    else { c with width_ := 640, height_ := 480 }
  match c.camera.start c.width_ c.height_ maxFps encoding env with
  | .thrown _ cam => (false, { c with camera := cam })
  | .done cam =>
    let c := { c with camera := cam, is_capturing := true }
    (true, c.writeAllParameterValues)

/-- Source function `CaptureRPi::getFrame`. -/
def CaptureRPi.getFrame (c : CaptureRPi) : RawImage × CaptureRPi :=
  let r := c.camera.waitForFrame 200
  match r.1 with
  | some pBuf =>
    ({ colorFormat := c.settings.v_colorout, width := c.width_, height := c.height_,
       data := pBuf.data },
     { c with camera := r.2.call (.buffer_header_mem_lock pBuf), pLastFrame := some pBuf })
  | none =>
    ({ colorFormat := c.settings.v_colorout, width := 0, height := 0, data := 0 },
     { c with camera := r.2.fprintf .request_not_ok, pLastFrame := none })

/-- Source function `CaptureRPi::releaseFrame`. -/
def CaptureRPi.releaseFrame (c : CaptureRPi) (sendStatus : MMAL_STATUS_T) : CaptureRPi :=
  match c.pLastFrame with
  | some b =>
    { c with
      camera := (c.camera.call (.buffer_header_mem_unlock b)).releaseFrame (some b) sendStatus
      pLastFrame := none }
  | none => c

/-! ## Instrumented runs

The two contexts of the program, interleaved: the hardware returning buffers through the preview
callback and the consumer.  The ghost fields record what the consumer holds and what passed
through the callback. -/

/-- A buffer the callback treats as a frame: non-zero length and non-null data. -/
def MMAL_BUFFER_HEADER_T.isFrame (b : MMAL_BUFFER_HEADER_T) : Bool :=
  b.length != 0 && b.data != 0

/-- The producer delivers `frames` one after the other through `previewOutputCallback`; each
comes with the status the recycling send would get. -/
def RPiCamera.produce (s : RPiCamera) (frames : List (MMAL_BUFFER_HEADER_T × MMAL_STATUS_T)) :
    RPiCamera :=
  frames.foldl (fun s f => previewOutputCallback s f.1 f.2) s

/-- One step of a client of `RPiCamera`. -/
inductive CameraEvent where
  /-- the hardware returns the `i`-th buffer it holds, filled with `length` bytes at `data` -/
  | hardwareReturns (i length data : Nat) (sendStatus : MMAL_STATUS_T)
  /-- the consumer calls `waitForFrame(timeoutMs)` -/
  | waitForFrame (timeoutMs : Nat)
  /-- the consumer calls `releaseFrame` with its `j`-th checked-out buffer, or with null -/
  | releaseFrame (j : Option Nat) (sendStatus : MMAL_STATUS_T)
deriving DecidableEq

/-- A camera with the ghost record of its client. -/
structure CameraSim where
  cam : RPiCamera
  /-- returned by `waitForFrame` and not yet passed to `releaseFrame` -/
  checkedOut : List MMAL_BUFFER_HEADER_T
  /-- every buffer passed to `previewOutputCallback`, in order -/
  delivered : List MMAL_BUFFER_HEADER_T
  /-- every non-null result of `waitForFrame`, in order -/
  returned : List MMAL_BUFFER_HEADER_T
deriving DecidableEq

def CameraSim.init (cam : RPiCamera) : CameraSim :=
  { cam := cam, checkedOut := [], delivered := [], returned := [] }

def CameraSim.step (x : CameraSim) : CameraEvent → CameraSim
  | .hardwareReturns i length data sendStatus =>
    { x with
      cam := x.cam.hardwareReturns i length data sendStatus
      delivered := x.delivered ++
        (match x.cam.held[i]? with
         | some b => [{ b with length := length, data := data }]
         | none => []) }
  | .waitForFrame timeoutMs =>
    let r := x.cam.waitForFrame timeoutMs
    { x with cam := r.2, checkedOut := x.checkedOut ++ r.1.toList,
             returned := x.returned ++ r.1.toList }
  | .releaseFrame none sendStatus =>
    { x with cam := x.cam.releaseFrame none sendStatus }
  | .releaseFrame (some j) sendStatus =>
    match x.checkedOut[j]? with
    | some b =>
      { x with cam := x.cam.releaseFrame (some b) sendStatus,
               checkedOut := x.checkedOut.eraseIdx j }
    | none => x

def CameraSim.run (x : CameraSim) (evs : List CameraEvent) : CameraSim :=
  evs.foldl CameraSim.step x

/-- The four places a pool buffer can be: `free + queued + checkedOut + inHardware`. -/
def CameraSim.total (x : CameraSim) : Nat :=
  x.cam.poolQueue.length + mmal_queue_length x.cam.pFrameQueue + x.checkedOut.length
    + x.cam.held.length

/-- One step of a client of `CaptureRPi`. -/
inductive CaptureEvent where
  | getFrame
  | releaseFrame (sendStatus : MMAL_STATUS_T)
  | hardwareReturns (i length data : Nat) (sendStatus : MMAL_STATUS_T)
deriving DecidableEq

/-- The buffers a call of the consumer took out of the frame queue, read off the camera: the
front of the frame queue before the call, as far as the queue is shorter after it. -/
def poppedFrames (before after : RPiCamera) : List MMAL_BUFFER_HEADER_T :=
  (before.pFrameQueue.getD []).take
    (mmal_queue_length before.pFrameQueue - mmal_queue_length after.pFrameQueue)

/-- The buffers a call of the consumer handed back through `RPiCamera::releaseFrame`, read off
the camera: the buffers of the `mmal_buffer_header_release` calls the camera logged during the
call. -/
def handedBack (before after : RPiCamera) : List MMAL_BUFFER_HEADER_T :=
  releasedBuffers (after.calls.drop before.calls.length)

/-- A `CaptureRPi` with the ghost list of the buffers popped from the frame queue and not yet
handed back through `RPiCamera::releaseFrame`.  The list is kept from what happens at the
camera (`poppedFrames`, `handedBack`), not from the member `pLastFrame`. -/
structure CaptureSim where
  cap : CaptureRPi
  outstanding : List MMAL_BUFFER_HEADER_T
deriving DecidableEq

def CaptureSim.step (x : CaptureSim) : CaptureEvent → CaptureSim
  | .getFrame =>
    let r := x.cap.getFrame
    { cap := r.2, outstanding := x.outstanding ++ poppedFrames x.cap.camera r.2.camera }
  | .releaseFrame sendStatus =>
    let c := x.cap.releaseFrame sendStatus
    { cap := c, outstanding := x.outstanding.diff (handedBack x.cap.camera c.camera) }
  | .hardwareReturns i length data sendStatus =>
    { x with cap := { x.cap with camera := x.cap.camera.hardwareReturns i length data sendStatus } }

def CaptureSim.run (x : CaptureSim) (evs : List CaptureEvent) : CaptureSim :=
  evs.foldl CaptureSim.step x

/-- The client keeps to the protocol along `evs`: it calls `getFrame` only while no frame is
checked out, that is while it holds no buffer popped from the frame queue. -/
def CaptureSim.disciplined : List CaptureEvent → CaptureSim → Bool
  | [], _ => true
  | .getFrame :: evs, x =>
    x.outstanding.isEmpty && CaptureSim.disciplined evs (x.step .getFrame)
  | e :: evs, x => CaptureSim.disciplined evs (x.step e)

/-- The sum `free + queued + checkedOut + inHardware` for a `CaptureRPi` client. -/
def CaptureSim.total (x : CaptureSim) : Nat :=
  x.cap.camera.poolQueue.length + mmal_queue_length x.cap.camera.pFrameQueue
    + x.outstanding.length + x.cap.camera.held.length

/-! ## Reference states -/

/-- A new camera started with `start(640, 480, 60, RGB24)` on an MMAL layer where every call
succeeds: Running, pool of 3 buffers, all of them sent to the port. -/
def startedCamera : RPiCamera :=
  ((RPiCamera.construct .RGB24).start 640 480 60 .RGB24 (MmalAnswers.allSucceed 3 921600)).state

def defaultSettings : CaptureSettings :=
  { v_max_fps := 60
    v_resolution := .RES_640X480
    v_colorout := .COLOR_RGB8
    v_expose_us := 5000
    v_analog_gain := ⟨2, 0⟩
    v_digital_gain := ⟨2, 0⟩
    v_mirror_top_down := false
    v_mirror_left_right := false
    v_wb_red := ⟨1, 0⟩
    v_wb_blue := ⟨1, 0⟩
    v_sharpness := 0
    v_contrast := 0
    v_brightness := 50
    v_saturation := 0 }

/-- A new `CaptureRPi` with the default settings, whose uninitialised members happen to hold
null and 0, after a successful `startCapture`. -/
def startedCapture : CaptureRPi :=
  (CaptureRPi.startCapture (CaptureRPi.construct defaultSettings .RGB24 none 0 0)
    (MmalAnswers.allSucceed 3 921600)).2

/-! ## Scenarios -/

/-- Three frames delivered to the started camera, none taken by the consumer. -/
def threeFramesRun : CameraSim :=
  (CameraSim.init startedCamera).run
    [.hardwareReturns 0 100 7 MMAL_SUCCESS, .hardwareReturns 0 200 7 MMAL_SUCCESS,
     .hardwareReturns 0 300 7 MMAL_SUCCESS]

/-- The hardware returns the first buffer of the started camera with length 0 (end of stream). -/
def zeroLengthRun : CameraSim :=
  (CameraSim.init startedCamera).run [.hardwareReturns 0 0 7 MMAL_SUCCESS]

/-- The hardware returns the first buffer of the started camera with a null data pointer. -/
def nullDataRun : CameraSim :=
  (CameraSim.init startedCamera).run [.hardwareReturns 0 100 0 MMAL_SUCCESS]

/-- The scenario of five frames: a new camera, `start(640, 480, framerate, encoding)` on an MMAL
layer where every call succeeds, then the hardware returns five frames (lengths `l + 1`, data
pointers `d + 1`) and the consumer does nothing.  `i1` and `i2` choose which of the buffers it
holds the hardware fills first; from the third frame on it holds a single one. -/
def fiveFramesRun (encoding0 encoding : MMAL_FOURCC_T) (framerate : Int) (num size : Nat)
    (i1 i2 l1 d1 l2 d2 l3 d3 l4 d4 l5 d5 : Nat) : CameraSim :=
  (CameraSim.init ((RPiCamera.construct encoding0).start 640 480 framerate encoding
      (MmalAnswers.allSucceed num size)).state).run
    [.hardwareReturns i1 (l1 + 1) (d1 + 1) MMAL_SUCCESS,
     .hardwareReturns i2 (l2 + 1) (d2 + 1) MMAL_SUCCESS,
     .hardwareReturns 0 (l3 + 1) (d3 + 1) MMAL_SUCCESS,
     .hardwareReturns 0 (l4 + 1) (d4 + 1) MMAL_SUCCESS,
     .hardwareReturns 0 (l5 + 1) (d5 + 1) MMAL_SUCCESS]

/-- The state `t` comes after `s` without a change of configuration: same resolution, frame rate
and encoding, and the call log of `t` continues that of `s`. -/
def RPiCamera.Extends (s t : RPiCamera) : Prop :=
  t.camResolution_ = s.camResolution_ ∧ t.framerate_ = s.framerate_ ∧
    t.encoding_ = s.encoding_ ∧ ∃ rest, t.calls = s.calls ++ rest

/-- The buffers in the frame queue, oldest first (none without a queue). -/
def RPiCamera.frameQueue (s : RPiCamera) : MMAL_QUEUE_T := s.pFrameQueue.getD []

/-- Two frames are delivered, the consumer takes one, a third frame is delivered, the consumer
takes two more and then waits in vain. -/
def interleavedRun : CameraSim :=
  (CameraSim.init startedCamera).run
    [.hardwareReturns 0 100 7 MMAL_SUCCESS, .hardwareReturns 0 200 7 MMAL_SUCCESS,
     .waitForFrame 200, .hardwareReturns 0 300 7 MMAL_SUCCESS, .waitForFrame 200,
     .waitForFrame 200, .waitForFrame 200]

/-- The capture object after two frames were delivered and the consumer took the first. -/
def checkedOutCapture : CaptureSim :=
  (CaptureSim.mk startedCapture []).run
    [.hardwareReturns 0 100 7 MMAL_SUCCESS, .hardwareReturns 0 200 7 MMAL_SUCCESS, .getFrame]

/-- Misuse: two frames are delivered and the consumer calls `getFrame` twice without a
`releaseFrame` in between. -/
def doubleGetRun : CaptureSim :=
  (CaptureSim.mk startedCapture []).run
    [.hardwareReturns 0 100 7 MMAL_SUCCESS, .hardwareReturns 0 200 7 MMAL_SUCCESS, .getFrame,
     .getFrame]

/-- Misuse: one frame is delivered, the consumer takes it and calls `getFrame` again, which
times out on the empty queue. -/
def getThenTimeoutRun : CaptureSim :=
  (CaptureSim.mk startedCapture []).run
    [.hardwareReturns 0 100 7 MMAL_SUCCESS, .getFrame, .getFrame]

/-- A run that keeps to the protocol: frames arrive, the consumer takes one, releases it, waits
in vain, takes the next one. -/
def disciplinedEvents : List CaptureEvent :=
  [.hardwareReturns 0 100 7 MMAL_SUCCESS, .getFrame, .releaseFrame MMAL_SUCCESS, .getFrame,
   .hardwareReturns 0 200 7 MMAL_SUCCESS, .getFrame]

/-- A step without a fault of the hardware layer: what the hardware returns is a frame
(non-zero length, non-null data) and it accepts every buffer sent to the port. -/
def CameraEvent.faultless : CameraEvent → Bool
  | .hardwareReturns _ length data sendStatus =>
    length != 0 && data != 0 && sendStatus == MMAL_SUCCESS
  | .waitForFrame _ => true
  | .releaseFrame _ sendStatus => sendStatus == MMAL_SUCCESS

/-- A Running session with a frame queue whose `N` buffers are all accounted for: every buffer
at the port, in the free queue, in the frame queue or with the consumer belongs to the pool
(handle `h`), and the four counts add up to `N`. -/
def CameraSim.Steady (x : CameraSim) (N h : Nat) : Prop :=
  ∃ pool port q,
    x.cam.pPreviewPool = some pool ∧ pool.handle = h ∧ pool.headers_num = N ∧
    x.cam.pPreviewPort = some port ∧ port.is_enabled = true ∧
    x.cam.pFrameQueue = some q ∧
    (∀ b ∈ pool.queue, b.pool = h) ∧ (∀ b ∈ port.held, b.pool = h) ∧
    (∀ b ∈ q, b.pool = h) ∧ (∀ b ∈ x.checkedOut, b.pool = h) ∧
    pool.queue.length + q.length + x.checkedOut.length + port.held.length = N

/-- The started camera after `stop()`. -/
def stoppedCamera : RPiCamera := startedCamera.stop

/-- Record several calls into MMAL, in order. -/
def RPiCamera.callAll (s : RPiCamera) (cs : List MmalCall) : RPiCamera :=
  { s with calls := s.calls ++ cs }

/-- A new camera started on an MMAL layer where every call succeeds and whose preview port
recommends 5 buffers. -/
def recommendedFiveStart : Outcome :=
  (RPiCamera.construct .RGB24).start 640 480 60 .RGB24 (MmalAnswers.allSucceed 5 921600)

/-- A step of normal operation: the hardware returns a frame (non-zero length, non-null data),
the consumer waits for a frame, or the consumer releases a buffer it has checked out (not null);
every send to the port is accepted. -/
def CameraEvent.normal : CameraEvent → Bool
  | .hardwareReturns _ length data sendStatus =>
    length != 0 && data != 0 && sendStatus == MMAL_SUCCESS
  | .waitForFrame _ => true
  | .releaseFrame (some _) sendStatus => sendStatus == MMAL_SUCCESS
  | .releaseFrame none _ => false

/-- The pool (handle `h`) is present with an empty free queue, the preview port is enabled, and
every buffer at the port is a buffer of the pool. -/
def CameraSim.Circulating (x : CameraSim) (h : Nat) : Prop :=
  ∃ pool port,
    x.cam.pPreviewPool = some pool ∧ pool.handle = h ∧ pool.queue = [] ∧
    x.cam.pPreviewPort = some port ∧ port.is_enabled = true ∧
    (∀ b ∈ port.held, b.pool = h)

/-- The buffer the consumer hands to `releaseFrame` in this step, if any, is a buffer of the
pool the session holds. -/
def CameraSim.releasesOwn (x : CameraSim) : CameraEvent → Bool
  | .releaseFrame (some j) _ =>
    match x.checkedOut[j]? with
    | some b => x.cam.pPreviewPool.map (·.handle) == some b.pool
    | none => true
  | _ => true

/-- A run of normal operation from `x`: every step is a step of normal operation, and every
buffer released by the consumer is a checked-out buffer of the pool of the session. -/
def CameraSim.normalRun : CameraSim → List CameraEvent → Bool
  | _, [] => true
  | x, e :: es => e.normal && x.releasesOwn e && (x.step e).normalRun es

/-- A run of normal operation: four frames arrive (the fourth while the queue is full), the
consumer takes a frame and releases it, another frame arrives, the consumer takes one more. -/
def normalEvents : List CameraEvent :=
  [.hardwareReturns 0 100 7 MMAL_SUCCESS, .hardwareReturns 0 200 7 MMAL_SUCCESS,
   .hardwareReturns 0 300 7 MMAL_SUCCESS, .hardwareReturns 0 400 7 MMAL_SUCCESS,
   .waitForFrame 200, .releaseFrame (some 0) MMAL_SUCCESS,
   .hardwareReturns 0 500 7 MMAL_SUCCESS, .waitForFrame 200]

/-- A new camera whose `start` fails at the camera selection, right after the component was
created. -/
def failedSelectStart : Outcome :=
  (RPiCamera.construct .RGB24).start 640 480 60 .RGB24
    { MmalAnswers.allSucceed 3 921600 with camera_num := MMAL_EINVAL }

/-- A new camera whose `start` fails at the enabling of the preview port, after the pool was
allocated. -/
def failedEnableStart : Outcome :=
  (RPiCamera.construct .RGB24).start 640 480 60 .RGB24
    { MmalAnswers.allSucceed 3 921600 with preview_enable := MMAL_EINVAL }

/-- A new camera whose `start` fails at the submission of the second buffer. -/
def failedSendStart : Outcome :=
  (RPiCamera.construct .RGB24).start 640 480 60 .RGB24
    { MmalAnswers.allSucceed 3 921600 with
      send_buffer := fun i => if i = 1 then MMAL_EINVAL else MMAL_SUCCESS }

/-- A new camera whose `start` fails at the creation of the component. -/
def failedCreateStart : Outcome :=
  (RPiCamera.construct .RGB24).start 640 480 60 .RGB24
    { MmalAnswers.allSucceed 3 921600 with component_create := MMAL_ENOMEM }

/-- The started camera with two frames in the frame queue. -/
def twoFramesQueuedCamera : RPiCamera :=
  ((CameraSim.init startedCamera).run
    [.hardwareReturns 0 100 7 MMAL_SUCCESS, .hardwareReturns 0 200 7 MMAL_SUCCESS]).cam

/-- The camera with two queued frames is stopped and started again. -/
def stoppedAndRestarted : Outcome :=
  twoFramesQueuedCamera.stop.start 640 480 60 .RGB24 (MmalAnswers.allSucceed 3 921600)

/-- The capture object with two frames queued, after `stopCapture` and a new `startCapture`. -/
def recapturing : CaptureRPi :=
  (CaptureRPi.startCapture
    (CaptureRPi.stopCapture
      ((CaptureSim.mk startedCapture []).run
        [.hardwareReturns 0 100 7 MMAL_SUCCESS, .hardwareReturns 0 200 7 MMAL_SUCCESS]).cap).2
    (MmalAnswers.allSucceed 3 921600)).2

/-- A run on the restarted camera, whose frame queue still holds the two frames of the session
before: a frame arrives while the queue is full, the consumer takes a frame, another frame
arrives, the consumer takes two frames and releases the last one, a buffer of the new pool. -/
def leftoverEvents : List CameraEvent :=
  [.hardwareReturns 0 300 7 MMAL_SUCCESS, .waitForFrame 200,
   .hardwareReturns 0 400 7 MMAL_SUCCESS, .waitForFrame 200, .waitForFrame 200,
   .releaseFrame (some 2) MMAL_SUCCESS]

/-- The capture object started again after a stop with two frames queued; the consumer has
taken a frame with `getFrame`. -/
def staleCheckedOut : CaptureSim :=
  (CaptureSim.mk recapturing []).step .getFrame

/-- On the camera started again after a stop with two frames queued, the consumer waits for a
frame and releases the frame it got. -/
def leftoverReleaseEvents : List CameraEvent :=
  [.waitForFrame 200, .releaseFrame (some 0) MMAL_SUCCESS]

/-- A new capture object whose member `pLastFrame` happens to hold a stray pointer, after
`startCapture`. -/
def startedCaptureStray : CaptureRPi :=
  (CaptureRPi.startCapture
    (CaptureRPi.construct defaultSettings .RGB24 (some ⟨9, 9, 9, 9⟩) 0 0)
    (MmalAnswers.allSucceed 3 921600)).2

/-! # Properties -/

/-! ## Lemmas on the frame queue -/

@[simp] theorem call_pFrameQueue (s : RPiCamera) (c : MmalCall) :
    (s.call c).pFrameQueue = s.pFrameQueue := rfl

@[simp] theorem fprintf_pFrameQueue (s : RPiCamera) (d : Diag) :
    (s.fprintf d).pFrameQueue = s.pFrameQueue := rfl

theorem mmal_buffer_header_release_pFrameQueue (s : RPiCamera) (b : MMAL_BUFFER_HEADER_T) :
    (s.mmal_buffer_header_release b).pFrameQueue = s.pFrameQueue := by
  unfold RPiCamera.mmal_buffer_header_release
  simp only [RPiCamera.call]
  split
  · split <;> rfl
  · rfl

theorem mmal_port_send_buffer_pFrameQueue (s : RPiCamera) (b : MMAL_BUFFER_HEADER_T)
    (st : MMAL_STATUS_T) : (s.mmal_port_send_buffer b st).pFrameQueue = s.pFrameQueue := by
  unfold RPiCamera.mmal_port_send_buffer
  split
  · simp only [RPiCamera.call]
    split <;> rfl
  · rfl

/-- Function `releaseFrame` never touches the frame queue. -/
theorem releaseFrame_pFrameQueue (s : RPiCamera) (pBuf : Option MMAL_BUFFER_HEADER_T)
    (st : MMAL_STATUS_T) : (s.releaseFrame pBuf st).pFrameQueue = s.pFrameQueue := by
  have h : ∀ t : RPiCamera, t.pFrameQueue = s.pFrameQueue →
      (match t.pPreviewPool, t.pPreviewPort with
        | some pool, some port =>
          if port.is_enabled then
            match mmal_queue_get pool.queue with
            | (some pNewBuf, rest) =>
              if st ≠ MMAL_SUCCESS then
                (({ t with pPreviewPool := some { pool with queue := rest } }).mmal_port_send_buffer
                  pNewBuf st).fprintf (.could_not_send_buffer st)
              else ({ t with pPreviewPool := some { pool with queue := rest } }).mmal_port_send_buffer
                  pNewBuf st
            | (none, _) => t.fprintf .could_not_get_buffer
          else t
        | _, _ => t).pFrameQueue = s.pFrameQueue := by
    intro t ht
    split
    · split
      · split
        · split
          · rw [fprintf_pFrameQueue, mmal_port_send_buffer_pFrameQueue]; exact ht
          · rw [mmal_port_send_buffer_pFrameQueue]; exact ht
        · exact ht
      · exact ht
    · exact ht
  unfold RPiCamera.releaseFrame
  cases pBuf with
  | none => exact h s rfl
  | some b => exact h _ (mmal_buffer_header_release_pFrameQueue s b)

theorem previewOutputCallback_queue_le (s : RPiCamera) (pBuf : MMAL_BUFFER_HEADER_T)
    (st : MMAL_STATUS_T) (h : mmal_queue_length s.pFrameQueue ≤ 2) :
    mmal_queue_length (previewOutputCallback s pBuf st).pFrameQueue ≤ 2 := by
  unfold previewOutputCallback RPiCamera._internalPreviewOutCb
  split
  · exact h
  · split
    · exact h
    · split
      · rename_i h2
        cases hq : s.pFrameQueue with
        | none => simp [mmal_queue_put, mmal_queue_length]
        | some q =>
          rw [hq] at h2
          simp only [mmal_queue_length] at h2
          simp only [mmal_queue_put, mmal_queue_length, List.length_append, List.length_singleton]
          omega
      · rw [releaseFrame_pFrameQueue]; exact h

theorem previewOutputCallback_queue_full (s : RPiCamera) (pBuf : MMAL_BUFFER_HEADER_T)
    (st : MMAL_STATUS_T) (h : mmal_queue_length s.pFrameQueue = 2) :
    (previewOutputCallback s pBuf st).pFrameQueue = s.pFrameQueue := by
  unfold previewOutputCallback RPiCamera._internalPreviewOutCb
  split
  · rfl
  · split
    · rfl
    · rw [if_neg (by omega), releaseFrame_pFrameQueue]

theorem hardwareReturns_queue_le (s : RPiCamera) (i length data : Nat) (st : MMAL_STATUS_T)
    (h : mmal_queue_length s.pFrameQueue ≤ 2) :
    mmal_queue_length (s.hardwareReturns i length data st).pFrameQueue ≤ 2 := by
  unfold RPiCamera.hardwareReturns
  split
  · split
    · exact previewOutputCallback_queue_le _ _ _ h
    · exact h
  · exact h

theorem waitForFrame_queue_le (s : RPiCamera) (t : Nat) :
    mmal_queue_length (s.waitForFrame t).2.pFrameQueue ≤ mmal_queue_length s.pFrameQueue := by
  unfold RPiCamera.waitForFrame
  cases hq : s.pFrameQueue with
  | none => simp [hq]
  | some q =>
    cases q with
    | nil => simp [mmal_queue_timedwait, mmal_queue_get, mmal_queue_length]
    | cons b rest => simp [mmal_queue_timedwait, mmal_queue_get, mmal_queue_length]

theorem CameraSim.step_queue_le (x : CameraSim) (e : CameraEvent)
    (h : mmal_queue_length x.cam.pFrameQueue ≤ 2) :
    mmal_queue_length (x.step e).cam.pFrameQueue ≤ 2 := by
  cases e with
  | hardwareReturns i length data st => exact hardwareReturns_queue_le _ _ _ _ _ h
  | waitForFrame t => exact Nat.le_trans (waitForFrame_queue_le _ _) h
  | releaseFrame j st =>
    cases j with
    | none => simp only [CameraSim.step]; rw [releaseFrame_pFrameQueue]; exact h
    | some j =>
      simp only [CameraSim.step]
      split
      · simp only; rw [releaseFrame_pFrameQueue]; exact h
      · exact h

theorem CameraSim.run_queue_le (evs : List CameraEvent) (x : CameraSim)
    (h : mmal_queue_length x.cam.pFrameQueue ≤ 2) :
    mmal_queue_length (x.run evs).cam.pFrameQueue ≤ 2 := by
  induction evs generalizing x with
  | nil => exact h
  | cons e evs ih => exact ih (x.step e) (CameraSim.step_queue_le x e h)

/-- C2: starting from an empty frame queue, after every finite sequence of producer callbacks
and consumer calls the frame queue holds at most 2 buffers, and a callback that arrives while it
holds 2 leaves its contents unchanged. -/
theorem frame_queue_never_exceeds_two (x : CameraSim) (evs : List CameraEvent)
    (hempty : x.cam.pFrameQueue = some []) :
    mmal_queue_length (x.run evs).cam.pFrameQueue ≤ 2 ∧
    ∀ (pBuf : MMAL_BUFFER_HEADER_T) (sendStatus : MMAL_STATUS_T),
      mmal_queue_length (x.run evs).cam.pFrameQueue = 2 →
      (previewOutputCallback (x.run evs).cam pBuf sendStatus).pFrameQueue
        = (x.run evs).cam.pFrameQueue := by
  refine ⟨CameraSim.run_queue_le evs x ?_, fun pBuf st h => previewOutputCallback_queue_full _ _ _ h⟩
  rw [hempty]; simp [mmal_queue_length]

/-- C2 at a concrete run: three frames pushed at a started camera, none popped. -/
theorem frame_queue_never_exceeds_two_witness :
    (CameraSim.init startedCamera).cam.pFrameQueue = some [] ∧
    mmal_queue_length threeFramesRun.cam.pFrameQueue ≤ 2 ∧
    (previewOutputCallback threeFramesRun.cam ⟨2, 2, 400, 7⟩ MMAL_SUCCESS).pFrameQueue
      = threeFramesRun.cam.pFrameQueue :=
  ⟨by decide,
   (frame_queue_never_exceeds_two (CameraSim.init startedCamera) _ (by decide)).1,
   (frame_queue_never_exceeds_two (CameraSim.init startedCamera) _ (by decide)).2
     ⟨2, 2, 400, 7⟩ MMAL_SUCCESS (by decide)⟩

/-- C1, evaluated where it fails: after the successful start the four counts add up to the pool
size 3; once the hardware has returned one buffer with length 0 (or with a null data pointer)
they add up to 2, the buffer being in none of the four places. -/
theorem conservation_lost_on_zero_length_buffer :
    startedCamera.pPreviewPool = some ⟨2, 3, []⟩ ∧
    (CameraSim.init startedCamera).total = 3 ∧
    zeroLengthRun.total = 2 ∧ nullDataRun.total = 2 := by
  decide

/-- C3, evaluated where it fails: the callback receives buffer 0 of the pool with length 0 (or
with a null data pointer) and returns with the buffer neither in the frame queue, nor in the
free queue of the pool, nor at the port, having made no MMAL call at all. -/
theorem zero_length_buffer_dropped :
    startedCamera.held = [⟨2, 0, 0, 0⟩, ⟨2, 1, 0, 0⟩, ⟨2, 2, 0, 0⟩] ∧
    (startedCamera.hardwareReturns 0 0 7 MMAL_SUCCESS).pFrameQueue = some [] ∧
    (startedCamera.hardwareReturns 0 0 7 MMAL_SUCCESS).poolQueue = [] ∧
    (startedCamera.hardwareReturns 0 0 7 MMAL_SUCCESS).held = [⟨2, 1, 0, 0⟩, ⟨2, 2, 0, 0⟩] ∧
    (startedCamera.hardwareReturns 0 0 7 MMAL_SUCCESS).calls = startedCamera.calls ∧
    (startedCamera.hardwareReturns 0 100 0 MMAL_SUCCESS).pFrameQueue = some [] ∧
    (startedCamera.hardwareReturns 0 100 0 MMAL_SUCCESS).poolQueue = [] ∧
    (startedCamera.hardwareReturns 0 100 0 MMAL_SUCCESS).held = [⟨2, 1, 0, 0⟩, ⟨2, 2, 0, 0⟩] ∧
    (startedCamera.hardwareReturns 0 100 0 MMAL_SUCCESS).calls = startedCamera.calls := by
  decide

/-! ## The scenario of five frames -/

theorem releasedBuffers_append (a b : List MmalCall) :
    releasedBuffers (a ++ b) = releasedBuffers a ++ releasedBuffers b := by
  simp [releasedBuffers, List.filterMap_append]

theorem releasedBuffers_cons_release (b : MMAL_BUFFER_HEADER_T) (l : List MmalCall) :
    releasedBuffers (.buffer_header_release b :: l) = b :: releasedBuffers l := rfl

theorem releasedBuffers_cons_send (c : Nat) (b : Option MMAL_BUFFER_HEADER_T)
    (l : List MmalCall) : releasedBuffers (.port_send_buffer c b :: l) = releasedBuffers l := rfl

theorem releasedBuffers_nil : releasedBuffers [] = [] := rfl

/-- Five frames at a camera that has just handed the three buffers of its pool to the port and
has released none so far: what the run leaves behind. -/
theorem five_frames_from (s : RPiCamera) (c n sz nr szr h : Nat)
    (hpool : s.pPreviewPool = some ⟨h, 3, []⟩)
    (hport : s.pPreviewPort
      = some ⟨c, true, n, sz, nr, szr, [⟨h, 0, 0, 0⟩, ⟨h, 1, 0, 0⟩, ⟨h, 2, 0, 0⟩]⟩)
    (hq : s.pFrameQueue = some []) (hrel : releasedBuffers s.calls = [])
    (evs : List CameraEvent)
    (i1 i2 l1 d1 l2 d2 l3 d3 l4 d4 l5 d5 : Nat) (h1 : i1 < 3) (h2 : i2 < 2)
    (hevs : evs = [.hardwareReturns i1 (l1 + 1) (d1 + 1) MMAL_SUCCESS,
       .hardwareReturns i2 (l2 + 1) (d2 + 1) MMAL_SUCCESS,
       .hardwareReturns 0 (l3 + 1) (d3 + 1) MMAL_SUCCESS,
       .hardwareReturns 0 (l4 + 1) (d4 + 1) MMAL_SUCCESS,
       .hardwareReturns 0 (l5 + 1) (d5 + 1) MMAL_SUCCESS]) :
    ((CameraSim.init s).run evs).delivered.length = 5 ∧
    mmal_queue_length ((CameraSim.init s).run evs).cam.pFrameQueue = 2 ∧
    ((CameraSim.init s).run evs).cam.poolQueue.length = 0 ∧
    (((releasedBuffers ((CameraSim.init s).run evs).cam.calls).map
      MMAL_BUFFER_HEADER_T.ident).dedup.length = 1) ∧
    (releasedBuffers ((CameraSim.init s).run evs).cam.calls).length = 3 ∧
    (∀ b ∈ releasedBuffers ((CameraSim.init s).run evs).cam.calls,
      b.ident ∉ (((CameraSim.init s).run evs).cam.pFrameQueue.getD []).map
        MMAL_BUFFER_HEADER_T.ident) := by
  subst hevs
  interval_cases i1 <;> interval_cases i2 <;>
    simp [CameraSim.run, CameraSim.init, CameraSim.step, RPiCamera.hardwareReturns, RPiCamera.held,
      previewOutputCallback, RPiCamera._internalPreviewOutCb, RPiCamera.releaseFrame,
      RPiCamera.mmal_buffer_header_release, RPiCamera.mmal_port_send_buffer, RPiCamera.call,
      RPiCamera.fprintf, RPiCamera.poolQueue, mmal_queue_get, mmal_queue_length, mmal_queue_put,
      releasedBuffers_append, releasedBuffers_cons_release, releasedBuffers_cons_send,
      releasedBuffers_nil, MMAL_BUFFER_HEADER_T.ident, hpool, hport, hq, hrel]

/-- A new camera after `start` on an MMAL layer where every call succeeds: no exception, a pool
of `VIDEO_OUTPUT_BUFFERS_NUM` = 3 buffers with an empty free queue, all three buffers at the
enabled port, an empty frame queue, and no buffer released so far. -/
theorem start_allSucceed (encoding0 encoding : MMAL_FOURCC_T) (width height framerate : Int)
    (num size : Nat) :
    ((RPiCamera.construct encoding0).start width height framerate encoding
      (MmalAnswers.allSucceed num size)).error = none ∧
    ((RPiCamera.construct encoding0).start width height framerate encoding
      (MmalAnswers.allSucceed num size)).state.pPreviewPool = some ⟨2, 3, []⟩ ∧
    ((RPiCamera.construct encoding0).start width height framerate encoding
      (MmalAnswers.allSucceed num size)).state.pPreviewPort
      = some ⟨1, true, 3, size, num, size, [⟨2, 0, 0, 0⟩, ⟨2, 1, 0, 0⟩, ⟨2, 2, 0, 0⟩]⟩ ∧
    ((RPiCamera.construct encoding0).start width height framerate encoding
      (MmalAnswers.allSucceed num size)).state.pFrameQueue = some [] ∧
    releasedBuffers ((RPiCamera.construct encoding0).start width height framerate encoding
      (MmalAnswers.allSucceed num size)).state.calls = [] := by
  refine ⟨rfl, rfl, rfl, rfl, ?_⟩
  simp [RPiCamera.start, RPiCamera.startStore, Outcome.startCatch, RPiCamera.construct, MmalAnswers.allSucceed, RPiCamera.startTry,
    Outcome.andThen, Outcome.state, RPiCamera.setupCamera, RPiCamera.call, RPiCamera.fprintf,
    RPiCamera.setDefaultParameters, RPiCamera.setExposureMode, RPiCamera.setAwbMode,
    RPiCamera.setShutterSpeed, RPiCamera.setAwbGains, RPiCamera.setAnalogGain,
    RPiCamera.setDigitalGain, RPiCamera.setSharpness, RPiCamera.setContrast,
    RPiCamera.setBrightness, RPiCamera.setSaturation, RPiCamera.setAlgorithmControl,
    RPiCamera.setUseCase, RPiCamera.setZeroShutterLag, RPiCamera.setupStillPort,
    RPiCamera.setupVideoPort, RPiCamera.setupPreviewPort, RPiCamera.printPortEncodings,
    RPiCamera.startPreview, RPiCamera.fillPreviewPort, RPiCamera.component,
    mmal_port_pool_create, RPiCamera.poolQueue, mmal_queue_get, RPiCamera.mmal_port_send_buffer,
    RPiCamera.setPoolQueue, List.range, List.range.loop, releasedBuffers]

/-- C5: pool of 3 buffers, `start(640, 480, ...)` succeeds, the producer delivers 5 frames and
the consumer takes none.  Afterwards the frame queue holds 2 buffers and the free queue of the
pool none; exactly one buffer of the pool never entered the frame queue: it is the only buffer
handed to `mmal_buffer_header_release` (three times, once for each of the frames 3 to 5). -/
theorem five_frames_scenario (encoding0 encoding : MMAL_FOURCC_T) (framerate : Int)
    (num size : Nat) (i1 i2 l1 d1 l2 d2 l3 d3 l4 d4 l5 d5 : Nat) (h1 : i1 < 3) (h2 : i2 < 2) :
    ((RPiCamera.construct encoding0).start 640 480 framerate encoding
      (MmalAnswers.allSucceed num size)).error = none ∧
    (fiveFramesRun encoding0 encoding framerate num size i1 i2 l1 d1 l2 d2 l3 d3 l4 d4 l5
      d5).delivered.length = 5 ∧
    mmal_queue_length (fiveFramesRun encoding0 encoding framerate num size i1 i2 l1 d1 l2 d2 l3 d3
      l4 d4 l5 d5).cam.pFrameQueue = 2 ∧
    (fiveFramesRun encoding0 encoding framerate num size i1 i2 l1 d1 l2 d2 l3 d3 l4 d4 l5
      d5).cam.poolQueue.length = 0 ∧
    (((releasedBuffers (fiveFramesRun encoding0 encoding framerate num size i1 i2 l1 d1 l2 d2 l3
      d3 l4 d4 l5 d5).cam.calls).map MMAL_BUFFER_HEADER_T.ident).dedup.length = 1) ∧
    (releasedBuffers (fiveFramesRun encoding0 encoding framerate num size i1 i2 l1 d1 l2 d2 l3
      d3 l4 d4 l5 d5).cam.calls).length = 3 ∧
    (∀ b ∈ releasedBuffers (fiveFramesRun encoding0 encoding framerate num size i1 i2 l1 d1 l2 d2
        l3 d3 l4 d4 l5 d5).cam.calls,
      b.ident ∉ ((fiveFramesRun encoding0 encoding framerate num size i1 i2 l1 d1 l2 d2 l3 d3 l4
        d4 l5 d5).cam.pFrameQueue.getD []).map MMAL_BUFFER_HEADER_T.ident) := by
  have hs := start_allSucceed encoding0 encoding 640 480 framerate num size
  exact ⟨hs.1, five_frames_from _ 1 3 size num size 2 hs.2.1 hs.2.2.1 hs.2.2.2.1 hs.2.2.2.2 _
    i1 i2 l1 d1 l2 d2 l3 d3 l4 d4 l5 d5 h1 h2 rfl⟩

/-- C5 with 60 frames per second, RGB24, and the hardware filling its buffers in pool order. -/
theorem five_frames_scenario_witness :
    (0 < 3 ∧ 0 < 2) ∧
    mmal_queue_length (fiveFramesRun .RGB24 .RGB24 60 3 921600 0 0 99 6 99 6 99 6 99 6 99
      6).cam.pFrameQueue = 2 ∧
    (fiveFramesRun .RGB24 .RGB24 60 3 921600 0 0 99 6 99 6 99 6 99 6 99 6).cam.poolQueue.length
      = 0 ∧
    (((releasedBuffers (fiveFramesRun .RGB24 .RGB24 60 3 921600 0 0 99 6 99 6 99 6 99 6 99
      6).cam.calls).map MMAL_BUFFER_HEADER_T.ident).dedup.length = 1) :=
  ⟨by decide,
   (five_frames_scenario .RGB24 .RGB24 60 3 921600 0 0 99 6 99 6 99 6 99 6 99 6
      (by decide) (by decide)).2.2.1,
   (five_frames_scenario .RGB24 .RGB24 60 3 921600 0 0 99 6 99 6 99 6 99 6 99 6
      (by decide) (by decide)).2.2.2.1,
   (five_frames_scenario .RGB24 .RGB24 60 3 921600 0 0 99 6 99 6 99 6 99 6 99 6
      (by decide) (by decide)).2.2.2.2.1⟩

/-! ## What `start` keeps and what it overwrites -/

theorem RPiCamera.Extends.refl (s : RPiCamera) : s.Extends s :=
  ⟨rfl, rfl, rfl, [], by simp⟩

theorem RPiCamera.Extends.trans {s t u : RPiCamera} (h1 : s.Extends t) (h2 : t.Extends u) :
    s.Extends u := by
  obtain ⟨a1, b1, c1, r1, d1⟩ := h1
  obtain ⟨a2, b2, c2, r2, d2⟩ := h2
  exact ⟨a2.trans a1, b2.trans b1, c2.trans c1, r1 ++ r2, by rw [d2, d1, List.append_assoc]⟩

theorem fprintf_extends (s : RPiCamera) (d : Diag) : s.Extends (s.fprintf d) :=
  ⟨rfl, rfl, rfl, [], by simp [RPiCamera.fprintf]⟩

/-- Field updates that leave the configuration and the call log alone. -/
theorem extends_of_eq {s t : RPiCamera} (h1 : t.camResolution_ = s.camResolution_)
    (h2 : t.framerate_ = s.framerate_) (h3 : t.encoding_ = s.encoding_)
    (h4 : t.calls = s.calls) : s.Extends t :=
  ⟨h1, h2, h3, [], by simp [h4]⟩

theorem mmal_port_send_buffer_extends (s : RPiCamera) (b : MMAL_BUFFER_HEADER_T)
    (st : MMAL_STATUS_T) : s.Extends (s.mmal_port_send_buffer b st) := by
  unfold RPiCamera.mmal_port_send_buffer
  split
  · simp only []
    split_ifs <;> simp [RPiCamera.Extends, RPiCamera.call]
  · exact .refl s

theorem setPoolQueue_extends (s : RPiCamera) (q : MMAL_QUEUE_T) :
    s.Extends (s.setPoolQueue q) :=
  extends_of_eq rfl rfl rfl rfl

theorem fillPreviewPort_extends (env : MmalAnswers) (n i : Nat) (s : RPiCamera) :
    s.Extends (RPiCamera.fillPreviewPort env n i s).state := by
  induction n generalizing i s with
  | zero => exact .refl s
  | succ n ih =>
    unfold RPiCamera.fillPreviewPort
    split
    · rename_i pBuf rest hget
      have h12 : s.Extends ((s.setPoolQueue rest).mmal_port_send_buffer pBuf (env.send_buffer i)) :=
        (setPoolQueue_extends s rest).trans (mmal_port_send_buffer_extends _ _ _)
      simp only []
      split
      · exact h12.trans (fprintf_extends _ _)
      · exact h12.trans (ih _ _)
    · simp [RPiCamera.Extends, RPiCamera.call, RPiCamera.fprintf, Outcome.state]

theorem take_two_append_take (l r : List MMAL_BUFFER_HEADER_T) :
    ((l ++ r).take 2) = ((l.take 2 ++ r).take 2) := by
  match l with
  | [] => rfl
  | [_] => rfl
  | _ :: _ :: _ => rfl

/-- The frame queue after the callback received a frame: the first two of the queue followed by
the frame. -/
theorem previewOutputCallback_frame_queue (s : RPiCamera) (q : MMAL_QUEUE_T)
    (pBuf : MMAL_BUFFER_HEADER_T) (st : MMAL_STATUS_T) (hq : s.pFrameQueue = some q)
    (hlen : q.length ≤ 2) (hframe : pBuf.isFrame = true) :
    (previewOutputCallback s pBuf st).pFrameQueue = some ((q ++ [pBuf]).take 2) := by
  have h1 : pBuf.length ≠ 0 := by
    intro h; simp [MMAL_BUFFER_HEADER_T.isFrame, h] at hframe
  have h2 : pBuf.data ≠ 0 := by
    intro h; simp [MMAL_BUFFER_HEADER_T.isFrame, h] at hframe
  unfold previewOutputCallback RPiCamera._internalPreviewOutCb
  rw [if_neg h1, if_neg h2]
  split
  · rename_i hlt
    rw [hq] at hlt
    simp only [mmal_queue_length] at hlt
    simp only [hq, mmal_queue_put]
    rw [List.take_of_length_le (by simp; omega)]
  · rename_i hge
    rw [hq] at hge
    simp only [mmal_queue_length] at hge
    rw [releaseFrame_pFrameQueue, hq]
    have h2 : q.length = 2 := by omega
    rw [List.take_append_of_le_length (by omega), List.take_of_length_le (by omega)]

/-- The frame queue after a sequence of frames: the first two of what was queued followed by
what was delivered. -/
theorem produce_frame_queue (frames : List (MMAL_BUFFER_HEADER_T × MMAL_STATUS_T))
    (s : RPiCamera) (q : MMAL_QUEUE_T) (hq : s.pFrameQueue = some q) (hlen : q.length ≤ 2)
    (hframes : ∀ f ∈ frames, f.1.isFrame = true) :
    (s.produce frames).pFrameQueue = some ((q ++ frames.map (·.1)).take 2) := by
  induction frames generalizing s q with
  | nil => simp [RPiCamera.produce, hq, List.take_of_length_le hlen]
  | cons f rest ih =>
    have hstep := previewOutputCallback_frame_queue s q f.1 f.2 hq hlen
      (hframes f (List.mem_cons_self _ _))
    have := ih (previewOutputCallback s f.1 f.2) _ hstep (by simp)
      (fun g hg => hframes g (List.mem_cons_of_mem _ hg))
    simp only [RPiCamera.produce, List.foldl_cons] at this ⊢
    rw [this, ← take_two_append_take]
    simp

theorem waitForFrame_fst (s : RPiCamera) (q : MMAL_QUEUE_T) (t : Nat)
    (hq : s.pFrameQueue = some q) : (s.waitForFrame t).1 = q.head? := by
  unfold RPiCamera.waitForFrame
  rw [hq]
  cases q <;> rfl

/-- C6, amended: after any sequence of frames delivered to a session whose frame queue holds `q`
(at most 2 buffers), the frame queue holds the first two of `q` followed by the delivered
frames, and the next `waitForFrame` returns the oldest of them.  From an empty queue that is the
first frame delivered, so it is among the two most recent only when at most two frames came;
the frames arriving while the queue is full are the ones that are recycled. -/
theorem waitForFrame_returns_oldest_queued
    (frames : List (MMAL_BUFFER_HEADER_T × MMAL_STATUS_T)) (s : RPiCamera) (q : MMAL_QUEUE_T)
    (timeoutMs : Nat) (hq : s.pFrameQueue = some q) (hlen : q.length ≤ 2)
    (hframes : ∀ f ∈ frames, f.1.isFrame = true) :
    (s.produce frames).pFrameQueue = some ((q ++ frames.map (·.1)).take 2) ∧
    ((s.produce frames).waitForFrame timeoutMs).1 = (q ++ frames.map (·.1)).head? := by
  have h := produce_frame_queue frames s q hq hlen hframes
  refine ⟨h, ?_⟩
  rw [waitForFrame_fst _ _ _ h]
  cases q ++ frames.map (·.1) <;> rfl

/-- C6 amended, at four frames delivered to the started camera. -/
theorem waitForFrame_returns_oldest_queued_witness :
    ((startedCamera.produce
        [(⟨2, 0, 100, 7⟩, 0), (⟨2, 1, 200, 7⟩, 0), (⟨2, 2, 300, 7⟩, 0), (⟨2, 2, 400, 7⟩, 0)]
      ).waitForFrame 200).1 = some ⟨2, 0, 100, 7⟩ :=
  (waitForFrame_returns_oldest_queued
    [(⟨2, 0, 100, 7⟩, 0), (⟨2, 1, 200, 7⟩, 0), (⟨2, 2, 300, 7⟩, 0), (⟨2, 2, 400, 7⟩, 0)]
    startedCamera [] 200 (by decide) (by decide) (by decide)).2

/-- C6 as stated fails: three frames (lengths 100, 200, 300) are delivered to the started
camera; the next `waitForFrame` returns the first one, which is neither the most recent nor the
second most recent frame. -/
theorem waitForFrame_returns_stale_frame :
    threeFramesRun.delivered = [⟨2, 0, 100, 7⟩, ⟨2, 1, 200, 7⟩, ⟨2, 2, 300, 7⟩] ∧
    (threeFramesRun.cam.waitForFrame 200).1 = some ⟨2, 0, 100, 7⟩ ∧
    (threeFramesRun.cam.waitForFrame 200).1
      ∉ (threeFramesRun.delivered.reverse.take 2).map some := by
  decide

/-- The callback leaves the frame queue as it is or appends the buffer it received. -/
theorem previewOutputCallback_frameQueue (s : RPiCamera) (pBuf : MMAL_BUFFER_HEADER_T)
    (st : MMAL_STATUS_T) :
    (previewOutputCallback s pBuf st).frameQueue = s.frameQueue ∨
    (previewOutputCallback s pBuf st).frameQueue = s.frameQueue ++ [pBuf] := by
  unfold previewOutputCallback RPiCamera._internalPreviewOutCb RPiCamera.frameQueue
  split
  · exact .inl rfl
  · split
    · exact .inl rfl
    · split
      · cases hq : s.pFrameQueue with
        | none => exact .inl (by simp [mmal_queue_put])
        | some q => exact .inr (by simp [mmal_queue_put])
      · exact .inl (by rw [releaseFrame_pFrameQueue])

/-- What the consumer has received, followed by what is queued, is a subsequence of what the
callback has been given: no step of a run breaks this. -/
theorem CameraSim.step_fifo (x : CameraSim) (e : CameraEvent)
    (h : (x.returned ++ x.cam.frameQueue).Sublist x.delivered) :
    ((x.step e).returned ++ (x.step e).cam.frameQueue).Sublist (x.step e).delivered := by
  cases e with
  | hardwareReturns i length data st =>
    simp only [CameraSim.step, RPiCamera.hardwareReturns, RPiCamera.held]
    cases hp : x.cam.pPreviewPort with
    | none => simpa using h
    | some port =>
      simp only []
      cases hb : port.held[i]? with
      | none => simpa using h
      | some b =>
        simp only []
        rcases previewOutputCallback_frameQueue
          { x.cam with pPreviewPort := some { port with held := port.held.eraseIdx i } }
          { b with length := length, data := data } st with hcase | hcase
        · rw [hcase]
          exact h.trans (List.sublist_append_left _ _)
        · rw [hcase, ← List.append_assoc]
          exact List.Sublist.append h (List.Sublist.refl _)
  | waitForFrame t =>
    simp only [CameraSim.step, RPiCamera.waitForFrame]
    cases hq : x.cam.pFrameQueue with
    | none => simpa [RPiCamera.frameQueue, hq] using h
    | some q =>
      cases q with
      | nil => simpa [RPiCamera.frameQueue, hq, mmal_queue_timedwait, mmal_queue_get] using h
      | cons b rest =>
        simpa [RPiCamera.frameQueue, hq, mmal_queue_timedwait, mmal_queue_get] using h
  | releaseFrame j st =>
    cases j with
    | none =>
      simp only [CameraSim.step, RPiCamera.frameQueue]
      rw [releaseFrame_pFrameQueue]
      exact h
    | some j =>
      simp only [CameraSim.step]
      split
      · simp only [RPiCamera.frameQueue]
        rw [releaseFrame_pFrameQueue]
        exact h
      · exact h

theorem CameraSim.run_fifo (evs : List CameraEvent) (x : CameraSim)
    (h : (x.returned ++ x.cam.frameQueue).Sublist x.delivered) :
    ((x.run evs).returned ++ (x.run evs).cam.frameQueue).Sublist (x.run evs).delivered := by
  induction evs generalizing x with
  | nil => exact h
  | cons e evs ih => exact ih (x.step e) (CameraSim.step_fifo x e h)

/-- C7: for every interleaving of producer callbacks and consumer calls, starting with an empty
frame queue, the buffers `waitForFrame` returns form, in the order they are returned, a
subsequence of the buffers delivered to the callback. -/
theorem frames_returned_in_production_order (cam : RPiCamera) (evs : List CameraEvent)
    (hempty : mmal_queue_length cam.pFrameQueue = 0) :
    ((CameraSim.init cam).run evs).returned.Sublist ((CameraSim.init cam).run evs).delivered := by
  have h0 : ((CameraSim.init cam).returned ++ (CameraSim.init cam).cam.frameQueue).Sublist
      (CameraSim.init cam).delivered := by
    cases hq : cam.pFrameQueue with
    | none => simp [CameraSim.init, RPiCamera.frameQueue, hq]
    | some q =>
      rw [hq] at hempty
      simp only [mmal_queue_length, List.length_eq_zero] at hempty
      simp [CameraSim.init, RPiCamera.frameQueue, hq, hempty]
  exact (List.sublist_append_left _ _).trans (CameraSim.run_fifo evs _ h0)

/-- C7 at a run of the started camera with three frames delivered and four calls of the
consumer: the three frames come back in the order of delivery. -/
theorem frames_returned_in_production_order_witness :
    mmal_queue_length startedCamera.pFrameQueue = 0 ∧
    interleavedRun.returned = [⟨2, 0, 100, 7⟩, ⟨2, 1, 200, 7⟩, ⟨2, 2, 300, 7⟩] ∧
    interleavedRun.returned.Sublist interleavedRun.delivered :=
  ⟨by decide, by decide,
   frames_returned_in_production_order startedCamera _ (by decide)⟩

/-! ## The consumer side -/

/-- Function `mmal_port_send_buffer` logs no release of a buffer. -/
theorem mmal_port_send_buffer_calls (s : RPiCamera) (b : MMAL_BUFFER_HEADER_T)
    (st : MMAL_STATUS_T) :
    ∃ tail, (s.mmal_port_send_buffer b st).calls = s.calls ++ tail ∧
      releasedBuffers tail = [] := by
  unfold RPiCamera.mmal_port_send_buffer
  split
  · rename_i port hport
    simp only [RPiCamera.call]
    split
    · exact ⟨[.port_send_buffer port.component (some b)], rfl, rfl⟩
    · exact ⟨[.port_send_buffer port.component (some b)], rfl, rfl⟩
  · exact ⟨[], by simp, rfl⟩

/-- Function `releaseFrame(pBuf)` with a buffer: the calls it logs begin with the release of
`pBuf`, and no other buffer is released. -/
theorem releaseFrame_calls (s : RPiCamera) (b : MMAL_BUFFER_HEADER_T) (st : MMAL_STATUS_T) :
    ∃ tail, (s.releaseFrame (some b) st).calls = s.calls ++ .buffer_header_release b :: tail ∧
      releasedBuffers tail = [] := by
  unfold RPiCamera.releaseFrame
  simp only []
  have hc : (s.mmal_buffer_header_release b).calls = s.calls ++ [.buffer_header_release b] := by
    unfold RPiCamera.mmal_buffer_header_release
    simp only [RPiCamera.call]
    split
    · split <;> rfl
    · rfl
  generalize s.mmal_buffer_header_release b = u at hc
  split
  · rename_i pool port hpool hport
    split
    · split
      · rename_i pNewBuf rest hq
        obtain ⟨tail, h1, h2⟩ := mmal_port_send_buffer_calls
          { u with pPreviewPool := some { pool with queue := rest } } pNewBuf st
        refine ⟨tail, ?_, h2⟩
        split
        · simp only [RPiCamera.fprintf]
          rw [h1, hc]
          simp
        · rw [h1, hc]
          simp
      · exact ⟨[], by simp [RPiCamera.fprintf, hc], rfl⟩
    · exact ⟨[], by simp [hc], rfl⟩
  · exact ⟨[], by simp [hc], rfl⟩

/-- What `getFrame` takes out of the frame queue is what it stores in `pLastFrame`. -/
theorem getFrame_popped (c : CaptureRPi) :
    poppedFrames c.camera c.getFrame.2.camera = c.getFrame.2.pLastFrame.toList := by
  unfold CaptureRPi.getFrame poppedFrames
  cases hq : c.camera.pFrameQueue with
  | none => simp [RPiCamera.waitForFrame, hq, RPiCamera.fprintf, mmal_queue_length]
  | some q =>
    cases q with
    | nil =>
      simp [RPiCamera.waitForFrame, hq, RPiCamera.fprintf, mmal_queue_length,
        mmal_queue_timedwait, mmal_queue_get]
    | cons b rest =>
      simp [RPiCamera.waitForFrame, hq, RPiCamera.call, mmal_queue_length,
        mmal_queue_timedwait, mmal_queue_get]

/-- What `CaptureRPi::releaseFrame` hands back through `RPiCamera::releaseFrame` is the buffer
`pLastFrame` points at, and nothing when `pLastFrame` is null. -/
theorem releaseFrame_handedBack (c : CaptureRPi) (st : MMAL_STATUS_T) :
    handedBack c.camera (c.releaseFrame st).camera = c.pLastFrame.toList := by
  unfold CaptureRPi.releaseFrame handedBack
  cases hl : c.pLastFrame with
  | none => simp [releasedBuffers]
  | some b =>
    obtain ⟨tail, h1, h2⟩ :=
      releaseFrame_calls (c.camera.call (.buffer_header_mem_unlock b)) b st
    simp only [Option.toList_some]
    rw [h1]
    simp only [RPiCamera.call, List.append_assoc, List.drop_left']
    simp [releasedBuffers] at h2 ⊢
    exact h2

/-- In a Running session, `CaptureRPi::releaseFrame` with a checked-out frame that is a buffer of
the pool of the session unlocks the buffer, releases it to the pool, takes the head of the free
queue and sends it to the preview port, whatever the port answers; no frame is checked out
afterwards.  When the port accepts the buffer (`MMAL_SUCCESS`), the hardware holds one buffer
more than before and free + queued + checked out + in hardware is what it was. -/
theorem consumer_release_recycles (x : CaptureSim) (b : MMAL_BUFFER_HEADER_T)
    (pool : MMAL_POOL_T) (port : MMAL_PORT_T) (sendStatus : MMAL_STATUS_T)
    (hrun : x.cap.camera.Running)
    (hlast : x.cap.pLastFrame = some b) (hout : x.outstanding = [b])
    (hpool : x.cap.camera.pPreviewPool = some pool)
    (hport : x.cap.camera.pPreviewPort = some port) (hown : b.pool = pool.handle) :
    (x.step (.releaseFrame sendStatus)).cap.pLastFrame = none ∧
    (x.step (.releaseFrame sendStatus)).outstanding = [] ∧
    (∃ pNewBuf rest, pool.queue ++ [b] = pNewBuf :: rest ∧
      (x.step (.releaseFrame sendStatus)).cap.camera.pPreviewPool
        = some { pool with queue := rest } ∧
      (x.step (.releaseFrame sendStatus)).cap.camera.calls
        = x.cap.camera.calls ++ [.buffer_header_mem_unlock b, .buffer_header_release b,
            .port_send_buffer port.component (some pNewBuf)] ∧
      (sendStatus = MMAL_SUCCESS →
        (x.step (.releaseFrame sendStatus)).cap.camera.pPreviewPort
          = some { port with held := port.held ++ [pNewBuf] })) ∧
    (sendStatus = MMAL_SUCCESS →
      (x.step (.releaseFrame sendStatus)).cap.camera.held.length
        = x.cap.camera.held.length + 1 ∧
      (x.step (.releaseFrame sendStatus)).total = x.total) := by
  have hen : port.is_enabled = true := by
    have := hrun.2.2
    simpa [RPiCamera.portEnabled, hport] using this
  have hcap : (x.step (.releaseFrame sendStatus)).cap = x.cap.releaseFrame sendStatus := rfl
  have hout' : (x.step (.releaseFrame sendStatus)).outstanding = [] := by
    show x.outstanding.diff (handedBack x.cap.camera (x.cap.releaseFrame sendStatus).camera) = []
    rw [releaseFrame_handedBack, hlast, hout]
    simp
  unfold CaptureSim.total
  rw [hcap, hout', hout]
  cases hq : pool.queue with
  | nil =>
    refine ⟨?_, rfl, ⟨b, [], by simp, ?_⟩, ?_⟩
    · simp [CaptureRPi.releaseFrame, hlast]
    · by_cases hst : sendStatus = 0 <;>
        simp [CaptureRPi.releaseFrame, RPiCamera.releaseFrame,
          RPiCamera.mmal_buffer_header_release, RPiCamera.mmal_port_send_buffer, RPiCamera.call,
          RPiCamera.fprintf, mmal_queue_get, hlast, hpool, hport, hen, hown, hq, hst]
    · intro hst
      subst hst
      simp [CaptureRPi.releaseFrame, RPiCamera.releaseFrame,
        RPiCamera.mmal_buffer_header_release, RPiCamera.mmal_port_send_buffer, RPiCamera.call,
        RPiCamera.fprintf, RPiCamera.poolQueue, RPiCamera.held, mmal_queue_get, hlast,
        hpool, hport, hen, hown, hq]
      omega
  | cons a r =>
    refine ⟨?_, rfl, ⟨a, r ++ [b], by simp, ?_⟩, ?_⟩
    · simp [CaptureRPi.releaseFrame, hlast]
    · by_cases hst : sendStatus = 0 <;>
        simp [CaptureRPi.releaseFrame, RPiCamera.releaseFrame,
          RPiCamera.mmal_buffer_header_release, RPiCamera.mmal_port_send_buffer, RPiCamera.call,
          RPiCamera.fprintf, mmal_queue_get, hlast, hpool, hport, hen, hown, hq, hst]
    · intro hst
      subst hst
      simp [CaptureRPi.releaseFrame, RPiCamera.releaseFrame,
        RPiCamera.mmal_buffer_header_release, RPiCamera.mmal_port_send_buffer, RPiCamera.call,
        RPiCamera.fprintf, RPiCamera.poolQueue, RPiCamera.held, mmal_queue_get, hlast,
        hpool, hport, hen, hown, hq]
      omega

/-- The lemma `consumer_release_recycles` at the started capture object after the consumer took
the first of two frames. -/
theorem consumer_release_recycles_example :
    checkedOutCapture.cap.camera.Running ∧
    checkedOutCapture.cap.pLastFrame = some ⟨2, 0, 100, 7⟩ ∧
    checkedOutCapture.total = 3 ∧
    (checkedOutCapture.step (.releaseFrame MMAL_SUCCESS)).cap.pLastFrame = none ∧
    ((checkedOutCapture.step (.releaseFrame MMAL_SUCCESS)).cap.camera.held.length
      = checkedOutCapture.cap.camera.held.length + 1 ∧
     (checkedOutCapture.step (.releaseFrame MMAL_SUCCESS)).total = checkedOutCapture.total) :=
  ⟨by decide, by decide, by decide,
   (consumer_release_recycles checkedOutCapture ⟨2, 0, 100, 7⟩ ⟨2, 3, []⟩
     ⟨1, true, 3, 921600, 3, 921600, [⟨2, 2, 0, 0⟩]⟩ MMAL_SUCCESS
     (by decide) (by decide) (by decide) (by decide) (by decide) (by decide)).1,
   (consumer_release_recycles checkedOutCapture ⟨2, 0, 100, 7⟩ ⟨2, 3, []⟩
     ⟨1, true, 3, 921600, 3, 921600, [⟨2, 2, 0, 0⟩]⟩ MMAL_SUCCESS
     (by decide) (by decide) (by decide) (by decide) (by decide) (by decide)).2.2.2 rfl⟩

/-- C8, evaluated where it fails.  First, the session started again after a stop with two frames
queued: it is Running, the consumer has checked out a frame with `getFrame` (`pLastFrame` not
null), a buffer of the pool 2 destroyed by the stop, the pool of the session being pool 4.
`CaptureRPi::releaseFrame` with an accepting port releases that buffer and sends nothing to the
port: the free queue is found empty ("Could not get buffer from port queue"), the hardware holds
3 buffers as before, and the sum over free, queued, checked out and in hardware goes from 5 to 4.
Second, the first session with a checked-out buffer of its own pool and a port that refuses the
buffer (`MMAL_EINVAL`): the buffer taken from the free queue is passed to
`mmal_port_send_buffer`, the refusal is printed, and the buffer is neither at the port nor in the
pool; the hardware holds 1 buffer as before and the sum goes from 3 to 2. -/
theorem consumer_release_loses_buffer :
    (staleCheckedOut.cap.camera.Running ∧
     staleCheckedOut.cap.pLastFrame = some ⟨2, 0, 100, 7⟩ ∧
     staleCheckedOut.outstanding = [⟨2, 0, 100, 7⟩] ∧
     staleCheckedOut.cap.camera.pPreviewPool.map (·.handle) = some 4 ∧
     staleCheckedOut.cap.camera.held.length = 3 ∧
     staleCheckedOut.total = 5 ∧
     (staleCheckedOut.step (.releaseFrame MMAL_SUCCESS)).cap.pLastFrame = none ∧
     (staleCheckedOut.step (.releaseFrame MMAL_SUCCESS)).cap.camera.calls
       = staleCheckedOut.cap.camera.calls
         ++ [.buffer_header_mem_unlock ⟨2, 0, 100, 7⟩, .buffer_header_release ⟨2, 0, 100, 7⟩] ∧
     (staleCheckedOut.step (.releaseFrame MMAL_SUCCESS)).cap.camera.diag
       = staleCheckedOut.cap.camera.diag ++ [.could_not_get_buffer] ∧
     (staleCheckedOut.step (.releaseFrame MMAL_SUCCESS)).cap.camera.poolQueue = [] ∧
     (staleCheckedOut.step (.releaseFrame MMAL_SUCCESS)).cap.camera.held.length = 3 ∧
     (staleCheckedOut.step (.releaseFrame MMAL_SUCCESS)).total = 4) ∧
    (checkedOutCapture.cap.camera.Running ∧
     checkedOutCapture.cap.pLastFrame = some ⟨2, 0, 100, 7⟩ ∧
     checkedOutCapture.cap.camera.pPreviewPool.map (·.handle) = some 2 ∧
     checkedOutCapture.cap.camera.held.length = 1 ∧
     checkedOutCapture.total = 3 ∧
     (checkedOutCapture.step (.releaseFrame MMAL_EINVAL)).cap.pLastFrame = none ∧
     (checkedOutCapture.step (.releaseFrame MMAL_EINVAL)).cap.camera.calls
       = checkedOutCapture.cap.camera.calls
         ++ [.buffer_header_mem_unlock ⟨2, 0, 100, 7⟩, .buffer_header_release ⟨2, 0, 100, 7⟩,
             .port_send_buffer 1 (some ⟨2, 0, 100, 7⟩)] ∧
     (checkedOutCapture.step (.releaseFrame MMAL_EINVAL)).cap.camera.diag
       = checkedOutCapture.cap.camera.diag ++ [.could_not_send_buffer MMAL_EINVAL] ∧
     (checkedOutCapture.step (.releaseFrame MMAL_EINVAL)).cap.camera.poolQueue = [] ∧
     (checkedOutCapture.step (.releaseFrame MMAL_EINVAL)).cap.camera.held.length = 1 ∧
     (checkedOutCapture.step (.releaseFrame MMAL_EINVAL)).total = 2) := by
  decide

/-- One step of a client that calls `getFrame` only while it holds no popped buffer keeps the
tracking: at most one buffer is popped and not yet handed back, and such a buffer is the one
`pLastFrame` points at. -/
theorem CaptureSim.step_outstanding (x : CaptureSim) (e : CaptureEvent)
    (h : x.outstanding.length ≤ 1 ∧ ∀ b ∈ x.outstanding, x.cap.pLastFrame = some b)
    (hg : e = .getFrame → x.outstanding = []) :
    (x.step e).outstanding.length ≤ 1 ∧
    ∀ b ∈ (x.step e).outstanding, (x.step e).cap.pLastFrame = some b := by
  cases e with
  | getFrame =>
    have hout : (x.step .getFrame).outstanding = (x.step .getFrame).cap.pLastFrame.toList := by
      show x.outstanding ++ poppedFrames x.cap.camera x.cap.getFrame.2.camera = _
      rw [hg rfl, getFrame_popped]
      rfl
    rw [hout]
    cases (x.step .getFrame).cap.pLastFrame <;> simp
  | releaseFrame st =>
    have hout : (x.step (.releaseFrame st)).outstanding = [] := by
      show x.outstanding.diff (handedBack x.cap.camera (x.cap.releaseFrame st).camera) = []
      rw [releaseFrame_handedBack]
      obtain ⟨hlen, hmem⟩ := h
      cases ho : x.outstanding with
      | nil => simp
      | cons a rest =>
        rw [ho] at hlen hmem
        cases rest with
        | nil =>
          rw [hmem a (List.mem_cons_self _ _)]
          simp
        | cons c rest => simp at hlen
    rw [hout]
    simp
  | hardwareReturns i length data st => exact h

theorem CaptureSim.run_outstanding (evs : List CaptureEvent) (x : CaptureSim)
    (h : x.outstanding.length ≤ 1 ∧ ∀ b ∈ x.outstanding, x.cap.pLastFrame = some b)
    (hd : CaptureSim.disciplined evs x = true) :
    (x.run evs).outstanding.length ≤ 1 ∧
    ∀ b ∈ (x.run evs).outstanding, (x.run evs).cap.pLastFrame = some b := by
  induction evs generalizing x with
  | nil => exact h
  | cons e evs ih =>
    show ((x.step e).run evs).outstanding.length ≤ 1 ∧
      ∀ b ∈ ((x.step e).run evs).outstanding, ((x.step e).run evs).cap.pLastFrame = some b
    cases e with
    | getFrame =>
      simp only [CaptureSim.disciplined, Bool.and_eq_true, List.isEmpty_iff] at hd
      exact ih _ (CaptureSim.step_outstanding x .getFrame h (fun _ => hd.1)) hd.2
    | releaseFrame st =>
      simp only [CaptureSim.disciplined] at hd
      exact ih _ (CaptureSim.step_outstanding x _ h (fun hc => by cases hc)) hd
    | hardwareReturns i length data st =>
      simp only [CaptureSim.disciplined] at hd
      exact ih _ (CaptureSim.step_outstanding x _ h (fun hc => by cases hc)) hd

/-- C9, amended: for every sequence of `getFrame`, `releaseFrame` and producer callbacks in which
`getFrame` is called only while no frame is checked out (the consumer holds no buffer popped from
the frame queue, as after a `releaseFrame` or after a `getFrame` that timed out), the buffers
popped from the frame queue and not yet handed back through `RPiCamera::releaseFrame` are at most
one, and such a buffer is the one the tracked `pLastFrame` points at.  The popped and the
handed-back buffers are read off the frame queue and the call log of the camera; the property
is assumed of the state the sequence starts in, where it holds with nothing popped yet. -/
theorem at_most_one_checked_out_frame (x : CaptureSim) (evs : List CaptureEvent)
    (h0 : x.outstanding.length ≤ 1 ∧ ∀ b ∈ x.outstanding, x.cap.pLastFrame = some b)
    (hd : CaptureSim.disciplined evs x = true) :
    (x.run evs).outstanding.length ≤ 1 ∧
    ∀ b ∈ (x.run evs).outstanding, (x.run evs).cap.pLastFrame = some b :=
  CaptureSim.run_outstanding evs x h0 hd

/-- C9 amended, at a run with a release, a timeout and two frames taken, on a capture object
whose `pLastFrame` held a stray pointer when the run began. -/
theorem at_most_one_checked_out_frame_witness :
    startedCaptureStray.pLastFrame = some ⟨9, 9, 9, 9⟩ ∧
    CaptureSim.disciplined disciplinedEvents (CaptureSim.mk startedCaptureStray []) = true ∧
    ((CaptureSim.mk startedCaptureStray []).run disciplinedEvents).outstanding
      = [⟨2, 1, 200, 7⟩] ∧
    ((CaptureSim.mk startedCaptureStray []).run disciplinedEvents).cap.pLastFrame
      = some ⟨2, 1, 200, 7⟩ ∧
    ((CaptureSim.mk startedCaptureStray []).run disciplinedEvents).outstanding.length ≤ 1 :=
  ⟨by decide, by decide, by decide, by decide,
   (at_most_one_checked_out_frame (CaptureSim.mk startedCaptureStray []) disciplinedEvents
     ⟨by decide, fun _ hb => absurd hb (List.not_mem_nil _)⟩ (by decide)).1⟩

/-- C9 as stated fails.  After `getFrame` twice in a row, two buffers are out of the frame queue
and not released, and only the second is tracked.  After `getFrame` followed by a `getFrame`
that times out, one buffer is out and `pLastFrame` is null: a later `releaseFrame` does nothing
and the total of free, queued, tracked and hardware-held buffers stays at 2 of 3. -/
theorem second_getFrame_loses_first_frame :
    doubleGetRun.outstanding = [⟨2, 0, 100, 7⟩, ⟨2, 1, 200, 7⟩] ∧
    doubleGetRun.cap.pLastFrame = some ⟨2, 1, 200, 7⟩ ∧
    getThenTimeoutRun.outstanding = [⟨2, 0, 100, 7⟩] ∧
    getThenTimeoutRun.cap.pLastFrame = none ∧
    (getThenTimeoutRun.step (.releaseFrame MMAL_SUCCESS)).outstanding = [⟨2, 0, 100, 7⟩] ∧
    (getThenTimeoutRun.step (.releaseFrame MMAL_SUCCESS)).cap.camera.poolQueue.length
      + mmal_queue_length (getThenTimeoutRun.step (.releaseFrame MMAL_SUCCESS)).cap.camera.pFrameQueue
      + (getThenTimeoutRun.step (.releaseFrame MMAL_SUCCESS)).cap.pLastFrame.toList.length
      + (getThenTimeoutRun.step (.releaseFrame MMAL_SUCCESS)).cap.camera.held.length = 2 := by
  decide

/-! ## Conservation of buffers in runs without faults -/

/-- Function `releaseFrame` with a buffer of the pool, pool present, port enabled, send
accepted: the buffer joins the free queue and the head of the free queue goes to the port. -/
theorem releaseFrame_recycles (s : RPiCamera) (b : MMAL_BUFFER_HEADER_T) (pool : MMAL_POOL_T)
    (port : MMAL_PORT_T) (hpool : s.pPreviewPool = some pool) (hport : s.pPreviewPort = some port)
    (hen : port.is_enabled = true) (hown : b.pool = pool.handle) :
    ∃ pNewBuf rest, pool.queue ++ [b] = pNewBuf :: rest ∧
      (s.releaseFrame (some b) MMAL_SUCCESS).pPreviewPool = some { pool with queue := rest } ∧
      (s.releaseFrame (some b) MMAL_SUCCESS).pPreviewPort
        = some { port with held := port.held ++ [pNewBuf] } := by
  cases hq : pool.queue with
  | nil =>
    refine ⟨b, [], by simp, ?_⟩
    simp [RPiCamera.releaseFrame, RPiCamera.mmal_buffer_header_release,
      RPiCamera.mmal_port_send_buffer, RPiCamera.call, mmal_queue_get, hpool, hport, hen, hown, hq]
  | cons a r =>
    refine ⟨a, r ++ [b], by simp, ?_⟩
    simp [RPiCamera.releaseFrame, RPiCamera.mmal_buffer_header_release,
      RPiCamera.mmal_port_send_buffer, RPiCamera.call, mmal_queue_get, hpool, hport, hen, hown, hq]

/-- Function `releaseFrame(NULL)` with the pool present, the port enabled and the send accepted:
the head of the free queue, if there is one, goes to the port. -/
theorem releaseFrame_null (s : RPiCamera) (pool : MMAL_POOL_T) (port : MMAL_PORT_T)
    (hpool : s.pPreviewPool = some pool) (hport : s.pPreviewPort = some port)
    (hen : port.is_enabled = true) :
    (pool.queue = [] ∧ (s.releaseFrame none MMAL_SUCCESS).pPreviewPool = some pool ∧
      (s.releaseFrame none MMAL_SUCCESS).pPreviewPort = some port) ∨
    ∃ pNewBuf rest, pool.queue = pNewBuf :: rest ∧
      (s.releaseFrame none MMAL_SUCCESS).pPreviewPool = some { pool with queue := rest } ∧
      (s.releaseFrame none MMAL_SUCCESS).pPreviewPort
        = some { port with held := port.held ++ [pNewBuf] } := by
  cases hq : pool.queue with
  | nil =>
    left
    simp [RPiCamera.releaseFrame, RPiCamera.fprintf, mmal_queue_get, hpool, hport, hen, hq]
  | cons a r =>
    right
    refine ⟨a, r, rfl, ?_⟩
    simp [RPiCamera.releaseFrame, RPiCamera.mmal_port_send_buffer, RPiCamera.call, mmal_queue_get,
      hpool, hport, hen, hq]

/-- The accounting after a recycling step that took `pNewBuf :: rest` out of `pool.queue ++ [b]`. -/
theorem steady_after_recycle {N h : Nat} {x : CameraSim} {pool : MMAL_POOL_T}
    (port : MMAL_PORT_T) {q : MMAL_QUEUE_T} {b pNewBuf : MMAL_BUFFER_HEADER_T} {rest : MMAL_QUEUE_T}
    (hsplit : pool.queue ++ [b] = pNewBuf :: rest)
    (hpool : x.cam.pPreviewPool = some { pool with queue := rest })
    (hport : x.cam.pPreviewPort = some { port with held := port.held ++ [pNewBuf] })
    (hq : x.cam.pFrameQueue = some q) (hh : pool.handle = h) (hn : pool.headers_num = N)
    (hen : port.is_enabled = true) (hb : b.pool = h)
    (ofree : ∀ b ∈ pool.queue, b.pool = h) (oheld : ∀ b ∈ port.held, b.pool = h)
    (oq : ∀ b ∈ q, b.pool = h) (oc : ∀ b ∈ x.checkedOut, b.pool = h)
    (hsum : pool.queue.length + 1 + q.length + x.checkedOut.length + port.held.length = N) :
    x.Steady N h := by
  have hall : ∀ c ∈ pNewBuf :: rest, c.pool = h := by
    intro c hc
    rw [← hsplit] at hc
    rcases List.mem_append.mp hc with hc | hc
    · exact ofree c hc
    · simp only [List.mem_singleton] at hc
      rw [hc]; exact hb
  have hlen : rest.length = pool.queue.length := by
    have := congrArg List.length hsplit
    simp at this
    omega
  refine ⟨_, _, q, hpool, hh, hn, hport, hen, hq, ?_, ?_, oq, oc, ?_⟩
  · intro c hc
    exact hall c (List.mem_cons_of_mem _ hc)
  · intro c hc
    rcases List.mem_append.mp hc with hc | hc
    · exact oheld c hc
    · simp only [List.mem_singleton] at hc
      rw [hc]; exact hall pNewBuf (List.mem_cons_self _ _)
  · simp only [List.length_append, List.length_singleton]
    omega

/-- A step without a fault keeps the session steady. -/
theorem CameraSim.step_steady {N h : Nat} (x : CameraSim) (e : CameraEvent)
    (hx : x.Steady N h) (he : e.faultless = true) : (x.step e).Steady N h := by
  obtain ⟨pool, port, q, hpool, hh, hn, hport, hen, hq, ofree, oheld, oq, oc, hsum⟩ := hx
  cases e with
  | hardwareReturns i length data st =>
    simp only [CameraEvent.faultless, Bool.and_eq_true, bne_iff_ne, ne_eq, beq_iff_eq] at he
    obtain ⟨⟨hl, hd⟩, hst⟩ := he
    subst hst
    cases hb : port.held[i]? with
    | none =>
      refine ⟨pool, port, q, ?_, hh, hn, ?_, hen, ?_, ofree, oheld, oq, oc, hsum⟩ <;>
        simp [CameraSim.step, RPiCamera.hardwareReturns, hport, hb, hpool, hq]
    | some b0 =>
      have hmem : b0 ∈ port.held := List.getElem?_mem hb
      have hlt : i < port.held.length := by
        obtain ⟨hi, _⟩ := List.getElem?_eq_some.mp hb
        exact hi
      have hlen : (port.held.eraseIdx i).length + 1 = port.held.length := by
        rw [List.length_eraseIdx_of_lt hlt]; omega
      have oheld' : ∀ c ∈ port.held.eraseIdx i, c.pool = h :=
        fun c hc => oheld c (List.mem_of_mem_eraseIdx hc)
      have hcam : (x.step (.hardwareReturns i length data MMAL_SUCCESS)).cam
          = ({ x.cam with pPreviewPort := some { port with held := port.held.eraseIdx i } }
              )._internalPreviewOutCb { b0 with length := length, data := data } MMAL_SUCCESS := by
        simp [CameraSim.step, RPiCamera.hardwareReturns, previewOutputCallback, hport, hb, hl, hd]
      have hco : (x.step (.hardwareReturns i length data MMAL_SUCCESS)).checkedOut
          = x.checkedOut := rfl
      by_cases hfull : q.length < 2
      · refine ⟨pool, { port with held := port.held.eraseIdx i },
          q ++ [{ b0 with length := length, data := data }], ?_, hh, hn, ?_, hen, ?_, ofree,
          oheld', ?_, ?_, ?_⟩
        · rw [hcam]; simp [RPiCamera._internalPreviewOutCb, mmal_queue_length, hq, hfull, hpool]
        · rw [hcam]; simp [RPiCamera._internalPreviewOutCb, mmal_queue_length, hq, hfull]
        · rw [hcam]
          simp [RPiCamera._internalPreviewOutCb, mmal_queue_length, mmal_queue_put, hq, hfull]
        · intro c hc
          rcases List.mem_append.mp hc with hc | hc
          · exact oq c hc
          · simp only [List.mem_singleton] at hc
            rw [hc]; exact oheld b0 hmem
        · rw [hco]; exact oc
        · rw [hco]
          simp only [List.length_append, List.length_singleton]
          omega
      · have hcam2 : (x.step (.hardwareReturns i length data MMAL_SUCCESS)).cam
            = ({ x.cam with pPreviewPort := some { port with held := port.held.eraseIdx i } }
                ).releaseFrame (some { b0 with length := length, data := data }) MMAL_SUCCESS := by
          rw [hcam]
          simp [RPiCamera._internalPreviewOutCb, mmal_queue_length, hq, hfull]
        obtain ⟨pNewBuf, rest, hsplit, hp', hport'⟩ := releaseFrame_recycles
          ({ x.cam with pPreviewPort := some { port with held := port.held.eraseIdx i } })
          { b0 with length := length, data := data } pool
          { port with held := port.held.eraseIdx i } hpool rfl hen
          (by rw [hh]; exact oheld b0 hmem)
        refine steady_after_recycle { port with held := port.held.eraseIdx i }
          hsplit (by rw [hcam2]; exact hp') (by rw [hcam2]; exact hport')
          (by rw [hcam2, releaseFrame_pFrameQueue]; exact hq) hh hn hen (oheld b0 hmem) ofree
          oheld' oq (by rw [hco]; exact oc) (by rw [hco]; simp only []; omega)
  | waitForFrame t =>
    cases q with
    | nil =>
      have hcam : (x.step (.waitForFrame t)).cam = { x.cam with pFrameQueue := some [] } := by
        simp [CameraSim.step, RPiCamera.waitForFrame, mmal_queue_timedwait, mmal_queue_get, hq]
      have hco : (x.step (.waitForFrame t)).checkedOut = x.checkedOut := by
        simp [CameraSim.step, RPiCamera.waitForFrame, mmal_queue_timedwait, mmal_queue_get, hq]
      exact ⟨pool, port, [], by rw [hcam]; exact hpool, hh, hn, by rw [hcam]; exact hport, hen,
        by rw [hcam], ofree, oheld, oq, by rw [hco]; exact oc, by rw [hco]; exact hsum⟩
    | cons b rest =>
      have hcam : (x.step (.waitForFrame t)).cam = { x.cam with pFrameQueue := some rest } := by
        simp [CameraSim.step, RPiCamera.waitForFrame, mmal_queue_timedwait, mmal_queue_get, hq]
      have hco : (x.step (.waitForFrame t)).checkedOut = x.checkedOut ++ [b] := by
        simp [CameraSim.step, RPiCamera.waitForFrame, mmal_queue_timedwait, mmal_queue_get, hq]
      refine ⟨pool, port, rest, by rw [hcam]; exact hpool, hh, hn, by rw [hcam]; exact hport,
        hen, by rw [hcam], ofree, oheld, fun c hc => oq c (List.mem_cons_of_mem _ hc), ?_, ?_⟩
      · rw [hco]
        intro c hc
        rcases List.mem_append.mp hc with hc | hc
        · exact oc c hc
        · simp only [List.mem_singleton] at hc
          rw [hc]; exact oq b (List.mem_cons_self _ _)
      · rw [hco]
        simp only [List.length_cons, List.length_append, List.length_singleton, List.length_nil] at hsum ⊢
        omega
  | releaseFrame j st =>
    simp only [CameraEvent.faultless, beq_iff_eq] at he
    subst he
    cases j with
    | none =>
      have hco : (x.step (.releaseFrame none MMAL_SUCCESS)).checkedOut = x.checkedOut := rfl
      rcases releaseFrame_null x.cam pool port hpool hport hen with ⟨_, hp', hport'⟩ |
        ⟨pNewBuf, rest, hsplit, hp', hport'⟩
      · exact ⟨pool, port, q, hp', hh, hn, hport', hen,
          by simp only [CameraSim.step]; rw [releaseFrame_pFrameQueue]; exact hq,
          ofree, oheld, oq, oc, hsum⟩
      · refine ⟨_, _, q, hp', hh, hn, hport', hen,
          by simp only [CameraSim.step]; rw [releaseFrame_pFrameQueue]; exact hq, ?_, ?_, oq, oc, ?_⟩
        · exact fun c hc => ofree c (by rw [hsplit]; exact List.mem_cons_of_mem _ hc)
        · intro c hc
          rcases List.mem_append.mp hc with hc | hc
          · exact oheld c hc
          · simp only [List.mem_singleton] at hc
            rw [hc]; exact ofree pNewBuf (by rw [hsplit]; exact List.mem_cons_self _ _)
        · rw [hsplit] at hsum
          rw [hco]
          simp only [List.length_cons, List.length_append, List.length_singleton, List.length_nil] at hsum ⊢
          omega
    | some j =>
      cases hb : x.checkedOut[j]? with
      | none =>
        exact ⟨pool, port, q, by simp [CameraSim.step, hb, hpool], hh, hn,
          by simp [CameraSim.step, hb, hport], hen, by simp [CameraSim.step, hb, hq],
          ofree, oheld, oq, by simpa [CameraSim.step, hb] using oc,
          by simpa [CameraSim.step, hb] using hsum⟩
      | some b =>
        have hmem : b ∈ x.checkedOut := List.getElem?_mem hb
        have hlt : j < x.checkedOut.length := by
          obtain ⟨hj, _⟩ := List.getElem?_eq_some.mp hb
          exact hj
        have hlen : (x.checkedOut.eraseIdx j).length + 1 = x.checkedOut.length := by
          rw [List.length_eraseIdx_of_lt hlt]; omega
        obtain ⟨pNewBuf, rest, hsplit, hp', hport'⟩ := releaseFrame_recycles x.cam b pool port
          hpool hport hen (by rw [hh]; exact oc b hmem)
        have hcam : (x.step (.releaseFrame (some j) MMAL_SUCCESS)).cam
            = x.cam.releaseFrame (some b) MMAL_SUCCESS := by
          simp [CameraSim.step, hb]
        have hco : (x.step (.releaseFrame (some j) MMAL_SUCCESS)).checkedOut
            = x.checkedOut.eraseIdx j := by
          simp [CameraSim.step, hb]
        exact steady_after_recycle port hsplit (by rw [hcam]; exact hp') (by rw [hcam]; exact hport')
          (by rw [hcam, releaseFrame_pFrameQueue]; exact hq) hh hn hen (oc b hmem) ofree oheld oq
          (by rw [hco]; exact fun c hc => oc c (List.mem_of_mem_eraseIdx hc))
          (by rw [hco]; omega)

/-- Conservation in runs without faults: from a steady session, after any interleaving of
returned frames, `waitForFrame` and `releaseFrame` calls in which the hardware returns frames
only and accepts every buffer, free + queued + checked out + in hardware is the pool size. -/
theorem CameraSim.run_steady {N h : Nat} (evs : List CameraEvent) (x : CameraSim)
    (hx : x.Steady N h) (he : ∀ e ∈ evs, e.faultless = true) :
    (x.run evs).Steady N h ∧ (x.run evs).total = N := by
  induction evs generalizing x with
  | nil =>
    refine ⟨hx, ?_⟩
    obtain ⟨pool, port, q, hpool, hh, hn, hport, hen, hq, ofree, oheld, oq, oc, hsum⟩ := hx
    simpa [CameraSim.run, CameraSim.total, RPiCamera.poolQueue, RPiCamera.held, mmal_queue_length,
      hpool, hport, hq] using hsum
  | cons e evs ih =>
    exact ih (x.step e) (CameraSim.step_steady x e hx (he e (List.mem_cons_self _ _)))
      (fun e' he' => he e' (List.mem_cons_of_mem _ he'))

/-- The started camera is steady, with its 3 buffers at the port. -/
theorem startedCamera_steady : (CameraSim.init startedCamera).Steady 3 2 :=
  ⟨⟨2, 3, []⟩, ⟨1, true, 3, 921600, 3, 921600, [⟨2, 0, 0, 0⟩, ⟨2, 1, 0, 0⟩, ⟨2, 2, 0, 0⟩]⟩, [],
    by decide, rfl, rfl, by decide, rfl, by decide, by decide, by decide, by decide, by decide,
    by decide⟩

/-! ## Tear-down -/

theorem stop_pPreviewPool (s : RPiCamera) : s.stop.pPreviewPool = none := by
  unfold RPiCamera.stop
  cases hp : s.pPreviewPool <;> cases hc : s.pCameraComponent <;>
    simp [RPiCamera.call, RPiCamera.mmal_component_destroy, hp, hc] <;>
    split <;> simp [hp]

theorem stop_pCameraComponent (s : RPiCamera) : s.stop.pCameraComponent = none := by
  unfold RPiCamera.stop
  cases hp : s.pPreviewPool <;> cases hc : s.pCameraComponent <;>
    simp [RPiCamera.call, RPiCamera.mmal_component_destroy, hp, hc]

/-- Without a pool and without a component `stop()` does nothing. -/
theorem stop_of_uninitialized (s : RPiCamera) (hp : s.pPreviewPool = none)
    (hc : s.pCameraComponent = none) : s.stop = s := by
  unfold RPiCamera.stop
  simp [hp, hc]

/-- C12: `stop()` is idempotent.  For every session state `s`, `stop(stop(s))` is `stop(s)`, so
the second call makes no MMAL call (the call log is the same) and, `stop` being total, raises no
error; and `stop()` on any state without component and without pool leaves it unchanged. -/
theorem stop_idempotent (s : RPiCamera) :
    s.stop.stop = s.stop ∧
    s.stop.stop.calls = s.stop.calls ∧
    ({ s with pCameraComponent := none, pPreviewPool := none } : RPiCamera).stop
      = { s with pCameraComponent := none, pPreviewPool := none } := by
  have h := stop_of_uninitialized s.stop (stop_pPreviewPool s) (stop_pCameraComponent s)
  exact ⟨h, by rw [h], stop_of_uninitialized _ rfl rfl⟩

/-- What `stop()` does on a Running session whose video port is not enabled: it destroys the
pool, then disables the component and destroys it.  No port is disabled before, and the preview
port is enabled when the pool goes. -/
theorem stop_calls_of_running (s : RPiCamera) (pool : MMAL_POOL_T) (c : Nat)
    (hp : s.pPreviewPool = some pool) (hc : s.pCameraComponent = some c)
    (hv : s.videoPortEnabled = false) :
    s.stop.calls = s.calls ++ [.pool_destroy pool.handle, .component_disable c,
      .component_destroy c] := by
  unfold RPiCamera.stop
  simp [RPiCamera.call, RPiCamera.mmal_component_destroy, hp, hc, hv]

/-- C13, evaluated where it fails: the started camera is Running, its preview port is enabled
and holds the 3 buffers of the pool; `stop()` makes exactly three MMAL calls, the first being
the destruction of the pool, and none of them disables the preview port. -/
theorem stop_destroys_pool_with_port_enabled :
    startedCamera.Running ∧
    startedCamera.portEnabled = true ∧
    startedCamera.held = [⟨2, 0, 0, 0⟩, ⟨2, 1, 0, 0⟩, ⟨2, 2, 0, 0⟩] ∧
    startedCamera.stop.calls
      = startedCamera.calls ++ [.pool_destroy 2, .component_disable 1, .component_destroy 1] ∧
    MmalCall.port_disable 1 (.output MMAL_CAMERA_PREVIEW_PORT) ∉ startedCamera.stop.calls := by
  decide

/-! ## Parameter setters -/

/-- C15: out-of-range values of the range-checked setters are ignored in every session state:
`setBrightness(v)` with `v < 0` or `v > 100`, and `setSaturation(v)`, `setSharpness(v)`,
`setContrast(v)` with `v < -100` or `v > 100` return the state as it was (no MMAL call, nothing
thrown).  With a created component and `v` inside the range, the state afterwards is the state
before with exactly one more call, the parameter set with the rational `v / 100`. -/
theorem out_of_range_values_ignored (s : RPiCamera) (v : Int) :
    ((v < 0 ∨ v > 100) → s.setBrightness v = s) ∧
    ((v < -100 ∨ v > 100) →
      s.setSaturation v = s ∧ s.setSharpness v = s ∧ s.setContrast v = s) ∧
    (∀ c, s.pCameraComponent = some c → 0 ≤ v → v ≤ 100 →
      s.setBrightness v
        = s.call (.port_parameter_set c .control .BRIGHTNESS (.rational v 100))) ∧
    (∀ c, s.pCameraComponent = some c → -100 ≤ v → v ≤ 100 →
      s.setSaturation v
        = s.call (.port_parameter_set c .control .SATURATION (.rational v 100)) ∧
      s.setSharpness v
        = s.call (.port_parameter_set c .control .SHARPNESS (.rational v 100)) ∧
      s.setContrast v
        = s.call (.port_parameter_set c .control .CONTRAST (.rational v 100))) := by
  refine ⟨?_, ?_, ?_, ?_⟩
  · intro h
    unfold RPiCamera.setBrightness
    rw [if_pos (Or.inr h)]
  · intro h
    unfold RPiCamera.setSaturation RPiCamera.setSharpness RPiCamera.setContrast
    rw [if_pos (Or.inr h), if_pos (Or.inr h), if_pos (Or.inr h)]
    exact ⟨rfl, rfl, rfl⟩
  · intro c hc h0 h1
    unfold RPiCamera.setBrightness
    rw [if_neg (by rw [hc]; simp; omega)]
    simp [RPiCamera.component, hc]
  · intro c hc h0 h1
    unfold RPiCamera.setSaturation RPiCamera.setSharpness RPiCamera.setContrast
    rw [if_neg (by rw [hc]; simp; omega), if_neg (by rw [hc]; simp; omega),
      if_neg (by rw [hc]; simp; omega)]
    simp [RPiCamera.component, hc]

/-- C15 at `setBrightness(150)` before and after `start()`, and at `setBrightness(50)` and
`setContrast(-100)` on the started camera. -/
theorem out_of_range_values_ignored_witness :
    (RPiCamera.construct .RGB24).setBrightness 150 = RPiCamera.construct .RGB24 ∧
    startedCamera.setBrightness 150 = startedCamera ∧
    startedCamera.setSaturation (-101) = startedCamera ∧
    (startedCamera.setBrightness 50).calls
      = startedCamera.calls ++ [.port_parameter_set 1 .control .BRIGHTNESS (.rational 50 100)] ∧
    (startedCamera.setContrast (-100)).calls
      = startedCamera.calls
        ++ [.port_parameter_set 1 .control .CONTRAST (.rational (-100) 100)] :=
  ⟨(out_of_range_values_ignored (RPiCamera.construct .RGB24) 150).1 (Or.inr (by decide)),
   (out_of_range_values_ignored startedCamera 150).1 (Or.inr (by decide)),
   ((out_of_range_values_ignored startedCamera (-101)).2.1 (Or.inl (by decide))).1,
   congrArg RPiCamera.calls
     ((out_of_range_values_ignored startedCamera 50).2.2.1 1 (by decide) (by decide) (by decide)),
   congrArg RPiCamera.calls
     ((out_of_range_values_ignored startedCamera (-100)).2.2.2 1 (by decide) (by decide)
       (by decide)).2.2⟩

/-- C16, evaluated where it fails: on the started camera `setExposureCompensation(v)` with `v`
outside `[-10, 10]` (11, -11, 1000) is not ignored; each call makes the parameter call with the
value as given. -/
theorem exposure_compensation_not_range_checked :
    startedCamera.pCameraComponent = some 1 ∧
    (startedCamera.setExposureCompensation 11).calls
      = startedCamera.calls ++ [.port_parameter_set 1 .control .EXPOSURE_COMP (.int32 11)] ∧
    (startedCamera.setExposureCompensation (-11)).calls
      = startedCamera.calls ++ [.port_parameter_set 1 .control .EXPOSURE_COMP (.int32 (-11))] ∧
    (startedCamera.setExposureCompensation 1000).calls
      = startedCamera.calls ++ [.port_parameter_set 1 .control .EXPOSURE_COMP (.int32 1000)] ∧
    startedCamera.setSaturation 1000 = startedCamera := by
  decide

/-- C17: on a session without a component (`pCameraComponent` null: not yet created, or
destroyed by `stop()`, after which the pointer is null) every parameter setter, with every
argument, returns the state as it was: no MMAL call, nothing changed. -/
theorem setters_without_component_are_noops (s : RPiCamera) (h : s.pCameraComponent = none) :
    (∀ v, s.setSaturation v = s) ∧ (∀ v, s.setSharpness v = s) ∧ (∀ v, s.setContrast v = s) ∧
    (∀ v, s.setBrightness v = s) ∧ (∀ iso, s.setIso iso = s) ∧
    (∀ mode, s.setMeteringMode mode = s) ∧ (∀ v, s.setExposureCompensation v = s) ∧
    (∀ mode, s.setExposureMode mode = s) ∧ (∀ mode, s.setAwbMode mode = s) ∧
    (∀ r b, s.setAwbGains r b = s) ∧ (∀ rotation, s.setRotation rotation = s) ∧
    (∀ flip, s.setMirror flip = s) ∧ (∀ v, s.setShutterSpeed v = s) ∧
    (∀ algo enable, s.setAlgorithmControl algo enable = s) ∧ (∀ u, s.setUseCase u = s) ∧
    (∀ enable, s.setZeroShutterLag enable = s) ∧ (∀ g, s.setAnalogGain g = s) ∧
    (∀ g, s.setDigitalGain g = s) ∧
    (∀ t : RPiCamera, t.stop.pCameraComponent = none) := by
  refine ⟨?_, ?_, ?_, ?_, ?_, ?_, ?_, ?_, ?_, ?_, ?_, ?_, ?_, ?_, ?_, ?_, ?_, ?_,
    stop_pCameraComponent⟩
  · intro v; simp [RPiCamera.setSaturation, h]
  · intro v; simp [RPiCamera.setSharpness, h]
  · intro v; simp [RPiCamera.setContrast, h]
  · intro v; simp [RPiCamera.setBrightness, h]
  · intro v; simp [RPiCamera.setIso, h]
  · intro v; simp [RPiCamera.setMeteringMode, h]
  · intro v; simp [RPiCamera.setExposureCompensation, h]
  · intro v; simp [RPiCamera.setExposureMode, h]
  · intro v; simp [RPiCamera.setAwbMode, h]
  · intro r b; simp [RPiCamera.setAwbGains, h]
  · intro v; simp [RPiCamera.setRotation, h]
  · intro v; simp [RPiCamera.setMirror, h]
  · intro v; simp [RPiCamera.setShutterSpeed, h]
  · intro a e; simp [RPiCamera.setAlgorithmControl, h]
  · intro v; simp [RPiCamera.setUseCase, h]
  · intro v; simp [RPiCamera.setZeroShutterLag, h]
  · intro v; simp [RPiCamera.setAnalogGain, h]
  · intro v; simp [RPiCamera.setDigitalGain, h]

/-- C17 on a new camera and on the started camera after `stop()`. -/
theorem setters_without_component_are_noops_witness :
    (RPiCamera.construct .RGB24).pCameraComponent = none ∧
    (RPiCamera.construct .RGB24).setShutterSpeed 10000 = RPiCamera.construct .RGB24 ∧
    (RPiCamera.construct .RGB24).setMirror .CAMERA_MIRROR_BOTH = RPiCamera.construct .RGB24 ∧
    stoppedCamera.setExposureCompensation 3 = stoppedCamera ∧
    stoppedCamera.setAwbGains ⟨3, -1⟩ ⟨3, -1⟩ = stoppedCamera :=
  ⟨by decide,
   (setters_without_component_are_noops (RPiCamera.construct .RGB24)
     (by decide)).2.2.2.2.2.2.2.2.2.2.2.2.1 10000,
   (setters_without_component_are_noops (RPiCamera.construct .RGB24)
     (by decide)).2.2.2.2.2.2.2.2.2.2.2.1 .CAMERA_MIRROR_BOTH,
   (setters_without_component_are_noops stoppedCamera (by decide)).2.2.2.2.2.2.1 3,
   (setters_without_component_are_noops stoppedCamera (by decide)).2.2.2.2.2.2.2.2.2.1
     ⟨3, -1⟩ ⟨3, -1⟩⟩

/-! ## What a successful `start` leaves behind -/

theorem callAll_nil (s : RPiCamera) : s.callAll [] = s := by
  cases s
  simp [RPiCamera.callAll]

theorem callAll_callAll (s : RPiCamera) (a b : List MmalCall) :
    (s.callAll a).callAll b = s.callAll (a ++ b) := by
  simp [RPiCamera.callAll]

theorem call_eq_callAll (s : RPiCamera) (c : MmalCall) : s.call c = s.callAll [c] := rfl

theorem setExposureMode_callAll (s : RPiCamera) (m : MMAL_PARAM_EXPOSUREMODE_T) :
    ∃ cs, s.setExposureMode m = s.callAll cs := by
  unfold RPiCamera.setExposureMode
  split
  · exact ⟨[], (callAll_nil s).symm⟩
  · exact ⟨_, call_eq_callAll s _⟩

theorem setAwbMode_callAll (s : RPiCamera) (m : MMAL_PARAM_AWBMODE_T) :
    ∃ cs, s.setAwbMode m = s.callAll cs := by
  unfold RPiCamera.setAwbMode
  split
  · exact ⟨[], (callAll_nil s).symm⟩
  · exact ⟨_, call_eq_callAll s _⟩

theorem setShutterSpeed_callAll (s : RPiCamera) (v : Int) :
    ∃ cs, s.setShutterSpeed v = s.callAll cs := by
  unfold RPiCamera.setShutterSpeed
  split
  · exact ⟨[], (callAll_nil s).symm⟩
  · exact ⟨_, call_eq_callAll s _⟩

theorem setAwbGains_callAll (s : RPiCamera) (r b : CFloat) :
    ∃ cs, s.setAwbGains r b = s.callAll cs := by
  unfold RPiCamera.setAwbGains
  split
  · exact ⟨[], (callAll_nil s).symm⟩
  · exact ⟨_, call_eq_callAll s _⟩

theorem setAnalogGain_callAll (s : RPiCamera) (v : CFloat) :
    ∃ cs, s.setAnalogGain v = s.callAll cs := by
  unfold RPiCamera.setAnalogGain
  split
  · exact ⟨[], (callAll_nil s).symm⟩
  · exact ⟨_, call_eq_callAll s _⟩

theorem setDigitalGain_callAll (s : RPiCamera) (v : CFloat) :
    ∃ cs, s.setDigitalGain v = s.callAll cs := by
  unfold RPiCamera.setDigitalGain
  split
  · exact ⟨[], (callAll_nil s).symm⟩
  · exact ⟨_, call_eq_callAll s _⟩

theorem setSharpness_callAll (s : RPiCamera) (v : Int) :
    ∃ cs, s.setSharpness v = s.callAll cs := by
  unfold RPiCamera.setSharpness
  split
  · exact ⟨[], (callAll_nil s).symm⟩
  · exact ⟨_, call_eq_callAll s _⟩

theorem setContrast_callAll (s : RPiCamera) (v : Int) :
    ∃ cs, s.setContrast v = s.callAll cs := by
  unfold RPiCamera.setContrast
  split
  · exact ⟨[], (callAll_nil s).symm⟩
  · exact ⟨_, call_eq_callAll s _⟩

theorem setBrightness_callAll (s : RPiCamera) (v : Int) :
    ∃ cs, s.setBrightness v = s.callAll cs := by
  unfold RPiCamera.setBrightness
  split
  · exact ⟨[], (callAll_nil s).symm⟩
  · exact ⟨_, call_eq_callAll s _⟩

theorem setSaturation_callAll (s : RPiCamera) (v : Int) :
    ∃ cs, s.setSaturation v = s.callAll cs := by
  unfold RPiCamera.setSaturation
  split
  · exact ⟨[], (callAll_nil s).symm⟩
  · exact ⟨_, call_eq_callAll s _⟩

theorem setAlgorithmControl_callAll (s : RPiCamera)
    (a : MMAL_PARAMETER_ALGORITHM_CONTROL_ALGORITHMS_T) (e : Bool) :
    ∃ cs, s.setAlgorithmControl a e = s.callAll cs := by
  unfold RPiCamera.setAlgorithmControl
  split
  · exact ⟨[], (callAll_nil s).symm⟩
  · exact ⟨_, call_eq_callAll s _⟩

theorem setUseCase_callAll (s : RPiCamera) (u : MMAL_PARAM_CAMERA_USE_CASE_T) :
    ∃ cs, s.setUseCase u = s.callAll cs := by
  unfold RPiCamera.setUseCase
  split
  · exact ⟨[], (callAll_nil s).symm⟩
  · exact ⟨_, call_eq_callAll s _⟩

theorem setZeroShutterLag_callAll (s : RPiCamera) (e : Bool) :
    ∃ cs, s.setZeroShutterLag e = s.callAll cs := by
  unfold RPiCamera.setZeroShutterLag
  split
  · exact ⟨[], (callAll_nil s).symm⟩
  · exact ⟨_, call_eq_callAll s _⟩

/-- The default parameters only add calls. -/
theorem setDefaultParameters_callAll (s : RPiCamera) :
    ∃ cs, s.setDefaultParameters = s.callAll cs := by
  unfold RPiCamera.setDefaultParameters
  obtain ⟨c1, h1⟩ := setExposureMode_callAll s .OFF
  obtain ⟨c2, h2⟩ := setAwbMode_callAll (s.callAll c1) .OFF
  obtain ⟨c3, h3⟩ := setShutterSpeed_callAll ((s.callAll c1).callAll c2) 10000
  obtain ⟨c4, h4⟩ := setAwbGains_callAll (((s.callAll c1).callAll c2).callAll c3)
    ⟨11744051, -23⟩ ⟨3, -1⟩
  obtain ⟨c5, h5⟩ := setAnalogGain_callAll ((((s.callAll c1).callAll c2).callAll c3).callAll c4)
    ⟨2, 0⟩
  obtain ⟨c6, h6⟩ := setDigitalGain_callAll
    (((((s.callAll c1).callAll c2).callAll c3).callAll c4).callAll c5) ⟨2, 0⟩
  obtain ⟨c7, h7⟩ := setSharpness_callAll
    ((((((s.callAll c1).callAll c2).callAll c3).callAll c4).callAll c5).callAll c6) 0
  obtain ⟨c8, h8⟩ := setContrast_callAll
    (((((((s.callAll c1).callAll c2).callAll c3).callAll c4).callAll c5).callAll c6).callAll c7) 0
  obtain ⟨c9, h9⟩ := setBrightness_callAll
    ((((((((s.callAll c1).callAll c2).callAll c3).callAll c4).callAll c5).callAll c6).callAll
      c7).callAll c8) 50
  obtain ⟨c10, h10⟩ := setSaturation_callAll
    (((((((((s.callAll c1).callAll c2).callAll c3).callAll c4).callAll c5).callAll c6).callAll
      c7).callAll c8).callAll c9) 0
  obtain ⟨c11, h11⟩ := setAlgorithmControl_callAll
    ((((((((((s.callAll c1).callAll c2).callAll c3).callAll c4).callAll c5).callAll c6).callAll
      c7).callAll c8).callAll c9).callAll c10) .VIDEO_DENOISE true
  obtain ⟨c12, h12⟩ := setUseCase_callAll
    (((((((((((s.callAll c1).callAll c2).callAll c3).callAll c4).callAll c5).callAll c6).callAll
      c7).callAll c8).callAll c9).callAll c10).callAll c11) .VIDEO_CAPTURE
  obtain ⟨c13, h13⟩ := setZeroShutterLag_callAll
    ((((((((((((s.callAll c1).callAll c2).callAll c3).callAll c4).callAll c5).callAll c6).callAll
      c7).callAll c8).callAll c9).callAll c10).callAll c11).callAll c12) true
  refine ⟨c1 ++ c2 ++ c3 ++ c4 ++ c5 ++ c6 ++ c7 ++ c8 ++ c9 ++ c10 ++ c11 ++ c12 ++ c13, ?_⟩
  simp only []
  rw [h1, h2, h3, h4, h5, h6, h7, h8, h9, h10, h11, h12, h13]
  simp only [callAll_callAll]

theorem andThen_eq_done {o : Outcome} {f : RPiCamera → Outcome} {u : RPiCamera}
    (h : o.andThen f = .done u) : ∃ t, o = .done t ∧ f t = .done u := by
  cases o with
  | done t => exact ⟨t, rfl, h⟩
  | thrown e t => cases h

theorem startCatch_eq_done {o : Outcome} {u : RPiCamera} (h : o.startCatch = .done u) :
    o = .done u := by
  cases o with
  | done t => exact h
  | thrown e t =>
    unfold Outcome.startCatch at h
    simp only [] at h
    split at h <;> cases h

/-- When `setupCamera` returns, the component pointer holds a new handle; pool, port and frame
queue are as before. -/
theorem setupCamera_done (s u : RPiCamera) (env : MmalAnswers)
    (h : s.setupCamera env = .done u) :
    u.pCameraComponent = some s.fresh ∧ u.fresh = s.fresh + 1 ∧
    u.pPreviewPool = s.pPreviewPool ∧ u.pPreviewPort = s.pPreviewPort ∧
    u.pFrameQueue = s.pFrameQueue := by
  unfold RPiCamera.setupCamera at h
  simp only [] at h
  split_ifs at h
  cases h
  exact ⟨rfl, rfl, rfl, rfl, rfl⟩

theorem setupStillPort_done (s u : RPiCamera) (env : MmalAnswers)
    (h : s.setupStillPort env = .done u) : ∃ cs, u = s.callAll cs := by
  unfold RPiCamera.setupStillPort at h
  simp only [] at h
  split_ifs at h
  cases h
  exact ⟨_, rfl⟩

theorem setupVideoPort_done (s u : RPiCamera) (env : MmalAnswers)
    (h : s.setupVideoPort env = .done u) : ∃ cs, u = s.callAll cs := by
  unfold RPiCamera.setupVideoPort RPiCamera.printPortEncodings at h
  simp only [] at h
  split_ifs at h
  cases h
  exact ⟨_, by rw [call_eq_callAll, call_eq_callAll, callAll_callAll]⟩

/-- When `setupPreviewPort` returns, the preview port is known, not yet enabled, with
`buffer_num` set to `VIDEO_OUTPUT_BUFFERS_NUM` and `buffer_size` to the recommended size. -/
theorem setupPreviewPort_done (s u : RPiCamera) (env : MmalAnswers)
    (h : s.setupPreviewPort env = .done u) :
    u.pPreviewPort = some
      { component := s.component, is_enabled := false, buffer_num := VIDEO_OUTPUT_BUFFERS_NUM,
        buffer_size := env.preview_buffer_size_recommended,
        buffer_num_recommended := env.preview_buffer_num_recommended,
        buffer_size_recommended := env.preview_buffer_size_recommended, held := [] } ∧
    u.pCameraComponent = s.pCameraComponent ∧ u.fresh = s.fresh ∧
    u.pPreviewPool = s.pPreviewPool ∧ u.pFrameQueue = s.pFrameQueue := by
  unfold RPiCamera.setupPreviewPort RPiCamera.printPortEncodings at h
  simp only [] at h
  split_ifs at h
  cases h
  exact ⟨rfl, rfl, rfl, rfl, rfl⟩

theorem mmal_port_send_buffer_success (s : RPiCamera) (b : MMAL_BUFFER_HEADER_T)
    (port : MMAL_PORT_T) (hp : s.pPreviewPort = some port) :
    s.mmal_port_send_buffer b MMAL_SUCCESS
      = { s.call (.port_send_buffer port.component (some b)) with
          pPreviewPort := some { port with held := port.held ++ [b] } } := by
  unfold RPiCamera.mmal_port_send_buffer
  simp [hp]

/-- When the fill loop returns after `n` rounds, the first `n` buffers of the free queue have
gone to the port, in order. -/
theorem fillPreviewPort_done (env : MmalAnswers) (n i : Nat) (s u : RPiCamera)
    (pool : MMAL_POOL_T) (port : MMAL_PORT_T)
    (hpool : s.pPreviewPool = some pool) (hport : s.pPreviewPort = some port)
    (hn : n ≤ pool.queue.length)
    (h : RPiCamera.fillPreviewPort env n i s = .done u) :
    u.pPreviewPool = some { pool with queue := pool.queue.drop n } ∧
    u.pPreviewPort = some { port with held := port.held ++ pool.queue.take n } ∧
    u.pCameraComponent = s.pCameraComponent ∧ u.pFrameQueue = s.pFrameQueue ∧
    u.fresh = s.fresh := by
  induction n generalizing i s pool port with
  | zero =>
    simp only [RPiCamera.fillPreviewPort] at h
    cases h
    simp [hpool, hport]
  | succ n ih =>
    cases hq : pool.queue with
    | nil => rw [hq] at hn; simp at hn
    | cons b rest =>
      unfold RPiCamera.fillPreviewPort at h
      simp only [RPiCamera.poolQueue, hpool, hq, mmal_queue_get] at h
      split_ifs at h with hst
      have hst0 : env.send_buffer i = MMAL_SUCCESS := by
        by_contra hne
        exact hst hne
      rw [hst0] at h
      have hport1 : (s.setPoolQueue rest).pPreviewPort = some port := hport
      rw [mmal_port_send_buffer_success _ b port hport1] at h
      have := ih (i + 1) _ { pool with queue := rest } { port with held := port.held ++ [b] }
        (by simp [RPiCamera.setPoolQueue, RPiCamera.call, hpool]) rfl
        (by rw [hq] at hn; simpa using hn) h
      simpa [RPiCamera.setPoolQueue, RPiCamera.call, hpool] using this

theorem mmal_port_pool_create_queue_length (h n : Nat) :
    (mmal_port_pool_create h n).queue.length = n := by
  simp [mmal_port_pool_create]

/-- The fill loop run on a pool that is entirely free: every buffer goes to the port, and the
calls made before stay in the log. -/
theorem fillPreviewPort_done_all (env : MmalAnswers) (t u : RPiCamera) (pool : MMAL_POOL_T)
    (port : MMAL_PORT_T) (c : MmalCall) (n : Nat)
    (h : RPiCamera.fillPreviewPort env n 0 t = .done u)
    (hpool : t.pPreviewPool = some pool) (hport : t.pPreviewPort = some port)
    (hc : c ∈ t.calls) (hn : pool.queue.length = n) :
    u.pPreviewPool = some { pool with queue := [] } ∧
    u.pPreviewPort = some { port with held := port.held ++ pool.queue } ∧
    u.pCameraComponent = t.pCameraComponent ∧ u.pFrameQueue = t.pFrameQueue ∧
    c ∈ u.calls := by
  subst hn
  obtain ⟨h1, h2, h3, h4, _⟩ :=
    fillPreviewPort_done env pool.queue.length 0 t u pool port hpool hport (Nat.le_refl _) h
  have hext := fillPreviewPort_extends env pool.queue.length 0 t
  rw [h] at hext
  obtain ⟨_, _, _, rest, hcalls⟩ := hext
  refine ⟨?_, ?_, h3, h4, ?_⟩
  · rw [h1, List.drop_of_length_le (Nat.le_refl _)]
  · rw [h2, List.take_of_length_le (Nat.le_refl _)]
  · simp only [Outcome.state] at hcalls
    rw [hcalls]
    exact List.mem_append_left _ hc

/-- When the statements after `setupPreviewPort` return, the pool has been created with
`buffer_num` headers of `buffer_size` bytes, the port is enabled and holds every buffer of the
pool, and the free queue is empty. -/
theorem startPreview_done (s u : RPiCamera) (env : MmalAnswers) (port : MMAL_PORT_T)
    (hport : s.pPreviewPort = some port) (h : s.startPreview env = .done u) :
    u.pPreviewPool = some { mmal_port_pool_create s.fresh port.buffer_num with queue := [] } ∧
    u.pPreviewPort = some { port with
      is_enabled := true
      held := port.held ++ (mmal_port_pool_create s.fresh port.buffer_num).queue } ∧
    u.pCameraComponent = s.pCameraComponent ∧ u.pFrameQueue = s.pFrameQueue ∧
    MmalCall.port_pool_create port.component port.buffer_num port.buffer_size ∈ u.calls := by
  unfold RPiCamera.startPreview at h
  simp only [hport] at h
  split_ifs at h
  have key := fillPreviewPort_done_all env _ u (mmal_port_pool_create s.fresh port.buffer_num)
    { port with is_enabled := true }
    (MmalCall.port_pool_create port.component port.buffer_num port.buffer_size) port.buffer_num
    h rfl rfl (by simp [RPiCamera.call, RPiCamera.fprintf])
    (mmal_port_pool_create_queue_length s.fresh port.buffer_num)
  exact key

/-- The three headers of a pool of `VIDEO_OUTPUT_BUFFERS_NUM` buffers. -/
theorem mmal_port_pool_create_three (h : Nat) :
    (mmal_port_pool_create h VIDEO_OUTPUT_BUFFERS_NUM).queue
      = [⟨h, 0, 0, 0⟩, ⟨h, 1, 0, 0⟩, ⟨h, 2, 0, 0⟩] := rfl

/-- When the `try` block of `start` runs to its end, the session holds a new component, a new
pool of `VIDEO_OUTPUT_BUFFERS_NUM` = 3 headers whose free queue is empty, and the enabled preview
port holding the three buffers; the pool was created with the recommended buffer size.  The
frame queue is the one the block started with. -/
theorem startTry_done (s u : RPiCamera) (env : MmalAnswers) (h : s.startTry env = .done u) :
    u.pCameraComponent = some s.fresh ∧
    u.pPreviewPool = some ⟨s.fresh + 1, 3, []⟩ ∧
    u.pPreviewPort = some
      { component := s.fresh, is_enabled := true, buffer_num := 3,
        buffer_size := env.preview_buffer_size_recommended,
        buffer_num_recommended := env.preview_buffer_num_recommended,
        buffer_size_recommended := env.preview_buffer_size_recommended,
        held := [⟨s.fresh + 1, 0, 0, 0⟩, ⟨s.fresh + 1, 1, 0, 0⟩, ⟨s.fresh + 1, 2, 0, 0⟩] } ∧
    u.pFrameQueue = s.pFrameQueue ∧
    MmalCall.port_pool_create s.fresh 3 env.preview_buffer_size_recommended ∈ u.calls := by
  unfold RPiCamera.startTry at h
  obtain ⟨s1, h1, g1⟩ := andThen_eq_done h
  obtain ⟨s2, h2, g2⟩ := andThen_eq_done g1
  obtain ⟨s3, h3, g3⟩ := andThen_eq_done g2
  obtain ⟨s4, h4, g4⟩ := andThen_eq_done g3
  obtain ⟨s5, h5, g5⟩ := andThen_eq_done g4
  obtain ⟨a1, b1, c1, d1, e1⟩ := setupCamera_done s s1 env h1
  obtain ⟨cs2, hs2⟩ := setDefaultParameters_callAll s1
  have h2' : s2 = s1.setDefaultParameters := by
    cases h2; rfl
  obtain ⟨cs3, hs3⟩ := setupStillPort_done s2 s3 env h3
  obtain ⟨cs4, hs4⟩ := setupVideoPort_done s3 s4 env h4
  have hs4' : s4 = s1.callAll (cs2 ++ cs3 ++ cs4) := by
    rw [hs4, hs3, h2', hs2, callAll_callAll, callAll_callAll, List.append_assoc]
  obtain ⟨a5, b5, c5, d5, e5⟩ := setupPreviewPort_done s4 s5 env h5
  have hcomp : s4.component = s.fresh := by
    rw [hs4']
    simp [RPiCamera.component, RPiCamera.callAll, a1]
  rw [hcomp] at a5
  obtain ⟨p6, q6, r6, t6, u6⟩ := startPreview_done s5 u env _ a5 g5
  have hfresh : s5.fresh = s.fresh + 1 := by
    rw [c5, hs4']
    simpa [RPiCamera.callAll] using b1
  rw [hfresh] at p6 q6
  refine ⟨?_, ?_, ?_, ?_, ?_⟩
  · rw [r6, b5, hs4']
    simpa [RPiCamera.callAll] using a1
  · rw [p6]; rfl
  · rw [q6]; rfl
  · rw [t6, e5, hs4']
    simpa [RPiCamera.callAll] using e1
  · exact u6

/-- Every `start` that returns without an exception, from whatever state and whatever MMAL
answered on the way, leaves the session with a new component, a new pool of 3 buffers created
with the recommended buffer size, all three buffers at the enabled preview port and none free;
the frame queue is the one that existed before, or a new empty one. -/
theorem start_done (s u : RPiCamera) (width height framerate : Int) (encoding : MMAL_FOURCC_T)
    (env : MmalAnswers) (h : s.start width height framerate encoding env = .done u) :
    u.pCameraComponent = some s.fresh ∧
    u.pPreviewPool = some ⟨s.fresh + 1, 3, []⟩ ∧
    u.pPreviewPort = some
      { component := s.fresh, is_enabled := true, buffer_num := 3,
        buffer_size := env.preview_buffer_size_recommended,
        buffer_num_recommended := env.preview_buffer_num_recommended,
        buffer_size_recommended := env.preview_buffer_size_recommended,
        held := [⟨s.fresh + 1, 0, 0, 0⟩, ⟨s.fresh + 1, 1, 0, 0⟩, ⟨s.fresh + 1, 2, 0, 0⟩] } ∧
    u.pFrameQueue = (if s.pFrameQueue = none then (if env.queue_create then some [] else none)
      else s.pFrameQueue) ∧
    MmalCall.port_pool_create s.fresh 3 env.preview_buffer_size_recommended ∈ u.calls := by
  unfold RPiCamera.start at h
  have h' := startCatch_eq_done h
  obtain ⟨a, b, c, d, e⟩ := startTry_done _ u env h'
  have hf : (s.startStore width height framerate encoding env).fresh = s.fresh := by
    unfold RPiCamera.startStore
    simp only []
    split <;> rfl
  have hq : (s.startStore width height framerate encoding env).pFrameQueue
      = (if s.pFrameQueue = none then (if env.queue_create then some [] else none)
          else s.pFrameQueue) := by
    unfold RPiCamera.startStore
    simp only []
    split <;> rfl
  rw [hf] at a b c e
  rw [hq] at d
  exact ⟨a, b, c, d, e⟩

theorem Outcome.eq_done_of_error_none {o : Outcome} (h : o.error = none) : o = .done o.state := by
  cases o with
  | done s => rfl
  | thrown e s => cases h

/-- C14 as stated fails: the preview port recommends 5 buffers, `start` succeeds, and the pool
is created with 3 buffers (`mmal_port_pool_create(port, 3, 921600)`). -/
theorem pool_count_is_not_the_recommended_count :
    recommendedFiveStart.error = none ∧
    recommendedFiveStart.state.pPreviewPort.map (·.buffer_num_recommended) = some 5 ∧
    recommendedFiveStart.state.pPreviewPool.map (·.headers_num) = some 3 ∧
    MmalCall.port_pool_create 1 3 921600 ∈ recommendedFiveStart.state.calls ∧
    MmalCall.port_pool_create 1 5 921600 ∉ recommendedFiveStart.state.calls := by
  decide

/-- C14, amended: on every successful `start()`, from any state and for any answers of MMAL,
the buffer pool is allocated with `VIDEO_OUTPUT_BUFFERS_NUM` = 3 buffers, whatever count the
preview port recommends, and with a buffer size equal to the recommended buffer size of the
port. -/
theorem pool_size_on_successful_start (s : RPiCamera) (width height framerate : Int)
    (encoding : MMAL_FOURCC_T) (env : MmalAnswers)
    (hok : (s.start width height framerate encoding env).error = none) :
    (s.start width height framerate encoding env).state.pPreviewPool.map (·.headers_num)
      = some VIDEO_OUTPUT_BUFFERS_NUM ∧
    (s.start width height framerate encoding env).state.pPreviewPort.map (·.buffer_num)
      = some VIDEO_OUTPUT_BUFFERS_NUM ∧
    (s.start width height framerate encoding env).state.pPreviewPort.map
      (·.buffer_num_recommended) = some env.preview_buffer_num_recommended ∧
    (s.start width height framerate encoding env).state.pPreviewPort.map (·.buffer_size)
      = some env.preview_buffer_size_recommended ∧
    (s.start width height framerate encoding env).state.pPreviewPort.map
      (·.buffer_size_recommended) = some env.preview_buffer_size_recommended ∧
    MmalCall.port_pool_create s.fresh VIDEO_OUTPUT_BUFFERS_NUM
      env.preview_buffer_size_recommended
        ∈ (s.start width height framerate encoding env).state.calls := by
  obtain ⟨a, b, c, d, e⟩ :=
    start_done s _ width height framerate encoding env (Outcome.eq_done_of_error_none hok)
  rw [b, c]
  exact ⟨rfl, rfl, rfl, rfl, rfl, e⟩

/-- C14 amended, at a port that recommends 5 buffers of 921600 bytes. -/
theorem pool_size_on_successful_start_witness :
    recommendedFiveStart.error = none ∧
    recommendedFiveStart.state.pPreviewPool.map (·.headers_num) = some 3 ∧
    recommendedFiveStart.state.pPreviewPort.map (·.buffer_num_recommended) = some 5 ∧
    recommendedFiveStart.state.pPreviewPort.map (·.buffer_size) = some 921600 :=
  ⟨by decide,
   (pool_size_on_successful_start (RPiCamera.construct .RGB24) 640 480 60 .RGB24
     (MmalAnswers.allSucceed 5 921600) (by decide)).1,
   (pool_size_on_successful_start (RPiCamera.construct .RGB24) 640 480 60 .RGB24
     (MmalAnswers.allSucceed 5 921600) (by decide)).2.2.1,
   (pool_size_on_successful_start (RPiCamera.construct .RGB24) 640 480 60 .RGB24
     (MmalAnswers.allSucceed 5 921600) (by decide)).2.2.2.1⟩

/-! ## Normal operation never finds the pool empty -/

/-- Function `releaseFrame` with a buffer of the pool while the free queue is empty, the port
enabled and the send accepted: the buffer released is the buffer taken from the free queue and
sent to the port; nothing else changes and nothing is printed. -/
theorem releaseFrame_empty_pool (s : RPiCamera) (b : MMAL_BUFFER_HEADER_T) (pool : MMAL_POOL_T)
    (port : MMAL_PORT_T) (hpool : s.pPreviewPool = some pool) (hport : s.pPreviewPort = some port)
    (hq : pool.queue = []) (hen : port.is_enabled = true) (hown : b.pool = pool.handle) :
    s.releaseFrame (some b) MMAL_SUCCESS
      = { s with
          calls := s.calls ++ [.buffer_header_release b,
            .port_send_buffer port.component (some b)]
          pPreviewPort := some { port with held := port.held ++ [b] } } := by
  cases pool with
  | mk handle headers_num queue =>
    simp only [] at hq hown
    subst hq
    simp [RPiCamera.releaseFrame, RPiCamera.mmal_buffer_header_release,
      RPiCamera.mmal_port_send_buffer, RPiCamera.call, mmal_queue_get, hpool, hport, hen, hown]

/-- A step of normal operation in which the consumer releases a buffer of the pool keeps the
buffers circulating and prints nothing. -/
theorem CameraSim.step_circulating {h : Nat} (x : CameraSim) (e : CameraEvent)
    (hx : x.Circulating h) (he : e.normal = true) (hr : x.releasesOwn e = true) :
    (x.step e).Circulating h ∧ (x.step e).cam.diag = x.cam.diag := by
  obtain ⟨pool, port, hpool, hh, hq, hport, hen, oheld⟩ := hx
  cases e with
  | hardwareReturns i length data st =>
    simp only [CameraEvent.normal, Bool.and_eq_true, bne_iff_ne, ne_eq, beq_iff_eq] at he
    obtain ⟨⟨hl, hd⟩, hst⟩ := he
    subst hst
    cases hb : port.held[i]? with
    | none =>
      have hcam : (x.step (.hardwareReturns i length data MMAL_SUCCESS)).cam = x.cam := by
        simp [CameraSim.step, RPiCamera.hardwareReturns, hport, hb]
      exact ⟨⟨pool, port, by rw [hcam]; exact hpool, hh, hq, by rw [hcam]; exact hport, hen,
        oheld⟩, by rw [hcam]⟩
    | some b0 =>
      have hmem : b0 ∈ port.held := List.getElem?_mem hb
      have oheld' : ∀ c ∈ port.held.eraseIdx i, c.pool = h :=
        fun c hc => oheld c (List.mem_of_mem_eraseIdx hc)
      have hcam : (x.step (.hardwareReturns i length data MMAL_SUCCESS)).cam
          = ({ x.cam with pPreviewPort := some { port with held := port.held.eraseIdx i } }
              )._internalPreviewOutCb { b0 with length := length, data := data } MMAL_SUCCESS := by
        simp [CameraSim.step, RPiCamera.hardwareReturns, previewOutputCallback, hport, hb, hl, hd]
      by_cases hfull : mmal_queue_length x.cam.pFrameQueue < 2
      · have hcam2 : (x.step (.hardwareReturns i length data MMAL_SUCCESS)).cam
            = { x.cam with
                pPreviewPort := some { port with held := port.held.eraseIdx i }
                pFrameQueue := mmal_queue_put x.cam.pFrameQueue
                  { b0 with length := length, data := data } } := by
          rw [hcam]
          simp [RPiCamera._internalPreviewOutCb, hfull]
        exact ⟨⟨pool, { port with held := port.held.eraseIdx i }, by rw [hcam2]; exact hpool,
          hh, hq, by rw [hcam2], hen, oheld'⟩, by rw [hcam2]⟩
      · have hcam2 : (x.step (.hardwareReturns i length data MMAL_SUCCESS)).cam
            = ({ x.cam with pPreviewPort := some { port with held := port.held.eraseIdx i } }
                ).releaseFrame (some { b0 with length := length, data := data }) MMAL_SUCCESS := by
          rw [hcam]
          simp [RPiCamera._internalPreviewOutCb, hfull]
        have hrel := releaseFrame_empty_pool
          ({ x.cam with pPreviewPort := some { port with held := port.held.eraseIdx i } })
          { b0 with length := length, data := data } pool
          { port with held := port.held.eraseIdx i } hpool rfl hq hen
          (by rw [hh]; exact oheld b0 hmem)
        replace hcam2 := hcam2.trans hrel
        refine ⟨⟨pool, { port with held := port.held.eraseIdx i ++
            [{ b0 with length := length, data := data }] },
          by rw [hcam2]; exact hpool, hh, hq, by rw [hcam2], hen, ?_⟩, by rw [hcam2]⟩
        intro c hc
        rcases List.mem_append.mp hc with hc | hc
        · exact oheld' c hc
        · simp only [List.mem_singleton] at hc
          rw [hc]; exact oheld b0 hmem
  | waitForFrame t =>
    cases hfq : x.cam.pFrameQueue with
    | none =>
      have hcam : (x.step (.waitForFrame t)).cam = x.cam := by
        simp [CameraSim.step, RPiCamera.waitForFrame, hfq]
      exact ⟨⟨pool, port, by rw [hcam]; exact hpool, hh, hq, by rw [hcam]; exact hport, hen,
        oheld⟩, by rw [hcam]⟩
    | some q =>
      cases q with
      | nil =>
        have hcam : (x.step (.waitForFrame t)).cam = { x.cam with pFrameQueue := some [] } := by
          simp [CameraSim.step, RPiCamera.waitForFrame, mmal_queue_timedwait, mmal_queue_get, hfq]
        exact ⟨⟨pool, port, by rw [hcam]; exact hpool, hh, hq, by rw [hcam]; exact hport, hen,
          oheld⟩, by rw [hcam]⟩
      | cons b rest =>
        have hcam : (x.step (.waitForFrame t)).cam = { x.cam with pFrameQueue := some rest } := by
          simp [CameraSim.step, RPiCamera.waitForFrame, mmal_queue_timedwait, mmal_queue_get, hfq]
        exact ⟨⟨pool, port, by rw [hcam]; exact hpool, hh, hq, by rw [hcam]; exact hport, hen,
          oheld⟩, by rw [hcam]⟩
  | releaseFrame j st =>
    cases j with
    | none => simp [CameraEvent.normal] at he
    | some j =>
      simp only [CameraEvent.normal, beq_iff_eq] at he
      subst he
      cases hb : x.checkedOut[j]? with
      | none =>
        have hstep : x.step (.releaseFrame (some j) MMAL_SUCCESS) = x := by
          simp [CameraSim.step, hb]
        rw [hstep]
        exact ⟨⟨pool, port, hpool, hh, hq, hport, hen, oheld⟩, rfl⟩
      | some b =>
        have hown : b.pool = pool.handle := by
          simp only [CameraSim.releasesOwn, hb, hpool, Option.map_some', beq_iff_eq,
            Option.some.injEq] at hr
          exact hr.symm
        have hcam : (x.step (.releaseFrame (some j) MMAL_SUCCESS)).cam
            = x.cam.releaseFrame (some b) MMAL_SUCCESS := by
          simp [CameraSim.step, hb]
        replace hcam := hcam.trans
          (releaseFrame_empty_pool x.cam b pool port hpool hport hq hen hown)
        refine ⟨⟨pool, { port with held := port.held ++ [b] },
          by rw [hcam]; exact hpool, hh, hq, by rw [hcam], hen, ?_⟩, by rw [hcam]⟩
        intro c hc
        rcases List.mem_append.mp hc with hc | hc
        · exact oheld c hc
        · simp only [List.mem_singleton] at hc
          rw [hc, hown, hh]

theorem CameraSim.run_circulating {h : Nat} (evs : List CameraEvent) (x : CameraSim)
    (hx : x.Circulating h) (he : x.normalRun evs = true) :
    (x.run evs).Circulating h ∧ (x.run evs).cam.diag = x.cam.diag := by
  induction evs generalizing x with
  | nil => exact ⟨hx, rfl⟩
  | cons e evs ih =>
    simp only [CameraSim.normalRun, Bool.and_eq_true] at he
    obtain ⟨⟨he1, he2⟩, he3⟩ := he
    obtain ⟨h1, h2⟩ := CameraSim.step_circulating x e hx he1 he2
    obtain ⟨h3, h4⟩ := ih (x.step e) h1 he3
    exact ⟨h3, h4.trans h2⟩

/-- The beginning of a run of normal operation is a run of normal operation. -/
theorem CameraSim.normalRun_take (evs : List CameraEvent) (x : CameraSim) (k : Nat)
    (he : x.normalRun evs = true) : x.normalRun (evs.take k) = true := by
  induction evs generalizing x k with
  | nil => simpa using he
  | cons e evs ih =>
    cases k with
    | zero => rfl
    | succ k =>
      simp only [CameraSim.normalRun, Bool.and_eq_true, List.take_succ_cons] at he ⊢
      exact ⟨he.1, ih _ _ he.2⟩

/-- After a successful `start` the buffers circulate: all three are at the port and the free
queue is empty. -/
theorem circulating_after_start (s u : RPiCamera) (width height framerate : Int)
    (encoding : MMAL_FOURCC_T) (env : MmalAnswers)
    (hstart : s.start width height framerate encoding env = .done u) :
    (CameraSim.init u).Circulating (s.fresh + 1) := by
  obtain ⟨a, b, c, d, e⟩ := start_done s u width height framerate encoding env hstart
  refine ⟨_, _, b, rfl, rfl, c, rfl, ?_⟩
  intro x hx
  simp only [List.mem_cons, List.mem_singleton, List.not_mem_nil, or_false] at hx
  rcases hx with hx | hx | hx <;> rw [hx]

/-- Pool exhaustion is unreachable as long as the consumer releases buffers of the pool of the
session only.  Take any successful `start()`, on any session and with any answers of the
hardware, and any run of producer callbacks with frames, `waitForFrame` calls and `releaseFrame`
calls with a checked-out buffer of the pool in which every send is accepted.  After the start all three buffers are at the port and the free queue is
empty; after every number `k` of operations of the run the free queue of the pool is empty and
nothing was printed since the start (so the branch "Could not get buffer from port queue" was
not taken); and a `releaseFrame` with a buffer of the pool in the state reached releases that
buffer and sends that very buffer back to the port, again without printing. -/
theorem pool_exhaustion_unreachable (s u : RPiCamera) (width height framerate : Int)
    (encoding : MMAL_FOURCC_T) (env : MmalAnswers) (evs : List CameraEvent)
    (hstart : s.start width height framerate encoding env = .done u)
    (hev : (CameraSim.init u).normalRun evs = true) :
    u.pPreviewPool.map (·.handle) = some (s.fresh + 1) ∧
    u.poolQueue = [] ∧ u.held.length = 3 ∧
    ∀ k : Nat,
      ((CameraSim.init u).run (evs.take k)).cam.poolQueue = [] ∧
      ((CameraSim.init u).run (evs.take k)).cam.diag = u.diag ∧
      ∀ b : MMAL_BUFFER_HEADER_T, b.pool = s.fresh + 1 →
        (∃ c, (((CameraSim.init u).run (evs.take k)).cam.releaseFrame (some b) MMAL_SUCCESS).calls
          = ((CameraSim.init u).run (evs.take k)).cam.calls
            ++ [.buffer_header_release b, .port_send_buffer c (some b)]) ∧
        (((CameraSim.init u).run (evs.take k)).cam.releaseFrame (some b) MMAL_SUCCESS).poolQueue
          = [] ∧
        (((CameraSim.init u).run (evs.take k)).cam.releaseFrame (some b) MMAL_SUCCESS).diag
          = u.diag := by
  obtain ⟨a, b, c, d, e⟩ := start_done s u width height framerate encoding env hstart
  have h0 := circulating_after_start s u width height framerate encoding env hstart
  refine ⟨by simp [b], by simp [RPiCamera.poolQueue, b], by simp [RPiCamera.held, c], ?_⟩
  intro k
  obtain ⟨⟨pool, port, hpool, hh, hq, hport, hen, oheld⟩, hdiag⟩ :=
    CameraSim.run_circulating (evs.take k) (CameraSim.init u) h0
      (CameraSim.normalRun_take evs _ k hev)
  refine ⟨by simp [RPiCamera.poolQueue, hpool, hq], hdiag, ?_⟩
  intro buf hbuf
  have hrel := releaseFrame_empty_pool _ buf pool port hpool hport hq hen (by rw [hh, hbuf])
  rw [hrel]
  exact ⟨⟨port.component, rfl⟩, by simp [RPiCamera.poolQueue, hpool, hq], hdiag⟩

/-- The lemma `pool_exhaustion_unreachable` at the started camera and a run with an overflow, a
release and two frames taken: the run is one of normal operation, the free queue is empty after 4 of its operations and after all
8, and releasing buffer 1 of the pool (checked out last) sends it back.  And at the camera
started again after a stop with two frames queued: the consumer takes the two leftover frames
and a new one and releases the new one; the free queue of the new pool is empty after every
operation and nothing is printed. -/
theorem pool_exhaustion_unreachable_example :
    ((RPiCamera.construct .RGB24).start 640 480 60 .RGB24 (MmalAnswers.allSucceed 3 921600)
      = .done startedCamera ∧
     (CameraSim.init startedCamera).normalRun normalEvents = true ∧
     ((CameraSim.init startedCamera).run normalEvents).checkedOut = [⟨2, 1, 200, 7⟩] ∧
     ((CameraSim.init startedCamera).run (normalEvents.take 4)).cam.poolQueue = [] ∧
     ((CameraSim.init startedCamera).run (normalEvents.take 8)).cam.poolQueue = [] ∧
     ((CameraSim.init startedCamera).run (normalEvents.take 8)).cam.diag = startedCamera.diag ∧
     ((((CameraSim.init startedCamera).run (normalEvents.take 8)).cam.releaseFrame
       (some ⟨2, 1, 200, 7⟩) MMAL_SUCCESS).poolQueue = [] ∧
      (((CameraSim.init startedCamera).run (normalEvents.take 8)).cam.releaseFrame
       (some ⟨2, 1, 200, 7⟩) MMAL_SUCCESS).diag = startedCamera.diag)) ∧
    (twoFramesQueuedCamera.stop.start 640 480 60 .RGB24 (MmalAnswers.allSucceed 3 921600)
      = .done stoppedAndRestarted.state ∧
     stoppedAndRestarted.state.frameQueue = [⟨2, 0, 100, 7⟩, ⟨2, 1, 200, 7⟩] ∧
     (CameraSim.init stoppedAndRestarted.state).normalRun leftoverEvents = true ∧
     ((CameraSim.init stoppedAndRestarted.state).run (leftoverEvents.take 5)).checkedOut
       = [⟨2, 0, 100, 7⟩, ⟨2, 1, 200, 7⟩, ⟨4, 1, 400, 7⟩] ∧
     ((CameraSim.init stoppedAndRestarted.state).run (leftoverEvents.take 6)).cam.poolQueue
       = [] ∧
     ((CameraSim.init stoppedAndRestarted.state).run (leftoverEvents.take 6)).cam.diag
       = stoppedAndRestarted.state.diag) :=
  ⟨⟨Outcome.eq_done_of_error_none (by decide), by decide, by decide,
    ((pool_exhaustion_unreachable (RPiCamera.construct .RGB24) startedCamera 640 480 60 .RGB24
      (MmalAnswers.allSucceed 3 921600) normalEvents
      (Outcome.eq_done_of_error_none (by decide)) (by decide)).2.2.2 4).1,
    ((pool_exhaustion_unreachable (RPiCamera.construct .RGB24) startedCamera 640 480 60 .RGB24
      (MmalAnswers.allSucceed 3 921600) normalEvents
      (Outcome.eq_done_of_error_none (by decide)) (by decide)).2.2.2 8).1,
    ((pool_exhaustion_unreachable (RPiCamera.construct .RGB24) startedCamera 640 480 60 .RGB24
      (MmalAnswers.allSucceed 3 921600) normalEvents
      (Outcome.eq_done_of_error_none (by decide)) (by decide)).2.2.2 8).2.1,
    ((((pool_exhaustion_unreachable (RPiCamera.construct .RGB24) startedCamera 640 480 60 .RGB24
      (MmalAnswers.allSucceed 3 921600) normalEvents
      (Outcome.eq_done_of_error_none (by decide)) (by decide)).2.2.2 8).2.2)
        ⟨2, 1, 200, 7⟩ (by decide)).2⟩,
   ⟨Outcome.eq_done_of_error_none (by decide), by decide, by decide, by decide,
    ((pool_exhaustion_unreachable twoFramesQueuedCamera.stop stoppedAndRestarted.state
      640 480 60 .RGB24 (MmalAnswers.allSucceed 3 921600) leftoverEvents
      (Outcome.eq_done_of_error_none (by decide)) (by decide)).2.2.2 6).1,
    ((pool_exhaustion_unreachable twoFramesQueuedCamera.stop stoppedAndRestarted.state
      640 480 60 .RGB24 (MmalAnswers.allSucceed 3 921600) leftoverEvents
      (Outcome.eq_done_of_error_none (by decide)) (by decide)).2.2.2 6).2.1⟩⟩

/-- While the frame queue and the consumer hold buffers of the pool only, a step of normal
operation releases a buffer of the pool, and the frame queue and the consumer hold buffers of
the pool afterwards. -/
theorem CameraSim.step_own_frames {h : Nat} (x : CameraSim) (e : CameraEvent)
    (hx : x.Circulating h) (oq : ∀ b ∈ x.cam.frameQueue, b.pool = h)
    (oc : ∀ b ∈ x.checkedOut, b.pool = h) (he : e.normal = true) :
    x.releasesOwn e = true ∧ (∀ b ∈ (x.step e).cam.frameQueue, b.pool = h) ∧
    (∀ b ∈ (x.step e).checkedOut, b.pool = h) := by
  obtain ⟨pool, port, hpool, hh, hq, hport, hen, oheld⟩ := hx
  cases e with
  | hardwareReturns i length data st =>
    refine ⟨rfl, ?_, oc⟩
    simp only [CameraEvent.normal, Bool.and_eq_true, bne_iff_ne, ne_eq, beq_iff_eq] at he
    obtain ⟨⟨hl, hd⟩, hst⟩ := he
    subst hst
    cases hb : port.held[i]? with
    | none =>
      have hcam : (x.step (.hardwareReturns i length data MMAL_SUCCESS)).cam = x.cam := by
        simp [CameraSim.step, RPiCamera.hardwareReturns, hport, hb]
      rw [hcam]
      exact oq
    | some b0 =>
      have hmem : b0 ∈ port.held := List.getElem?_mem hb
      have hcam : (x.step (.hardwareReturns i length data MMAL_SUCCESS)).cam
          = ({ x.cam with pPreviewPort := some { port with held := port.held.eraseIdx i } }
              )._internalPreviewOutCb { b0 with length := length, data := data } MMAL_SUCCESS := by
        simp [CameraSim.step, RPiCamera.hardwareReturns, previewOutputCallback, hport, hb, hl, hd]
      by_cases hfull : mmal_queue_length x.cam.pFrameQueue < 2
      · have hcam2 : (x.step (.hardwareReturns i length data MMAL_SUCCESS)).cam.frameQueue
            = (mmal_queue_put x.cam.pFrameQueue
                { b0 with length := length, data := data }).getD [] := by
          rw [hcam]
          simp [RPiCamera._internalPreviewOutCb, hfull, RPiCamera.frameQueue]
        rw [hcam2]
        intro c hc
        cases hfq : x.cam.pFrameQueue with
        | none => simp [mmal_queue_put, hfq] at hc
        | some q =>
          simp only [mmal_queue_put, hfq, Option.getD_some, List.mem_append,
            List.mem_singleton] at hc
          rcases hc with hc | hc
          · exact oq c (by simp [RPiCamera.frameQueue, hfq, hc])
          · rw [hc]; exact oheld b0 hmem
      · have hcam2 : (x.step (.hardwareReturns i length data MMAL_SUCCESS)).cam.frameQueue
            = x.cam.frameQueue := by
          rw [hcam]
          simp [RPiCamera._internalPreviewOutCb, hfull, RPiCamera.frameQueue,
            releaseFrame_pFrameQueue]
        rw [hcam2]
        exact oq
  | waitForFrame t =>
    refine ⟨rfl, ?_, ?_⟩
    · intro c hc
      cases hfq : x.cam.pFrameQueue with
      | none =>
        simp [CameraSim.step, RPiCamera.waitForFrame, RPiCamera.frameQueue, hfq] at hc
      | some q =>
        cases q with
        | nil =>
          simp [CameraSim.step, RPiCamera.waitForFrame, RPiCamera.frameQueue, hfq,
            mmal_queue_timedwait, mmal_queue_get] at hc
        | cons b rest =>
          simp only [CameraSim.step, RPiCamera.waitForFrame, RPiCamera.frameQueue, hfq,
            mmal_queue_timedwait, mmal_queue_get, Option.getD_some] at hc
          exact oq c (by simp [RPiCamera.frameQueue, hfq, hc])
    · intro c hc
      cases hfq : x.cam.pFrameQueue with
      | none =>
        simp only [CameraSim.step, RPiCamera.waitForFrame, hfq, Option.toList_none,
          List.append_nil] at hc
        exact oc c hc
      | some q =>
        cases q with
        | nil =>
          simp only [CameraSim.step, RPiCamera.waitForFrame, hfq, mmal_queue_timedwait,
            mmal_queue_get, Option.toList_none, List.append_nil] at hc
          exact oc c hc
        | cons b rest =>
          simp only [CameraSim.step, RPiCamera.waitForFrame, hfq, mmal_queue_timedwait,
            mmal_queue_get, Option.toList_some, List.mem_append, List.mem_singleton] at hc
          rcases hc with hc | hc
          · exact oc c hc
          · rw [hc]; exact oq b (by simp [RPiCamera.frameQueue, hfq])
  | releaseFrame j st =>
    cases j with
    | none => simp [CameraEvent.normal] at he
    | some j =>
      cases hb : x.checkedOut[j]? with
      | none =>
        refine ⟨by simp [CameraSim.releasesOwn, hb], ?_, ?_⟩
        · simpa [CameraSim.step, hb] using oq
        · simpa [CameraSim.step, hb] using oc
      | some b =>
        have hmem : b ∈ x.checkedOut := List.getElem?_mem hb
        refine ⟨by simp [CameraSim.releasesOwn, hb, hpool, hh, oc b hmem], ?_, ?_⟩
        · intro c hc
          simp only [CameraSim.step, hb, RPiCamera.frameQueue, releaseFrame_pFrameQueue] at hc
          exact oq c hc
        · intro c hc
          simp only [CameraSim.step, hb] at hc
          exact oc c (List.mem_of_mem_eraseIdx hc)

/-- While the frame queue and the consumer hold buffers of the pool only, every run of steps of
normal operation is one in which the consumer releases buffers of the pool only. -/
theorem CameraSim.normalRun_of_own_frames {h : Nat} (evs : List CameraEvent) (x : CameraSim)
    (hx : x.Circulating h) (oq : ∀ b ∈ x.cam.frameQueue, b.pool = h)
    (oc : ∀ b ∈ x.checkedOut, b.pool = h) (he : ∀ e ∈ evs, e.normal = true) :
    x.normalRun evs = true := by
  induction evs generalizing x with
  | nil => rfl
  | cons e evs ih =>
    have he1 := he e (List.mem_cons_self _ _)
    obtain ⟨h1, h2, h3⟩ := CameraSim.step_own_frames x e hx oq oc he1
    simp only [CameraSim.normalRun, Bool.and_eq_true]
    exact ⟨⟨he1, h1⟩, ih _ (CameraSim.step_circulating x e hx he1 h1).1 h2 h3
      (fun e' he' => he e' (List.mem_cons_of_mem _ he'))⟩

/-- After a successful `start()` on a session whose frame queue holds no buffer (a first start,
or a start after every queued frame was taken), every run of producer callbacks with frames,
`waitForFrame` calls and `releaseFrame` calls with a checked-out buffer in which every send is
accepted is a run in which the consumer releases buffers of the pool only. -/
theorem normalRun_after_clean_start (s u : RPiCamera) (width height framerate : Int)
    (encoding : MMAL_FOURCC_T) (env : MmalAnswers) (evs : List CameraEvent)
    (hstart : s.start width height framerate encoding env = .done u)
    (hclean : s.frameQueue = []) (hev : ∀ e ∈ evs, e.normal = true) :
    (CameraSim.init u).normalRun evs = true := by
  obtain ⟨a, b, c, d, e⟩ := start_done s u width height framerate encoding env hstart
  have hq : u.frameQueue = [] := by
    unfold RPiCamera.frameQueue at hclean ⊢
    rw [d]
    cases hs : s.pFrameQueue with
    | none => cases env.queue_create <;> simp
    | some q => rw [hs] at hclean; simpa using hclean
  refine CameraSim.normalRun_of_own_frames evs _
    (circulating_after_start s u width height framerate encoding env hstart) ?_ ?_ hev
  · intro x hx
    simp [CameraSim.init, hq] at hx
  · intro x hx
    simp [CameraSim.init] at hx

/-- C18, evaluated where it fails.  The camera is started again after a stop with two frames
queued: the start succeeds, the 3 buffers of the new pool 4 are at the port, the free queue is
empty and the port is enabled.  The consumer waits for a frame and gets the first leftover frame,
a buffer of the pool 2 destroyed by the stop; it releases this checked-out buffer, the port
accepting every buffer.  Function `releaseFrame` releases the buffer, finds the free queue of the
pool empty and prints "Could not get buffer from port queue"; no buffer is sent to the port. -/
theorem leftover_frame_release_finds_pool_empty :
    stoppedAndRestarted.error = none ∧
    stoppedAndRestarted.state.pPreviewPool.map (·.handle) = some 4 ∧
    stoppedAndRestarted.state.held.length = 3 ∧
    stoppedAndRestarted.state.poolQueue = [] ∧
    stoppedAndRestarted.state.portEnabled = true ∧
    leftoverReleaseEvents.all CameraEvent.normal = true ∧
    ((CameraSim.init stoppedAndRestarted.state).run (leftoverReleaseEvents.take 1)).checkedOut
      = [⟨2, 0, 100, 7⟩] ∧
    ((CameraSim.init stoppedAndRestarted.state).run leftoverReleaseEvents).cam.calls
      = stoppedAndRestarted.state.calls ++ [.buffer_header_release ⟨2, 0, 100, 7⟩] ∧
    ((CameraSim.init stoppedAndRestarted.state).run leftoverReleaseEvents).cam.diag
      = stoppedAndRestarted.state.diag ++ [.could_not_get_buffer] ∧
    ((CameraSim.init stoppedAndRestarted.state).run leftoverReleaseEvents).cam.portEnabled
      = true ∧
    ((CameraSim.init stoppedAndRestarted.state).run leftoverReleaseEvents).cam.held.length
      = 3 := by
  decide

/-! ## A failed set-up, and frames left over by `stop` -/

/-- C11, evaluated where it fails.  When the camera selection fails, `start` throws and the
component is destroyed (no component is left alive), but `pCameraComponent` still holds the
handle, and a following `stop()` disables and destroys that component again.  When the enabling
of the preview port fails, or the submission of the second buffer, the pool allocated before is
still there as well, and the following `stop()` destroys it.  Only when the creation of the
component itself fails is the session left without component and pool. -/
theorem failed_start_keeps_dangling_handles :
    failedSelectStart.error = some MMAL_EINVAL ∧
    failedSelectStart.state.live = [] ∧
    failedSelectStart.state.pCameraComponent = some 1 ∧
    failedSelectStart.state.stop.calls
      = failedSelectStart.state.calls ++ [.component_disable 1, .component_destroy 1] ∧
    failedEnableStart.error = some MMAL_EINVAL ∧
    failedEnableStart.state.live = [] ∧
    failedEnableStart.state.pCameraComponent = some 1 ∧
    failedEnableStart.state.pPreviewPool.map (·.handle) = some 2 ∧
    failedEnableStart.state.stop.calls
      = failedEnableStart.state.calls
        ++ [.pool_destroy 2, .component_disable 1, .component_destroy 1] ∧
    failedSendStart.error = some MMAL_EINVAL ∧
    failedSendStart.state.pCameraComponent = some 1 ∧
    failedSendStart.state.pPreviewPool.map (·.handle) = some 2 ∧
    failedSendStart.state.stop.calls
      = failedSendStart.state.calls
        ++ [.pool_destroy 2, .component_disable 1, .component_destroy 1] ∧
    failedCreateStart.error = some MMAL_ENOMEM ∧
    failedCreateStart.state.pCameraComponent = none ∧
    failedCreateStart.state.pPreviewPool = none ∧
    failedCreateStart.state.stop.calls = failedCreateStart.state.calls := by
  decide

/-- C19, evaluated where it fails.  Two frames of pool 2 are queued when `stop()` is called:
`stop()` destroys pool 2 and leaves the frame queue as it is, so `waitForFrame` after `stop()`
returns a buffer of pool 2.  A following `start()` keeps the queue and creates pool 4, and
`waitForFrame` still returns the buffer of pool 2.  The same through `CaptureRPi`: after
`stopCapture` and `startCapture`, `getFrame` checks out a buffer of the destroyed pool. -/
theorem stale_frames_survive_stop :
    twoFramesQueuedCamera.Running ∧
    twoFramesQueuedCamera.pPreviewPool.map (·.handle) = some 2 ∧
    MmalCall.pool_destroy 2 ∈ twoFramesQueuedCamera.stop.calls ∧
    twoFramesQueuedCamera.stop.pPreviewPool = none ∧
    twoFramesQueuedCamera.stop.pFrameQueue = some [⟨2, 0, 100, 7⟩, ⟨2, 1, 200, 7⟩] ∧
    (twoFramesQueuedCamera.stop.waitForFrame 200).1 = some ⟨2, 0, 100, 7⟩ ∧
    stoppedAndRestarted.error = none ∧
    stoppedAndRestarted.state.pPreviewPool.map (·.handle) = some 4 ∧
    (stoppedAndRestarted.state.waitForFrame 200).1 = some ⟨2, 0, 100, 7⟩ ∧
    recapturing.is_capturing = true ∧
    recapturing.camera.pPreviewPool.map (·.handle) = some 4 ∧
    recapturing.getFrame.2.pLastFrame = some ⟨2, 0, 100, 7⟩ := by
  decide

theorem callAll_pCameraComponent (s : RPiCamera) (cs : List MmalCall) :
    (s.callAll cs).pCameraComponent = s.pCameraComponent := rfl

theorem setupCamera_pCameraComponent (s : RPiCamera) (env : MmalAnswers)
    (hc : env.component_create = MMAL_SUCCESS) :
    (s.setupCamera env).state.pCameraComponent = some s.fresh := by
  unfold RPiCamera.setupCamera
  simp only [hc, ne_eq, not_true_eq_false, if_false]
  split_ifs <;> rfl

theorem setupStillPort_pCameraComponent (s : RPiCamera) (env : MmalAnswers) :
    (s.setupStillPort env).state.pCameraComponent = s.pCameraComponent := by
  unfold RPiCamera.setupStillPort
  simp only []
  split_ifs <;> rfl

theorem setupVideoPort_pCameraComponent (s : RPiCamera) (env : MmalAnswers) :
    (s.setupVideoPort env).state.pCameraComponent = s.pCameraComponent := by
  unfold RPiCamera.setupVideoPort
  simp only []
  split_ifs <;> rfl

theorem setupPreviewPort_pCameraComponent (s : RPiCamera) (env : MmalAnswers) :
    (s.setupPreviewPort env).state.pCameraComponent = s.pCameraComponent := by
  unfold RPiCamera.setupPreviewPort
  simp only []
  split_ifs <;> rfl

theorem mmal_port_send_buffer_pCameraComponent (s : RPiCamera) (b : MMAL_BUFFER_HEADER_T)
    (st : MMAL_STATUS_T) :
    (s.mmal_port_send_buffer b st).pCameraComponent = s.pCameraComponent := by
  unfold RPiCamera.mmal_port_send_buffer
  split
  · simp only []
    split_ifs <;> rfl
  · rfl

theorem fillPreviewPort_pCameraComponent (env : MmalAnswers) (n i : Nat) (s : RPiCamera) :
    (RPiCamera.fillPreviewPort env n i s).state.pCameraComponent = s.pCameraComponent := by
  induction n generalizing i s with
  | zero => rfl
  | succ n ih =>
    unfold RPiCamera.fillPreviewPort
    split
    · simp only []
      split
      · exact mmal_port_send_buffer_pCameraComponent _ _ _
      · rw [ih]
        exact mmal_port_send_buffer_pCameraComponent _ _ _
    · rfl

theorem startPreview_pCameraComponent (s : RPiCamera) (env : MmalAnswers) :
    (s.startPreview env).state.pCameraComponent = s.pCameraComponent := by
  unfold RPiCamera.startPreview
  split
  · rfl
  · simp only []
    split_ifs
    · rfl
    · rfl
    · rfl
    · rw [fillPreviewPort_pCameraComponent]
      rfl

theorem andThen_pCameraComponent {o : Outcome} {f : RPiCamera → Outcome} {c : Nat}
    (h : o.state.pCameraComponent = some c)
    (hf : ∀ t : RPiCamera, (f t).state.pCameraComponent = t.pCameraComponent) :
    (o.andThen f).state.pCameraComponent = some c := by
  cases o with
  | done t => exact (hf t).trans h
  | thrown e t => exact h

theorem andThen_keeps_pCameraComponent {g f : RPiCamera → Outcome}
    (hg : ∀ t : RPiCamera, (g t).state.pCameraComponent = t.pCameraComponent)
    (hf : ∀ t : RPiCamera, (f t).state.pCameraComponent = t.pCameraComponent) (t : RPiCamera) :
    ((g t).andThen f).state.pCameraComponent = t.pCameraComponent := by
  cases h : g t with
  | done u =>
    have := hg t
    rw [h] at this
    exact (hf u).trans this
  | thrown e u =>
    have := hg t
    rw [h] at this
    exact this

/-- Once the component is created, the `try` block of `start` ends, normally or not, with
`pCameraComponent` holding its handle. -/
theorem startTry_pCameraComponent (s : RPiCamera) (env : MmalAnswers)
    (hc : env.component_create = MMAL_SUCCESS) :
    (s.startTry env).state.pCameraComponent = some s.fresh := by
  unfold RPiCamera.startTry
  refine andThen_pCameraComponent (setupCamera_pCameraComponent s env hc) fun t => ?_
  obtain ⟨cs, hcs⟩ := setDefaultParameters_callAll t
  have h5 : ∀ t : RPiCamera,
      ((t.setupPreviewPort env).andThen fun s => s.startPreview env).state.pCameraComponent
        = t.pCameraComponent :=
    andThen_keeps_pCameraComponent (fun t => setupPreviewPort_pCameraComponent t env)
      (fun t => startPreview_pCameraComponent t env)
  have h4 : ∀ t : RPiCamera,
      ((t.setupVideoPort env).andThen fun s =>
        (s.setupPreviewPort env).andThen fun s => s.startPreview env).state.pCameraComponent
        = t.pCameraComponent :=
    andThen_keeps_pCameraComponent (fun t => setupVideoPort_pCameraComponent t env) h5
  have h3 : ∀ t : RPiCamera,
      ((t.setupStillPort env).andThen fun s =>
        (s.setupVideoPort env).andThen fun s =>
        (s.setupPreviewPort env).andThen fun s => s.startPreview env).state.pCameraComponent
        = t.pCameraComponent :=
    andThen_keeps_pCameraComponent (fun t => setupStillPort_pCameraComponent t env) h4
  exact (h3 t.setDefaultParameters).trans (by rw [hcs]; rfl)

/-- With a component handle in `pCameraComponent`, `stop()` ends with disabling and destroying
that component, whatever else it does before. -/
theorem stop_calls_of_component (u : RPiCamera) (c : Nat) (hc : u.pCameraComponent = some c) :
    ∃ mid, u.stop.calls = u.calls ++ mid ++ [.component_disable c, .component_destroy c] := by
  cases hp : u.pPreviewPool with
  | none =>
    cases hv : u.videoPortEnabled with
    | false =>
      refine ⟨[], ?_⟩
      unfold RPiCamera.stop
      simp [RPiCamera.call, RPiCamera.mmal_component_destroy, hp, hc, hv]
    | true =>
      refine ⟨[.port_disable c (.output MMAL_CAMERA_VIDEO_PORT)], ?_⟩
      unfold RPiCamera.stop
      simp [RPiCamera.call, RPiCamera.mmal_component_destroy, hp, hc, hv]
  | some pool =>
    cases hv : u.videoPortEnabled with
    | false =>
      refine ⟨[.pool_destroy pool.handle], ?_⟩
      unfold RPiCamera.stop
      simp [RPiCamera.call, RPiCamera.mmal_component_destroy, hp, hc, hv]
    | true =>
      refine ⟨[.pool_destroy pool.handle, .port_disable c (.output MMAL_CAMERA_VIDEO_PORT)], ?_⟩
      unfold RPiCamera.stop
      simp [RPiCamera.call, RPiCamera.mmal_component_destroy, hp, hc, hv]

/-- The defect behind the failed unwinding, for every set-up step after the creation of the
component: whenever `start` throws with the component created, the catch block has destroyed the
component (its last MMAL call) and `pCameraComponent` still holds the handle, so that a
following `stop()` disables and destroys the same component once more. -/
theorem start_failure_leaves_handle (s : RPiCamera) (width height framerate : Int)
    (encoding : MMAL_FOURCC_T) (env : MmalAnswers)
    (hc : env.component_create = MMAL_SUCCESS)
    (herr : (s.start width height framerate encoding env).error ≠ none) :
    (s.start width height framerate encoding env).state.pCameraComponent = some s.fresh ∧
    (∃ pre, (s.start width height framerate encoding env).state.calls
      = pre ++ [.component_destroy s.fresh]) ∧
    ∃ mid, (s.start width height framerate encoding env).state.stop.calls
      = (s.start width height framerate encoding env).state.calls ++ mid
          ++ [.component_disable s.fresh, .component_destroy s.fresh] := by
  have hf : (s.startStore width height framerate encoding env).fresh = s.fresh := by
    unfold RPiCamera.startStore
    simp only []
    split <;> rfl
  have htry := startTry_pCameraComponent (s.startStore width height framerate encoding env) env hc
  rw [hf] at htry
  unfold RPiCamera.start at herr ⊢
  cases ho : (s.startStore width height framerate encoding env).startTry env with
  | done t =>
    rw [ho] at herr
    exact absurd rfl herr
  | thrown e t =>
    rw [ho] at htry
    simp only [Outcome.state] at htry
    have hstate : (Outcome.thrown e t).startCatch.state = t.mmal_component_destroy s.fresh := by
      simp [Outcome.startCatch, htry, Outcome.state]
    rw [hstate]
    have hcomp : (t.mmal_component_destroy s.fresh).pCameraComponent = some s.fresh := htry
    exact ⟨hcomp, ⟨t.calls, rfl⟩, stop_calls_of_component _ _ hcomp⟩

end rpi
